import Mathlib

/-!
# PsiChat: session store, HTTP client boundary, route guard, notifications, logger

A shallow embedding of the client-side core of PsiChat:

* `frontend/src/contexts/AuthContext.js` (the session store `AuthProvider`),
* `src/services/api.js` (the axios instance, its two interceptors, the five
  service objects),
* `src/config/environment.js` (the configuration of the client),
* `frontend/src/App.js` (`ProtectedRoute`),
* `src/utils/notifications.js` (`NotificationManager`, with the page elements
  and timers it works on),
* `src/utils/logger.js` (`Logger`),
* `frontend/src/utils/validation.js` (the validators and `sanitizeInput`),
* `src/utils/performance.js` (`memoize`),
* the handlers of the views `Login`, `CambiarContrasena`, `NotificacionesTutor`
  and `ChatPrincipal`, and the route table of `App.js`.

Asynchronous functions are embedded as state transformers over a `World` that
holds the React state of `AuthProvider`, `localStorage`, `window.location.href`,
the default `Authorization` header of the axios instance and the list of
requests handed to the network.  The answer of the backend to the one request
an operation issues is a parameter of the operation (`Except ApiError α`).
A JavaScript exception is the `Except.error` result; the world is kept when an
exception propagates, as in JavaScript.  React state setters take effect at
once.  Payloads of successful answers are well-typed (`User`, `AuthPayload`).
Calls to `logger` write to the console only, which is not part of `World`, and
are left out.
-/

namespace PsiChat

/-! ## Data model -/

/-- The user object the backend returns.  `rol` and `permisos` are read with
optional chaining by the route guard, so either may be missing. -/
structure User where
  id : Nat
  email : String
  rol : Option String
  permisos : Option (List String)
deriving DecidableEq, Repr

/-- The part of an axios error response the code reads: `error.response.status`
and `error.response.data.detail`. -/
structure ErrorResponse where
  status : Nat
  detail : Option String
deriving DecidableEq, Repr

/-- An axios error.  `response` is missing for network failures and timeouts. -/
structure ApiError where
  message : String
  response : Option ErrorResponse
deriving DecidableEq, Repr

/-- The four `useState` cells of `AuthProvider` (AuthContext.js 16-19). -/
structure Session where
  user : Option User
  isAuthenticated : Bool
  loading : Bool
  error : Option String
deriving DecidableEq, Repr

/-- HTTP verbs used by the service layer. -/
inductive Method where
  | GET
  | POST
  | PUT
  | DELETE
deriving DecidableEq, Repr

/-- A request as it leaves the client: verb, path, body fields, the
`Authorization` header (if any) and the query parameters (`params`). -/
structure Request where
  method : Method
  url : String
  data : List (String × String)
  authorization : Option String
  params : List (String × String) := []
deriving DecidableEq, Repr

/-- Contents of `window.localStorage`: key/value pairs, at most one per key. -/
abbrev Storage := List (String × String)

/-- `localStorage.getItem(key)`: the stored string, or `null` (here `none`). -/
def Storage.getItem (s : Storage) (key : String) : Option String :=
  (s.find? (fun kv => kv.1 == key)).map (fun kv => kv.2)

/-- `localStorage.removeItem(key)`. -/
def Storage.removeItem (s : Storage) (key : String) : Storage :=
  s.filter (fun kv => kv.1 != key)

/-- `localStorage.setItem(key, value)`: overwrites the slot of `key`. -/
def Storage.setItem (s : Storage) (key value : String) : Storage :=
  (key, value) :: s.removeItem key

/-- Everything the authentication layer reads or writes. -/
structure World where
  session : Session
  localStorage : Storage
  href : String
  commonAuthorization : Option String
  sent : List Request
deriving DecidableEq, Repr

/-- The success payload of the login and registration endpoints,
`{ token, user }` (AuthContext.js 45 and 64). -/
structure AuthPayload where
  token : String
  user : User
deriving DecidableEq, Repr

/-! ## JavaScript idioms -/

/-- Truthiness of a value that is `null` or a string: `if (token)`. -/
def truthy (v : Option String) : Bool :=
  match v with
  | some s => s != ""
  | none => false

/-- The expression `v || fallback` for `v` undefined or a string. -/
def orElse (v : Option String) (fallback : String) : String :=
  match v with
  | some s => if s != "" then s else fallback
  | none => fallback

/-- The call `xs.includes(v)` for an array of strings and `v` undefined or a string. -/
def includes (xs : List String) (v : Option String) : Bool :=
  match v with
  | some s => xs.contains s
  | none => false

/-- The test `error.response?.status === 401`. -/
def ApiError.is401 (e : ApiError) : Bool :=
  e.response.map (fun r => r.status) == some 401

/-! ## Effects: state, exceptions, try/catch/finally -/

/-- A computation that may change the world and either returns or throws. -/
def Eff (α : Type) : Type := World → Except ApiError α × World

/-- Return a value. -/
def Eff.ret {α : Type} (a : α) : Eff α := fun w => (Except.ok a, w)

/-- Sequencing: a thrown error skips the continuation and keeps the world. -/
def Eff.seq {α β : Type} (m : Eff α) (f : α → Eff β) : Eff β := fun w =>
  match m w with
  | (Except.ok a, w1) => f a w1
  | (Except.error e, w1) => (Except.error e, w1)

/-- The statement `throw e`. -/
def Eff.raise {α : Type} (e : ApiError) : Eff α := fun w => (Except.error e, w)

/-- Change the world. -/
def Eff.modify (f : World → World) : Eff Unit := fun w => (Except.ok (), f w)

/-- The block `try body catch (e) handler`. -/
def Eff.tryCatch {α : Type} (body : Eff α) (handler : ApiError → Eff α) : Eff α := fun w =>
  match body w with
  | (Except.ok a, w1) => (Except.ok a, w1)
  | (Except.error e, w1) => handler e w1

/-- The block `try body finally fin`: `fin` runs on both exits and the
result of `body` is kept. -/
def Eff.tryFinally {α : Type} (body : Eff α) (fin : Eff Unit) : Eff α := fun w =>
  match body w with
  | (r, w1) =>
    match fin w1 with
    | (Except.ok _, w2) => (r, w2)
    | (Except.error e, w2) => (Except.error e, w2)

instance : Monad Eff where
  pure := Eff.ret
  bind := Eff.seq

/-! ## React state setters and browser globals -/

/-- The setter `setUser`. -/
def setUser (u : Option User) : Eff Unit :=
  Eff.modify fun w => { w with session := { w.session with user := u } }

/-- The setter `setIsAuthenticated`. -/
def setIsAuthenticated (b : Bool) : Eff Unit :=
  Eff.modify fun w => { w with session := { w.session with isAuthenticated := b } }

/-- The setter `setLoading`. -/
def setLoading (b : Bool) : Eff Unit :=
  Eff.modify fun w => { w with session := { w.session with loading := b } }

/-- The setter `setError`. -/
def setError (e : Option String) : Eff Unit :=
  Eff.modify fun w => { w with session := { w.session with error := e } }

/-- Effectful `localStorage.getItem`. -/
def localStorage.getItem (key : String) : Eff (Option String) :=
  fun w => (Except.ok (w.localStorage.getItem key), w)

/-- Effectful `localStorage.setItem`. -/
def localStorage.setItem (key value : String) : Eff Unit :=
  Eff.modify fun w => { w with localStorage := w.localStorage.setItem key value }

/-- Effectful `localStorage.removeItem`. -/
def localStorage.removeItem (key : String) : Eff Unit :=
  Eff.modify fun w => { w with localStorage := w.localStorage.removeItem key }

/-! ## HTTP client boundary (`src/services/api.js`) -/

/-- Request interceptor (api.js 15-22): attach the stored token as a bearer header. -/
def requestInterceptor (config : Request) : Eff Request := do
  let token ← localStorage.getItem "token"
  if truthy token then
    pure { config with authorization := some ("Bearer " ++ token.getD "") }
  else
    pure config

/-- Response interceptor, error branch (api.js 31-37): on status 401 remove the
token and assign `window.location.href`; reject with the same error. -/
def responseInterceptor {α : Type} (error : ApiError) : Eff α := do
  if error.is401 then
    localStorage.removeItem "token"
    Eff.modify fun w => { w with href := "/login" }
  Eff.raise error

/-- One request through the axios instance `api`.  The config starts from the
instance defaults (`api.defaults.headers.common`), passes the request
interceptor, is handed to the network, and the answer `outcome` passes the
response interceptor. -/
def api.send {α : Type} (method : Method) (url : String) (data : List (String × String))
    (params : List (String × String)) (outcome : Except ApiError α) : Eff α := do
  let defaults ← (fun w => (Except.ok w.commonAuthorization, w) : Eff (Option String))
  let config ← requestInterceptor
    { method := method, url := url, data := data, authorization := defaults, params := params }
  Eff.modify fun w => { w with sent := w.sent ++ [config] }
  match outcome with
  | Except.ok response => pure response
  | Except.error error => responseInterceptor error

/-- A request without query parameters. -/
def api.request {α : Type} (method : Method) (url : String) (data : List (String × String))
    (outcome : Except ApiError α) : Eff α :=
  api.send method url data [] outcome

/-- The call `api.get(url, { params })`. -/
def api.get {α : Type} (url : String) (params : List (String × String))
    (outcome : Except ApiError α) : Eff α :=
  api.send Method.GET url [] params outcome

/-- The call `api.post(url, data)`. -/
def api.post {α : Type} (url : String) (data : List (String × String))
    (outcome : Except ApiError α) : Eff α :=
  api.send Method.POST url data [] outcome

/-- The call `api.put(url, data)`. -/
def api.put {α : Type} (url : String) (data : List (String × String))
    (outcome : Except ApiError α) : Eff α :=
  api.send Method.PUT url data [] outcome

/-- The call `api.delete(url)`. -/
def api.delete {α : Type} (url : String) (outcome : Except ApiError α) : Eff α :=
  api.send Method.DELETE url [] [] outcome

/-- The method `authService.setToken` (api.js 42-45). -/
def authService.setToken (token : String) : Eff Unit := do
  localStorage.setItem "token" token
  Eff.modify fun w => { w with commonAuthorization := some ("Bearer " ++ token) }

/-- The method `authService.removeToken` (api.js 47-50). -/
def authService.removeToken : Eff Unit := do
  localStorage.removeItem "token"
  Eff.modify fun w => { w with commonAuthorization := none }

/-- The method `authService.login` (api.js 52-55). -/
def authService.login (email password : String) (outcome : Except ApiError AuthPayload) :
    Eff AuthPayload :=
  api.request Method.POST "/auth/login" [("username", email), ("password", password)] outcome

/-- The method `authService.register` (api.js 57-60). -/
def authService.register (userData : List (String × String))
    (outcome : Except ApiError AuthPayload) : Eff AuthPayload :=
  api.request Method.POST "/auth/register" userData outcome

/-- The method `authService.getCurrentUser` (api.js 62-65). -/
def authService.getCurrentUser (outcome : Except ApiError User) : Eff User :=
  api.request Method.GET "/auth/me" [] outcome

/-- The method `authService.changePassword` (api.js 72-75). -/
def authService.changePassword (oldPassword newPassword : String)
    (outcome : Except ApiError Unit) : Eff Unit :=
  api.request Method.POST "/auth/change-password"
    [("old_password", oldPassword), ("new_password", newPassword)] outcome

/-- The method `chatService.getChatHistory` (api.js 85-88), a façade the views
call directly. -/
def chatService.getChatHistory {α : Type} (outcome : Except ApiError α) : Eff α :=
  api.request Method.GET "/chat/history" [] outcome

/-- The method `authService.getStudents` (api.js 67-70). -/
def authService.getStudents {α : Type} (outcome : Except ApiError α) : Eff α :=
  api.get "/auth/students" [] outcome

/-- The method `chatService.sendMessage` (api.js 80-83). -/
def chatService.sendMessage {α : Type} (message : List (String × String))
    (outcome : Except ApiError α) : Eff α :=
  api.post "/chat/" message outcome

/-- The method `chatService.getConversation` (api.js 90-93). -/
def chatService.getConversation {α : Type} (studentId : String)
    (outcome : Except ApiError α) : Eff α :=
  api.get ("/chat/conversation/" ++ studentId) [] outcome

/-- The method `chatService.getParticipantInfo` (api.js 95-98). -/
def chatService.getParticipantInfo {α : Type} (participantId : String)
    (outcome : Except ApiError α) : Eff α :=
  api.get ("/users/" ++ participantId) [] outcome

/-- The method `chatService.getDirectChatHistory` (api.js 100-103). -/
def chatService.getDirectChatHistory {α : Type} (participantId : String)
    (outcome : Except ApiError α) : Eff α :=
  api.get ("/chat/direct/" ++ participantId) [] outcome

/-- The method `chatService.sendDirectMessage` (api.js 105-108). -/
def chatService.sendDirectMessage {α : Type} (messageData : List (String × String))
    (outcome : Except ApiError α) : Eff α :=
  api.post "/chat/direct" messageData outcome

/-- The method `chatService.getLastAnalysis` (api.js 110-113). -/
def chatService.getLastAnalysis {α : Type} (studentId : String)
    (outcome : Except ApiError α) : Eff α :=
  api.get ("/analysis/last/" ++ studentId) [] outcome

/-- The method `analysisService.analyzeMessage` (api.js 118-121). -/
def analysisService.analyzeMessage {α : Type} (message : String)
    (outcome : Except ApiError α) : Eff α :=
  api.post "/analysis/analyze" [("message", message)] outcome

/-- The method `analysisService.analyzeComplete` (api.js 123-126). -/
def analysisService.analyzeComplete {α : Type} (message : String)
    (outcome : Except ApiError α) : Eff α :=
  api.post "/analysis/complete" [("texto", message)] outcome

/-- The method `analysisService.getLastAnalysis` (api.js 128-131). -/
def analysisService.getLastAnalysis {α : Type} (outcome : Except ApiError α) : Eff α :=
  api.get "/analysis/last" [] outcome

/-- The method `analysisService.getAnalysisHistory` (api.js 133-136). -/
def analysisService.getAnalysisHistory {α : Type} (outcome : Except ApiError α) : Eff α :=
  api.get "/analysis/history" [] outcome

/-- The method `analysisService.getDeepAnalysis` (api.js 138-141): an arrow
function without parameters. -/
def analysisService.getDeepAnalysis {α : Type} (outcome : Except ApiError α) : Eff α :=
  api.get "/analysis/deep" [] outcome

/-- The method `analysisService.getStudentAnalysis` (api.js 143-146). -/
def analysisService.getStudentAnalysis {α : Type} (studentId : String)
    (outcome : Except ApiError α) : Eff α :=
  api.get ("/analysis/student/" ++ studentId) [] outcome

/-- The method `analysisService.exportAnalysisReport` (api.js 148-151). -/
def analysisService.exportAnalysisReport {α : Type} (timeRange : String)
    (outcome : Except ApiError α) : Eff α :=
  api.get "/analysis/export-report" [("time_range", timeRange)] outcome

/-- The method `notificationService.getNotifications` (api.js 156-159). -/
def notificationService.getNotifications {α : Type} (outcome : Except ApiError α) : Eff α :=
  api.get "/notifications" [] outcome

/-- The method `notificationService.markAsRead` (api.js 161-164). -/
def notificationService.markAsRead {α : Type} (notificationId : String)
    (outcome : Except ApiError α) : Eff α :=
  api.put ("/notifications/" ++ notificationId ++ "/read") [] outcome

/-- The method `notificationService.createNotification` (api.js 166-169). -/
def notificationService.createNotification {α : Type}
    (notificationData : List (String × String)) (outcome : Except ApiError α) : Eff α :=
  api.post "/notifications" notificationData outcome

/-- The method `notificationService.getTutorNotifications` (api.js 171-174). -/
def notificationService.getTutorNotifications {α : Type} (outcome : Except ApiError α) :
    Eff α :=
  api.get "/tutor/notifications" [] outcome

/-- The method `notificationService.markTutorNotificationAsRead` (api.js 176-179). -/
def notificationService.markTutorNotificationAsRead {α : Type} (notificationId : String)
    (outcome : Except ApiError α) : Eff α :=
  api.put ("/tutor/notifications/" ++ notificationId ++ "/read") [] outcome

/-- The method `notificationService.markAllTutorNotificationsAsRead` (api.js 181-184). -/
def notificationService.markAllTutorNotificationsAsRead {α : Type}
    (outcome : Except ApiError α) : Eff α :=
  api.put "/tutor/notifications/mark-all-read" [] outcome

/-- The method `notificationService.deleteTutorNotification` (api.js 186-189). -/
def notificationService.deleteTutorNotification {α : Type} (notificationId : String)
    (outcome : Except ApiError α) : Eff α :=
  api.delete ("/tutor/notifications/" ++ notificationId) outcome

/-- The method `userService.getSettings` (api.js 194-197). -/
def userService.getSettings {α : Type} (outcome : Except ApiError α) : Eff α :=
  api.get "/user/settings" [] outcome

/-- The method `userService.updateSettings` (api.js 198-201). -/
def userService.updateSettings {α : Type} (settingsData : List (String × String))
    (outcome : Except ApiError α) : Eff α :=
  api.put "/user/settings" settingsData outcome

/-- The method `userService.resetSettings` (api.js 202-205). -/
def userService.resetSettings {α : Type} (outcome : Except ApiError α) : Eff α :=
  api.post "/user/settings/reset" [] outcome

/-- The method `userService.getProfile` (api.js 206-209). -/
def userService.getProfile {α : Type} (outcome : Except ApiError α) : Eff α :=
  api.get "/user/profile" [] outcome

/-- The method `userService.updateProfile` (api.js 210-213). -/
def userService.updateProfile {α : Type} (profileData : List (String × String))
    (outcome : Except ApiError α) : Eff α :=
  api.put "/user/profile" profileData outcome

/-- The method `userService.getProfileStats` (api.js 214-217). -/
def userService.getProfileStats {α : Type} (outcome : Except ApiError α) : Eff α :=
  api.get "/user/profile/stats" [] outcome

/-- The method `userService.getDashboardData` (api.js 218-221). -/
def userService.getDashboardData {α : Type} (params : List (String × String))
    (outcome : Except ApiError α) : Eff α :=
  api.get "/tutor/dashboard" params outcome

/-- The method `userService.getAlerts` (api.js 222-225). -/
def userService.getAlerts {α : Type} (outcome : Except ApiError α) : Eff α :=
  api.get "/tutor/alerts" [] outcome

/-- The method `userService.getStudentConversation` (api.js 226-229). -/
def userService.getStudentConversation {α : Type} (studentId : String)
    (outcome : Except ApiError α) : Eff α :=
  api.get ("/tutor/student/" ++ studentId ++ "/conversation") [] outcome

/-- The method `userService.sendIntervention` (api.js 230-236). -/
def userService.sendIntervention {α : Type} (studentId message : String)
    (outcome : Except ApiError α) : Eff α :=
  api.post "/tutor/intervene" [("student_id", studentId), ("message", message)] outcome

/-- A body field that may be `null`, written as the JSON literal. -/
def orNull (v : Option String) : String :=
  match v with
  | some s => s
  | none => "null"

/-- The method `userService.markAlertAsReviewed` (api.js 237-243); `notes` and
`actionTaken` default to `null`. -/
def userService.markAlertAsReviewed {α : Type} (alertId : String)
    (notes actionTaken : Option String) (outcome : Except ApiError α) : Eff α :=
  api.put ("/tutor/alert/" ++ alertId ++ "/review")
    [("notes", orNull notes), ("action_taken", orNull actionTaken)] outcome

/-- The method `userService.getStudents` (api.js 244-247). -/
def userService.getStudents {α : Type} (outcome : Except ApiError α) : Eff α :=
  api.get "/tutor/students" [] outcome

/-- The method `userService.getStudentAnalysis` (api.js 248-251). -/
def userService.getStudentAnalysis {α : Type} (studentId : String)
    (outcome : Except ApiError α) : Eff α :=
  api.get ("/tutor/student/" ++ studentId ++ "/analysis") [] outcome

/-- The method `userService.generateReport` (api.js 252-259); `reportType`
defaults to general. -/
def userService.generateReport {α : Type} (startDate endDate : String)
    (reportType : Option String) (outcome : Except ApiError α) : Eff α :=
  api.post "/tutor/reports"
    [("start_date", startDate), ("end_date", endDate),
     ("report_type", reportType.getD "general")] outcome

/-- Every network operation of the five service objects, with its arguments,
indexed by the type of the payload it returns. -/
inductive Facade : Type → Type 1 where
  | authLogin (email password : String) : Facade AuthPayload
  | authRegister (userData : List (String × String)) : Facade AuthPayload
  | authGetCurrentUser : Facade User
  | authGetStudents {α : Type} : Facade α
  | authChangePassword (oldPassword newPassword : String) : Facade Unit
  | chatSendMessage {α : Type} (message : List (String × String)) : Facade α
  | chatGetChatHistory {α : Type} : Facade α
  | chatGetConversation {α : Type} (studentId : String) : Facade α
  | chatGetParticipantInfo {α : Type} (participantId : String) : Facade α
  | chatGetDirectChatHistory {α : Type} (participantId : String) : Facade α
  | chatSendDirectMessage {α : Type} (messageData : List (String × String)) : Facade α
  | chatGetLastAnalysis {α : Type} (studentId : String) : Facade α
  | analysisAnalyzeMessage {α : Type} (message : String) : Facade α
  | analysisAnalyzeComplete {α : Type} (message : String) : Facade α
  | analysisGetLastAnalysis {α : Type} : Facade α
  | analysisGetAnalysisHistory {α : Type} : Facade α
  | analysisGetDeepAnalysis {α : Type} : Facade α
  | analysisGetStudentAnalysis {α : Type} (studentId : String) : Facade α
  | analysisExportAnalysisReport {α : Type} (timeRange : String) : Facade α
  | notificationGetNotifications {α : Type} : Facade α
  | notificationMarkAsRead {α : Type} (notificationId : String) : Facade α
  | notificationCreateNotification {α : Type} (data : List (String × String)) : Facade α
  | notificationGetTutorNotifications {α : Type} : Facade α
  | notificationMarkTutorNotificationAsRead {α : Type} (notificationId : String) : Facade α
  | notificationMarkAllTutorNotificationsAsRead {α : Type} : Facade α
  | notificationDeleteTutorNotification {α : Type} (notificationId : String) : Facade α
  | userGetSettings {α : Type} : Facade α
  | userUpdateSettings {α : Type} (settingsData : List (String × String)) : Facade α
  | userResetSettings {α : Type} : Facade α
  | userGetProfile {α : Type} : Facade α
  | userUpdateProfile {α : Type} (profileData : List (String × String)) : Facade α
  | userGetProfileStats {α : Type} : Facade α
  | userGetDashboardData {α : Type} (params : List (String × String)) : Facade α
  | userGetAlerts {α : Type} : Facade α
  | userGetStudentConversation {α : Type} (studentId : String) : Facade α
  | userSendIntervention {α : Type} (studentId message : String) : Facade α
  | userMarkAlertAsReviewed {α : Type} (alertId : String) (notes actionTaken : Option String) :
      Facade α
  | userGetStudents {α : Type} : Facade α
  | userGetStudentAnalysis {α : Type} (studentId : String) : Facade α
  | userGenerateReport {α : Type} (startDate endDate : String) (reportType : Option String) :
      Facade α

/-- Call the operation; `outcome` is the answer to the request it issues. -/
def Facade.run {α : Type} (f : Facade α) (outcome : Except ApiError α) : Eff α :=
  match f with
  | Facade.authLogin email password => authService.login email password outcome
  | Facade.authRegister userData => authService.register userData outcome
  | Facade.authGetCurrentUser => authService.getCurrentUser outcome
  | Facade.authGetStudents => authService.getStudents outcome
  | Facade.authChangePassword o n => authService.changePassword o n outcome
  | Facade.chatSendMessage message => chatService.sendMessage message outcome
  | Facade.chatGetChatHistory => chatService.getChatHistory outcome
  | Facade.chatGetConversation studentId => chatService.getConversation studentId outcome
  | Facade.chatGetParticipantInfo pid => chatService.getParticipantInfo pid outcome
  | Facade.chatGetDirectChatHistory pid => chatService.getDirectChatHistory pid outcome
  | Facade.chatSendDirectMessage messageData => chatService.sendDirectMessage messageData outcome
  | Facade.chatGetLastAnalysis studentId => chatService.getLastAnalysis studentId outcome
  | Facade.analysisAnalyzeMessage message => analysisService.analyzeMessage message outcome
  | Facade.analysisAnalyzeComplete message => analysisService.analyzeComplete message outcome
  | Facade.analysisGetLastAnalysis => analysisService.getLastAnalysis outcome
  | Facade.analysisGetAnalysisHistory => analysisService.getAnalysisHistory outcome
  | Facade.analysisGetDeepAnalysis => analysisService.getDeepAnalysis outcome
  | Facade.analysisGetStudentAnalysis studentId =>
    analysisService.getStudentAnalysis studentId outcome
  | Facade.analysisExportAnalysisReport timeRange =>
    analysisService.exportAnalysisReport timeRange outcome
  | Facade.notificationGetNotifications => notificationService.getNotifications outcome
  | Facade.notificationMarkAsRead nid => notificationService.markAsRead nid outcome
  | Facade.notificationCreateNotification data =>
    notificationService.createNotification data outcome
  | Facade.notificationGetTutorNotifications =>
    notificationService.getTutorNotifications outcome
  | Facade.notificationMarkTutorNotificationAsRead nid =>
    notificationService.markTutorNotificationAsRead nid outcome
  | Facade.notificationMarkAllTutorNotificationsAsRead =>
    notificationService.markAllTutorNotificationsAsRead outcome
  | Facade.notificationDeleteTutorNotification nid =>
    notificationService.deleteTutorNotification nid outcome
  | Facade.userGetSettings => userService.getSettings outcome
  | Facade.userUpdateSettings settingsData => userService.updateSettings settingsData outcome
  | Facade.userResetSettings => userService.resetSettings outcome
  | Facade.userGetProfile => userService.getProfile outcome
  | Facade.userUpdateProfile profileData => userService.updateProfile profileData outcome
  | Facade.userGetProfileStats => userService.getProfileStats outcome
  | Facade.userGetDashboardData params => userService.getDashboardData params outcome
  | Facade.userGetAlerts => userService.getAlerts outcome
  | Facade.userGetStudentConversation studentId =>
    userService.getStudentConversation studentId outcome
  | Facade.userSendIntervention studentId message =>
    userService.sendIntervention studentId message outcome
  | Facade.userMarkAlertAsReviewed alertId notes actionTaken =>
    userService.markAlertAsReviewed alertId notes actionTaken outcome
  | Facade.userGetStudents => userService.getStudents outcome
  | Facade.userGetStudentAnalysis studentId => userService.getStudentAnalysis studentId outcome
  | Facade.userGenerateReport startDate endDate reportType =>
    userService.generateReport startDate endDate reportType outcome

/-- The call `analysisService.getDeepAnalysis({ timeRange })` of the views
(AnalisisProfundo.js 43, ChatPrincipal.js 148).  The function declares no
parameter, so JavaScript evaluates the argument and drops it. -/
def callGetDeepAnalysis {α : Type} (_argument : List (String × String))
    (outcome : Except ApiError α) : Eff α :=
  analysisService.getDeepAnalysis outcome

/-- The statement `analysisService.getDeepAnalysis({ timeRange })` in
`loadDeepAnalysis` (AnalisisProfundo.js 43). -/
def loadDeepAnalysis.request {α : Type} (timeRange : String)
    (outcome : Except ApiError α) : Eff α :=
  callGetDeepAnalysis [("timeRange", timeRange)] outcome

/-! ## Client configuration (`src/config/environment.js`, api.js 4-12) -/

/-- The per-environment block of `config` (environment.js 14-36). -/
structure EnvironmentConfig where
  apiBaseUrl : String
  logLevel : String
  enableDebugTools : Bool
  mockData : Bool
deriving DecidableEq, Repr

/-- The variables of `process.env` the code reads. -/
structure ProcessEnv where
  NODE_ENV : Option String
  REACT_APP_API_BASE_URL : Option String
deriving DecidableEq, Repr

/-- The process environment with `NODE_ENV` set to a name. -/
def envOf (name : String) (url : Option String) : ProcessEnv :=
  { NODE_ENV := some name, REACT_APP_API_BASE_URL := url }

/-- The constant `environment` (environment.js 40). -/
def environment (env : ProcessEnv) : String :=
  orElse env.NODE_ENV "development"

/-- The lookup `config[environment]` (environment.js 14-36, 45); undefined for
any other name. -/
def configFor (env : ProcessEnv) : Option EnvironmentConfig :=
  if environment env = "development" then
    some { apiBaseUrl := "http://127.0.0.1:8000", logLevel := "debug",
           enableDebugTools := true, mockData := true }
  else if environment env = "production" then
    some { apiBaseUrl := orElse env.REACT_APP_API_BASE_URL "https://api.psichat.edu",
           logLevel := "error", enableDebugTools := false, mockData := false }
  else if environment env = "test" then
    some { apiBaseUrl := "http://localhost:8000", logLevel := "warn",
           enableDebugTools := false, mockData := true }
  else
    none

/-- The field `currentConfig.apiBaseUrl` (environment.js 43-47). -/
def currentConfig.apiBaseUrl (env : ProcessEnv) : Option String :=
  (configFor env).map (fun c => c.apiBaseUrl)

/-- The field `currentConfig.logLevel`. -/
def currentConfig.logLevel (env : ProcessEnv) : Option String :=
  (configFor env).map (fun c => c.logLevel)

/-- The fields of an axios request config the code sets; a field that is not
given is `none`. -/
structure AxiosConfig where
  baseURL : Option String
  timeout : Option Nat
  contentType : Option String
deriving DecidableEq, Repr

/-- The export `apiConfig` (environment.js 55-61). -/
def apiConfig (env : ProcessEnv) : AxiosConfig :=
  { baseURL := currentConfig.apiBaseUrl env, timeout := some 10000,
    contentType := some "application/json" }

/-- The argument of `axios.create` in api.js 7-12. -/
def apiCreateConfig (env : ProcessEnv) : AxiosConfig :=
  { baseURL := currentConfig.apiBaseUrl env, timeout := none,
    contentType := some "application/json" }

/-- The timeout axios applies to a request of an instance: the one of its
config, or the library default 0 (no timeout) when none was given. -/
def effectiveTimeout (config : AxiosConfig) : Nat :=
  config.timeout.getD 0

/-! ## Session store (`frontend/src/contexts/AuthContext.js`) -/

/-- Initial values of the four state cells (AuthContext.js 16-19). -/
def initialSession : Session :=
  { user := none, isAuthenticated := false, loading := true, error := none }

/-- The function `checkAuthStatus` (AuthContext.js 25-40). -/
def checkAuthStatus (outcome : Except ApiError User) : Eff Unit :=
  Eff.tryFinally
    (Eff.tryCatch
      (do
        let token ← localStorage.getItem "token"
        if truthy token then
          let userData ← authService.getCurrentUser outcome
          setUser (some userData)
          setIsAuthenticated true)
      (fun _error => localStorage.removeItem "token"))
    (setLoading false)

/-- The function `login` (AuthContext.js 42-59). -/
def login (email password : String) (outcome : Except ApiError AuthPayload) : Eff User :=
  Eff.tryCatch
    (do
      let response ← authService.login email password outcome
      localStorage.setItem "token" response.token
      setUser (some response.user)
      setIsAuthenticated true
      setError none
      pure response.user)
    (fun error => do
      setError (some (orElse (error.response.bind (fun r => r.detail))
        "Error en el inicio de sesión"))
      Eff.raise error)

/-- The function `register` (AuthContext.js 61-78). -/
def register (userData : List (String × String)) (outcome : Except ApiError AuthPayload) :
    Eff User :=
  Eff.tryCatch
    (do
      let response ← authService.register userData outcome
      localStorage.setItem "token" response.token
      setUser (some response.user)
      setIsAuthenticated true
      setError none
      pure response.user)
    (fun error => do
      setError (some (orElse (error.response.bind (fun r => r.detail))
        "Error en el registro"))
      Eff.raise error)

/-- The function `logout` (AuthContext.js 80-86). -/
def logout : Eff Unit := do
  localStorage.removeItem "token"
  setUser none
  setIsAuthenticated false
  setError none

/-- The function `updateUser` (AuthContext.js 88-90). -/
def updateUser (userData : User) : Eff Unit :=
  setUser (some userData)

/-- The function `clearError` (AuthContext.js 92-94). -/
def clearError : Eff Unit :=
  setError none

/-- The function `updatePassword` (AuthContext.js 96-104). -/
def updatePassword (oldPassword newPassword : String) (outcome : Except ApiError Unit) :
    Eff Unit :=
  Eff.tryCatch
    (authService.changePassword oldPassword newPassword outcome)
    (fun error => Eff.raise error)

/-- The browser loading the document anew (what follows an assignment to
`window.location.href`): `AuthProvider` starts again from its initial state
cells, the axios instance is created again without a default `Authorization`
header, and the mount effect runs `checkAuthStatus` (AuthContext.js 21-23).
`localStorage` survives. -/
def pageLoad (outcome : Except ApiError User) : Eff Unit := do
  Eff.modify fun w => { w with session := initialSession, commonAuthorization := none }
  checkAuthStatus outcome

/-! ## Route guard (`frontend/src/App.js`) -/

/-- Kinds of notification (`NotificationManager.TYPES`). -/
inductive NoticeKind where
  | success
  | error
  | warning
  | info
deriving DecidableEq, Repr

/-- A notification handed to the notification manager. -/
structure Notice where
  kind : NoticeKind
  message : String
deriving DecidableEq, Repr

/-- Modelled from the spec: `showNotification.warning`, the named export of
`frontend/src/utils/notifications` that `App.js` imports and that is not among
the sources.  Per the spec (4.4, 4.5) it emits one notification of kind
warning with the given message. -/
def showNotification.warning (message : String) (emitted : List Notice) : List Notice :=
  emitted ++ [{ kind := NoticeKind.warning, message := message }]

/-- Modelled from the spec: `showNotification.error`, missing like
`showNotification.warning`; it emits one notification of kind error. -/
def showNotification.error (message : String) (emitted : List Notice) : List Notice :=
  emitted ++ [{ kind := NoticeKind.error, message := message }]

/-- What `ProtectedRoute` returns to React. -/
inductive Element where
  | LoadingSpinner
  | Navigate (target : String)
  | children
deriving DecidableEq, Repr

/-- The component `ProtectedRoute` (App.js 33-63).  `auth` is the value of
`useAuth()`, `emitted` the notifications emitted so far; the result is the
element returned and the notifications emitted after the call. -/
def ProtectedRoute (allowedRoles requiredPermissions : List String) (auth : Session)
    (emitted : List Notice) : Element × List Notice :=
  if auth.loading then
    (Element.LoadingSpinner, emitted)
  else if !auth.isAuthenticated then
    (Element.Navigate "/login",
      showNotification.warning "Debes iniciar sesión para acceder a esta página" emitted)
  else if allowedRoles.length > 0 && !(includes allowedRoles (auth.user.bind (fun u => u.rol))) then
    (Element.Navigate "/",
      showNotification.error "No tienes permisos para acceder a esta página" emitted)
  else if requiredPermissions.length > 0 then
    let userPermissions := (auth.user.bind (fun u => u.permisos)).getD []
    let hasAllPermissions :=
      requiredPermissions.all (fun permission => userPermissions.contains permission)
    if !hasAllPermissions then
      (Element.Navigate "/", showNotification.error "No tienes los permisos necesarios" emitted)
    else
      (Element.children, emitted)
  else
    (Element.children, emitted)

/-! ## Sequences of operations -/

/-- The two ways a session is torn down: the store operation `logout`, and a
response of status 401 reaching the response interceptor. -/
inductive Teardown where
  | logout
  | unauthorized (message : String) (detail : Option String)
deriving DecidableEq, Repr

/-- The error object of a 401 response. -/
def unauthorizedError (message : String) (detail : Option String) : ApiError :=
  { message := message, response := some { status := 401, detail := detail } }

/-- Run one teardown; its result (a rejection, for the interceptor) is dropped. -/
def Teardown.run (t : Teardown) (w : World) : World :=
  match t with
  | Teardown.logout => (PsiChat.logout w).2
  | Teardown.unauthorized message detail =>
    ((responseInterceptor (unauthorizedError message detail) : Eff Unit) w).2

/-- Run teardowns one after the other. -/
def runTeardowns (ts : List Teardown) (w : World) : World :=
  ts.foldl (fun acc t => t.run acc) w

/-- An outcome is a 401 when it is an error with that status. -/
def outcomeIs401 {α : Type} (outcome : Except ApiError α) : Bool :=
  match outcome with
  | Except.ok _ => false
  | Except.error e => e.is401

/-- One call of an operation the session store exports, with the answer of
the backend for those that issue a request. -/
inductive StoreOp where
  | login (email password : String) (outcome : Except ApiError AuthPayload)
  | register (userData : List (String × String)) (outcome : Except ApiError AuthPayload)
  | logout
  | updateUser (userData : User)
  | clearError
  | updatePassword (oldPassword newPassword : String) (outcome : Except ApiError Unit)

/-- The world after a store operation (its return value or exception dropped). -/
def StoreOp.run (op : StoreOp) (w : World) : World :=
  match op with
  | StoreOp.login email password outcome => (PsiChat.login email password outcome w).2
  | StoreOp.register userData outcome => (PsiChat.register userData outcome w).2
  | StoreOp.logout => (PsiChat.logout w).2
  | StoreOp.updateUser userData => (PsiChat.updateUser userData w).2
  | StoreOp.clearError => (PsiChat.clearError w).2
  | StoreOp.updatePassword o n outcome => (PsiChat.updatePassword o n outcome w).2

/-- The operation receives a 401 answer. -/
def StoreOp.gets401 (op : StoreOp) : Bool :=
  match op with
  | StoreOp.login _ _ outcome => outcomeIs401 outcome
  | StoreOp.register _ outcome => outcomeIs401 outcome
  | StoreOp.updatePassword _ _ outcome => outcomeIs401 outcome
  | _ => false

/-- The world when the application starts: the initial state cells of
`AuthProvider`, whatever `localStorage` holds, no default header, nothing sent. -/
def initialWorld (storage : Storage) (href : String) : World :=
  { session := initialSession, localStorage := storage, href := href,
    commonAuthorization := none, sent := [] }

/-- States of the session store reachable in the application: the initial
state, the state after the mount effect `checkAuthStatus`, and from any of
these any exported store operation or any failed request of a view passing the
response interceptor. -/
inductive Reachable : World → Prop where
  | init (storage : Storage) (href : String) : Reachable (initialWorld storage href)
  | mounted (storage : Storage) (href : String) (outcome : Except ApiError User) :
      Reachable (checkAuthStatus outcome (initialWorld storage href)).2
  | store (w : World) (op : StoreOp) : Reachable w → Reachable (op.run w)
  | response (w : World) (error : ApiError) :
      Reachable w → Reachable ((responseInterceptor error : Eff Unit) w).2

/-- Reachable states in which no answer of status 401 has arrived since the
session was last set or cleared: the initial state, the state after the mount
effect, the state after a successful login or register or after a logout from
any reachable state, and from any of these any store operation or failed
request of a view that is not answered with status 401. -/
inductive No401SinceSession : World → Prop where
  | init (storage : Storage) (href : String) : No401SinceSession (initialWorld storage href)
  | mounted (storage : Storage) (href : String) (outcome : Except ApiError User) :
      No401SinceSession (checkAuthStatus outcome (initialWorld storage href)).2
  | login (w : World) (email password : String) (payload : AuthPayload) :
      Reachable w →
      No401SinceSession ((StoreOp.login email password (Except.ok payload)).run w)
  | register (w : World) (userData : List (String × String)) (payload : AuthPayload) :
      Reachable w →
      No401SinceSession ((StoreOp.register userData (Except.ok payload)).run w)
  | logout (w : World) : Reachable w → No401SinceSession (StoreOp.logout.run w)
  | store (w : World) (op : StoreOp) :
      op.gets401 = false → No401SinceSession w → No401SinceSession (op.run w)
  | response (w : World) (error : ApiError) :
      error.is401 = false → No401SinceSession w →
      No401SinceSession ((responseInterceptor error : Eff Unit) w).2

/-! ## Logger (`src/utils/logger.js`) -/

/-- The singleton of class `Logger`: its two fields. -/
structure Logger where
  isDevelopment : Bool
  logLevel : String
deriving DecidableEq, Repr

/-- The constructor (logger.js 7-10); `nodeEnv` is `process.env.NODE_ENV`. -/
def Logger.create (nodeEnv : Option String) : Logger :=
  { isDevelopment := nodeEnv == some "development",
    logLevel := if nodeEnv == some "development" then "debug" else "error" }

/-- The method `toUpperCase` of a string, on the characters of ASCII. -/
def toUpperCase (s : String) : String :=
  String.mk (s.data.map Char.toUpper)

/-- The table `Logger.LEVELS` (logger.js 13-18); undefined for other keys. -/
def Logger.LEVELS (key : String) : Option Nat :=
  if key = "ERROR" then some 0
  else if key = "WARN" then some 1
  else if key = "INFO" then some 2
  else if key = "DEBUG" then some 3
  else none

/-- The comparison `a <= b` of two table entries; false when one is undefined. -/
def jsLessEq (a b : Option Nat) : Bool :=
  match a, b with
  | some x, some y => decide (x ≤ y)
  | _, _ => false

/-- The method `shouldLog` (logger.js 20-22). -/
def Logger.shouldLog (l : Logger) (level : String) : Bool :=
  jsLessEq (Logger.LEVELS (toUpperCase level)) (Logger.LEVELS (toUpperCase l.logLevel))

/-- One call of a `console` method: which method, the text and the second argument. -/
structure ConsoleRecord where
  method : String
  text : String
  extra : String
deriving DecidableEq, Repr

/-- The method `formatMessage` (logger.js 24-32); `timestamp` is
`new Date().toISOString()`.  With a truthy `data` the comma expression
evaluates to `data`. -/
def Logger.formatMessage (level message : String) (data : Option String)
    (timestamp : String) : String :=
  let tag := "[" ++ timestamp ++ "] [" ++ toUpperCase level ++ "]"
  if truthy data then data.getD "" else tag ++ " " ++ message

/-- The method `error` (logger.js 34-38). -/
def Logger.error (l : Logger) (message : String) (error : Option String)
    (timestamp : String) (console : List ConsoleRecord) : List ConsoleRecord :=
  if l.shouldLog "error" then
    console ++ [{ method := "error",
                  text := Logger.formatMessage "error" message none timestamp,
                  extra := orElse error "" }]
  else console

/-- The method `warn` (logger.js 40-44). -/
def Logger.warn (l : Logger) (message : String) (data : Option String)
    (timestamp : String) (console : List ConsoleRecord) : List ConsoleRecord :=
  if l.shouldLog "warn" then
    console ++ [{ method := "warn",
                  text := Logger.formatMessage "warn" message none timestamp,
                  extra := orElse data "" }]
  else console

/-- The method `info` (logger.js 46-50). -/
def Logger.info (l : Logger) (message : String) (data : Option String)
    (timestamp : String) (console : List ConsoleRecord) : List ConsoleRecord :=
  if l.shouldLog "info" then
    console ++ [{ method := "info",
                  text := Logger.formatMessage "info" message none timestamp,
                  extra := orElse data "" }]
  else console

/-- The method `debug` (logger.js 52-56); it writes with `console.log`. -/
def Logger.debug (l : Logger) (message : String) (data : Option String)
    (timestamp : String) (console : List ConsoleRecord) : List ConsoleRecord :=
  if l.shouldLog "debug" then
    console ++ [{ method := "log",
                  text := Logger.formatMessage "debug" message none timestamp,
                  extra := orElse data "" }]
  else console

/-- The four levels, as the specification numbers them. -/
inductive Level where
  | ERROR
  | WARN
  | INFO
  | DEBUG
deriving DecidableEq, Repr

/-- The number of a level: ERROR 0, WARN 1, INFO 2, DEBUG 3. -/
def Level.number (l : Level) : Nat :=
  match l with
  | Level.ERROR => 0
  | Level.WARN => 1
  | Level.INFO => 2
  | Level.DEBUG => 3

/-- The name under which a level is configured as threshold. -/
def Level.label (l : Level) : String :=
  match l with
  | Level.ERROR => "error"
  | Level.WARN => "warn"
  | Level.INFO => "info"
  | Level.DEBUG => "debug"

/-- The method of the logger that writes at a level. -/
def Logger.write (l : Logger) (level : Level) (message : String) (data : Option String)
    (timestamp : String) (console : List ConsoleRecord) : List ConsoleRecord :=
  match level with
  | Level.ERROR => l.error message data timestamp console
  | Level.WARN => l.warn message data timestamp console
  | Level.INFO => l.info message data timestamp console
  | Level.DEBUG => l.debug message data timestamp console

/-! ## Notification manager (`src/utils/notifications.js`) -/

/-- A notification object (notifications.js 22-29). -/
structure Notification where
  id : Nat
  type : String
  message : String
  title : Option String
  timestamp : Nat
  duration : Int
deriving DecidableEq, Repr

/-- The callbacks the manager hands to `setTimeout`: the entry animation of
`render` (10 ms), the automatic removal of `create` (after the duration) and
the end of the fade-out of `remove` (300 ms). -/
inductive TimerTask where
  | show (id : Nat)
  | expire (id : Nat)
  | detach (id : Nat)
deriving DecidableEq, Repr

/-- A pending timer: when it is due (ms) and what it runs. -/
structure Timer where
  due : Nat
  task : TimerTask
deriving DecidableEq, Repr

/-- The manager and the parts of the page it works on: the collection, the id
counter, the children of the element `notification-container` (`none` while the
element does not exist; a child is named by the id of its notification), the
clock in ms and the pending timers in the order they were set. -/
structure NotificationManager where
  notifications : List Notification
  nextId : Nat
  container : Option (List Nat)
  now : Nat
  timers : List Timer
deriving DecidableEq, Repr

/-- The constructor (notifications.js 7-10), on a page without container,
at time `now`. -/
def NotificationManager.new (now : Nat) : NotificationManager :=
  { notifications := [], nextId := 1, container := none, now := now, timers := [] }

/-- The call `setTimeout(callback, delay)`. -/
def NotificationManager.setTimeout (task : TimerTask) (delay : Nat)
    (m : NotificationManager) : NotificationManager :=
  { m with timers := m.timers ++ [{ due := m.now + delay, task := task }] }

/-- The method `getOrCreateContainer` (notifications.js 106-115). -/
def NotificationManager.getOrCreateContainer (m : NotificationManager) : NotificationManager :=
  match m.container with
  | some _ => m
  | none => { m with container := some [] }

/-- The method `render` (notifications.js 74-103): append the element and set
the timer of the entry animation. -/
def NotificationManager.render (notification : Notification) (m : NotificationManager) :
    NotificationManager :=
  let m1 := m.getOrCreateContainer
  let m2 := { m1 with container := m1.container.map (fun c => c ++ [notification.id]) }
  m2.setTimeout (TimerTask.show notification.id) 10

/-- The method `create` (notifications.js 21-42).  A `title` or `duration`
that is not passed is `none`; their defaults are `null` and 5000. -/
def NotificationManager.create (type message : String) (title : Option String)
    (duration : Option Int) (m : NotificationManager) : Nat × NotificationManager :=
  let duration := duration.getD 5000
  let notification : Notification :=
    { id := m.nextId, type := type, message := message, title := title,
      timestamp := m.now, duration := duration }
  let m1 := { m with nextId := m.nextId + 1,
                     notifications := m.notifications ++ [notification] }
  let m2 := m1.render notification
  let m3 := if duration > 0 then m2.setTimeout (TimerTask.expire notification.id) duration.toNat
            else m2
  (notification.id, m3)

/-- The method `success` (notifications.js 45-47). -/
def NotificationManager.success (message : String) (title : Option String)
    (m : NotificationManager) : Nat × NotificationManager :=
  m.create "success" message (some (title.getD "Éxito")) none

/-- The method `error` (notifications.js 49-51). -/
def NotificationManager.error (message : String) (title : Option String)
    (m : NotificationManager) : Nat × NotificationManager :=
  m.create "error" message (some (title.getD "Error")) (some 8000)

/-- The method `warning` (notifications.js 53-55). -/
def NotificationManager.warning (message : String) (title : Option String)
    (m : NotificationManager) : Nat × NotificationManager :=
  m.create "warning" message (some (title.getD "Advertencia")) none

/-- The method `info` (notifications.js 57-59). -/
def NotificationManager.info (message : String) (title : Option String)
    (m : NotificationManager) : Nat × NotificationManager :=
  m.create "info" message (some (title.getD "Información")) none

/-- The lookup `document.getElementById` of the element of a notification:
whether it is in the page. -/
def NotificationManager.hasElement (id : Nat) (m : NotificationManager) : Bool :=
  match m.container with
  | some c => c.contains id
  | none => false

/-- The method `remove` (notifications.js 62-71): when the element is in the
page, start the fade-out and set the timer that ends it. -/
def NotificationManager.remove (id : Nat) (m : NotificationManager) : NotificationManager :=
  if m.hasElement id then m.setTimeout (TimerTask.detach id) 300 else m

/-- The method `clear` (notifications.js 129-135). -/
def NotificationManager.clear (m : NotificationManager) : NotificationManager :=
  { m with container := m.container.map (fun _ => []), notifications := [] }

/-- Run the callback of a timer. -/
def TimerTask.run (task : TimerTask) (m : NotificationManager) : NotificationManager :=
  match task with
  | TimerTask.show _ => m
  | TimerTask.expire id => m.remove id
  | TimerTask.detach id =>
    { m with container := m.container.map (fun c => c.filter (fun child => child != id)),
             notifications := m.notifications.filter (fun n => n.id != id) }

/-- The pending timer that is due first; among timers due at the same time,
the one set first. -/
def earliest : List Timer → Option Timer
  | [] => none
  | t :: rest =>
    match earliest rest with
    | none => some t
    | some u => if t.due ≤ u.due then some t else some u

/-- The timer the event loop runs next when time passes up to `target`. -/
def NotificationManager.nextDue (target : Nat) (m : NotificationManager) : Option Timer :=
  match earliest m.timers with
  | some t => if t.due ≤ target then some t else none
  | none => none

/-- Fire a timer: the clock is at its due time, the timer is no longer
pending, its callback runs. -/
def NotificationManager.fire (t : Timer) (m : NotificationManager) : NotificationManager :=
  t.task.run { m with now := max m.now t.due, timers := m.timers.erase t }

/-- The weight of a pending timer: the number of callbacks it can still cause. -/
def TimerTask.weight (task : TimerTask) : Nat :=
  match task with
  | TimerTask.show _ => 1
  | TimerTask.expire _ => 2
  | TimerTask.detach _ => 1

/-- The total weight of the pending timers. -/
def totalWeight (timers : List Timer) : Nat :=
  (timers.map (fun t => t.task.weight)).sum

/-- Fire, in order, the timers due up to `target`, at most `fuel` of them. -/
def NotificationManager.runTimers (fuel target : Nat) (m : NotificationManager) :
    NotificationManager :=
  match fuel with
  | 0 => m
  | fuel + 1 =>
    match m.nextDue target with
    | some t => NotificationManager.runTimers fuel target (m.fire t)
    | none => m

/-- Let `ms` milliseconds pass: every timer due by then fires, in order, and
the clock ends at the new time. -/
def NotificationManager.elapse (ms : Nat) (m : NotificationManager) : NotificationManager :=
  { NotificationManager.runTimers (totalWeight m.timers) (m.now + ms) m with now := m.now + ms }

/-- The ids of the notifications in the collection, in order. -/
def NotificationManager.ids (m : NotificationManager) : List Nat :=
  m.notifications.map (fun n => n.id)

/-- One call on the manager, or time passing. -/
inductive ManagerOp where
  | create (type message : String) (title : Option String) (duration : Option Int)
  | remove (id : Nat)
  | clear
  | elapse (ms : Nat)
deriving DecidableEq, Repr

/-- The manager after an operation, and the ids the operation returned. -/
def ManagerOp.run (op : ManagerOp) (m : NotificationManager) :
    NotificationManager × List Nat :=
  match op with
  | ManagerOp.create type message title duration =>
    ((m.create type message title duration).2, [(m.create type message title duration).1])
  | ManagerOp.remove id => (m.remove id, [])
  | ManagerOp.clear => (m.clear, [])
  | ManagerOp.elapse ms => (m.elapse ms, [])

/-- Run operations one after the other, collecting the ids that the calls of
create returned, in order. -/
def runOps : List ManagerOp → NotificationManager → NotificationManager × List Nat
  | [], m => (m, [])
  | op :: rest, m =>
    ((runOps rest (op.run m).1).1, (op.run m).2 ++ (runOps rest (op.run m).1).2)

/-! ## Strings and values of JavaScript -/

/-- The property `length` of a string: its number of UTF-16 code units, two
for a character outside the Basic Multilingual Plane. -/
def jsLength (s : String) : Nat :=
  (s.data.map (fun c => if c.toNat < 65536 then 1 else 2)).sum

/-- The class `\s` of regular expressions, which is also what `trim` removes:
white space and line terminators. -/
def isJsWhitespace (c : Char) : Bool :=
  [9, 10, 11, 12, 13, 32, 160, 5760, 8232, 8233, 8239, 8287, 12288, 65279].contains c.toNat
    || (decide (8192 ≤ c.toNat) && decide (c.toNat ≤ 8202))

/-- The method `trim` on the characters of a string. -/
def trimChars (cs : List Char) : List Char :=
  ((cs.dropWhile isJsWhitespace).reverse.dropWhile isJsWhitespace).reverse

/-- The method `trim`. -/
def jsTrim (s : String) : String :=
  String.mk (trimChars s.data)

/-- The class `[a-zA-Z]`. -/
def isAsciiLetter (c : Char) : Bool :=
  (decide (97 ≤ c.toNat) && decide (c.toNat ≤ 122))
    || (decide (65 ≤ c.toNat) && decide (c.toNat ≤ 90))

/-- The class `\d` (without the unicode flag): the digits 0 to 9. -/
def isDigit (c : Char) : Bool :=
  decide (48 ≤ c.toNat) && decide (c.toNat ≤ 57)

/-- A value of JavaScript, as far as the utilities below tell values apart. -/
inductive JsValue where
  | undefined
  | null
  | bool (b : Bool)
  | num (n : Int)
  | nan
  | str (s : String)
deriving DecidableEq, Repr

/-! ## Validation (`frontend/src/utils/validation.js`, `frontend/src/constants/index.js`) -/

/-- The constant `VALIDATION.PASSWORD_MIN_LENGTH`. -/
def VALIDATION.PASSWORD_MIN_LENGTH : Nat := 8

/-- The constant `VALIDATION.NAME_MIN_LENGTH`. -/
def VALIDATION.NAME_MIN_LENGTH : Nat := 2

/-- The test of `VALIDATION.EMAIL_REGEX`, the expression
`^[^\s@]+@[^\s@]+\.[^\s@]+$`: no white space, exactly one at sign, something
before it, and after it a dot with something on both sides. -/
def VALIDATION.EMAIL_REGEX.test (s : String) : Bool :=
  let cs := s.data
  let before := cs.takeWhile (fun c => c != Char.ofNat 64)
  let after := (cs.dropWhile (fun c => c != Char.ofNat 64)).drop 1
  !(cs.any isJsWhitespace) && cs.count (Char.ofNat 64) == 1 && !before.isEmpty
    && ((after.drop 1).dropLast).contains (Char.ofNat 46)

/-- What a validator returns. -/
structure ValidationResult where
  isValid : Bool
  message : String
deriving DecidableEq, Repr

/-- The function `validateEmail` (validation.js 8-18). -/
def validateEmail (email : Option String) : ValidationResult :=
  if !truthy email then
    { isValid := false, message := "El email es requerido" }
  else if !VALIDATION.EMAIL_REGEX.test (email.getD "") then
    { isValid := false, message := "El formato del email no es válido" }
  else
    { isValid := true, message := "" }

/-- The function `validatePassword` (validation.js 21-45). -/
def validatePassword (password : Option String) : ValidationResult :=
  if !truthy password then
    { isValid := false, message := "La contraseña es requerida" }
  else if jsLength (password.getD "") < VALIDATION.PASSWORD_MIN_LENGTH then
    { isValid := false,
      message := "La contraseña debe tener al menos " ++
        toString VALIDATION.PASSWORD_MIN_LENGTH ++ " caracteres" }
  else
    let hasLetter := (password.getD "").data.any isAsciiLetter
    let hasNumber := (password.getD "").data.any isDigit
    if !hasLetter || !hasNumber then
      { isValid := false,
        message := "La contraseña debe contener al menos una letra y un número" }
    else
      { isValid := true, message := "" }

/-- The function `validatePasswordConfirmation` (validation.js 48-58). -/
def validatePasswordConfirmation (password confirmation : Option String) : ValidationResult :=
  if !truthy confirmation then
    { isValid := false, message := "Confirma tu contraseña" }
  else if password != confirmation then
    { isValid := false, message := "Las contraseñas no coinciden" }
  else
    { isValid := true, message := "" }

/-- The class of the expression in `validateName`: letters, the accented
vowels, ñ, and white space. -/
def isNameChar (c : Char) : Bool :=
  isAsciiLetter c || "áéíóúÁÉÍÓÚñÑ".data.contains c || isJsWhitespace c

/-- The function `validateName` (validation.js 61-80). -/
def validateName (name : Option String) : ValidationResult :=
  if !truthy name then
    { isValid := false, message := "El nombre es requerido" }
  else if jsLength (name.getD "") < VALIDATION.NAME_MIN_LENGTH then
    { isValid := false,
      message := "El nombre debe tener al menos " ++
        toString VALIDATION.NAME_MIN_LENGTH ++ " caracteres" }
  else if !((name.getD "").data.all isNameChar) then
    { isValid := false, message := "El nombre solo puede contener letras y espacios" }
  else
    { isValid := true, message := "" }

/-- The fields `validateRegisterForm` reads from its argument; a missing
field is `none`. -/
structure RegisterForm where
  nombre : Option String
  email : Option String
  password : Option String
  confirmPassword : Option String
deriving DecidableEq, Repr

/-- What a form validator returns: `errors` is the object of messages, as
the list of its keys and values. -/
structure FormValidation where
  isValid : Bool
  errors : List (String × String)
deriving DecidableEq, Repr

/-- The assignment `errors[key] = result.message` when `result` is not valid. -/
def addError (errors : List (String × String)) (key : String) (result : ValidationResult) :
    List (String × String) :=
  if !result.isValid then errors ++ [(key, result.message)] else errors

/-- The function `validateRegisterForm` (validation.js 119-146). -/
def validateRegisterForm (formData : RegisterForm) : FormValidation :=
  let errors : List (String × String) := []
  let errors := addError errors "nombre" (validateName formData.nombre)
  let errors := addError errors "email" (validateEmail formData.email)
  let errors := addError errors "password" (validatePassword formData.password)
  let errors := addError errors "confirmPassword"
    (validatePasswordConfirmation formData.password formData.confirmPassword)
  { isValid := errors.length == 0, errors := errors }

/-- Lower case of a letter of ASCII, other characters unchanged: the
canonical form under which the flag `i` compares with a pattern of ASCII. -/
def asciiLower (c : Char) : Char :=
  if decide (65 ≤ c.toNat) && decide (c.toNat ≤ 90) then Char.ofNat (c.toNat + 32) else c

/-- Whether the text begins with the pattern, ignoring the case of letters. -/
def startsWithIgnoreCase : List Char → List Char → Bool
  | [], _ => true
  | _ :: _, [] => false
  | p :: ps, c :: cs => asciiLower p == asciiLower c && startsWithIgnoreCase ps cs

/-- One pass from left to right that deletes every match of the pattern; the
search resumes after a match, as `replace` with the flag `g` does.  `skip` is
the number of characters of a match still to delete. -/
def deleteMatches (pattern : List Char) : Nat → List Char → List Char
  | _, [] => []
  | skip + 1, _ :: rest => deleteMatches pattern skip rest
  | 0, c :: rest =>
    if startsWithIgnoreCase pattern (c :: rest) then
      deleteMatches pattern (pattern.length - 1) rest
    else
      c :: deleteMatches pattern 0 rest

/-- The call `replace(/[<>]/g, '')`. -/
def removeAngles (cs : List Char) : List Char :=
  cs.filter (fun c => c != Char.ofNat 60 && c != Char.ofNat 62)

/-- The call `replace(/javascript:/gi, '')`. -/
def removeJavascript (cs : List Char) : List Char :=
  deleteMatches "javascript:".data 0 cs

/-- The function `sanitizeInput` (validation.js 192-202). -/
def sanitizeInput (input : JsValue) : JsValue :=
  match input with
  | JsValue.str s => JsValue.str (String.mk (trimChars (removeJavascript (removeAngles s.data))))
  | other => other

/-- Whether the text contains the pattern somewhere, ignoring case. -/
def containsIgnoreCase (pattern : List Char) : List Char → Bool
  | [] => startsWithIgnoreCase pattern []
  | c :: cs => startsWithIgnoreCase pattern (c :: cs) || containsIgnoreCase pattern cs

/-! ## Login view (`src/components/Login.js`) -/

/-- Modelled from the spec: `showNotification.success`, missing like
`showNotification.warning`; it emits one notification of kind success. -/
def showNotification.success (message : String) (emitted : List Notice) : List Notice :=
  emitted ++ [{ kind := NoticeKind.success, message := message }]

/-- The state object `formData` (Login.js 10-14): its three keys, and whatever
other keys `handleInputChange` may have set through its computed key. -/
structure FormData where
  email : String
  password : String
  name : String
  others : List (String × String)
deriving DecidableEq, Repr

/-- The state of the view `Login` (Login.js 10-17). -/
structure LoginView where
  formData : FormData
  showPassword : Bool
  loading : Bool
  isLoginMode : Bool
deriving DecidableEq, Repr

/-- What a handler of a view leaves behind: the state of the view, the world
and the notifications emitted. -/
structure Handled (σ : Type) where
  view : σ
  world : World
  emitted : List Notice

/-- The handler `handleSubmit` of `Login` (Login.js 28-48); `outcome` is the
answer to the request of `login` or `register`. -/
def Login.handleSubmit (view : LoginView) (outcome : Except ApiError AuthPayload)
    (w : World) (emitted : List Notice) : Handled LoginView :=
  let view1 := { view with loading := true }
  let attempt : Except ApiError User × World :=
    if view1.isLoginMode then
      login view1.formData.email view1.formData.password outcome w
    else
      register [("email", view1.formData.email), ("password", view1.formData.password),
                ("name", view1.formData.name)] outcome w
  let emitted1 :=
    match attempt.1 with
    | Except.ok _ =>
      if view1.isLoginMode then showNotification.success "¡Bienvenido de vuelta!" emitted
      else showNotification.success "¡Cuenta creada exitosamente!" emitted
    | Except.error error =>
      showNotification.error (orElse (some error.message) "Error en la autenticación") emitted
  { view := { view1 with loading := false }, world := attempt.2, emitted := emitted1 }

/-! ## Change of password (`frontend/src/components/CambiarContrasena.js`) -/

/-- The state of the view `CambiarContrasena` (CambiarContrasena.js 12-17). -/
structure CambiarContrasenaView where
  oldPassword : String
  newPassword : String
  confirmNewPassword : String
  loading : Bool
  error : Option String
  success : Option String
deriving DecidableEq, Repr

/-- The handler `handleSubmit` of `CambiarContrasena` (CambiarContrasena.js
19-56).  The call of `updatePassword` is commented out in the source; the
`try` block only waits 1500 ms, which cannot fail, so its `catch` block never
runs. -/
def CambiarContrasena.handleSubmit (view : CambiarContrasenaView) (w : World)
    (emitted : List Notice) : Handled CambiarContrasenaView :=
  let view1 := { view with loading := true, error := none, success := none }
  if view1.newPassword != view1.confirmNewPassword then
    { view := { view1 with error := some "Las nuevas contraseñas no coinciden.",
                           loading := false },
      world := w, emitted := emitted }
  else if jsLength view1.newPassword < 6 then
    { view := { view1 with
                error := some "La nueva contraseña debe tener al menos 6 caracteres.",
                loading := false },
      world := w, emitted := emitted }
  else
    { view := { view1 with success := some "Contraseña actualizada exitosamente.",
                           oldPassword := "", newPassword := "", confirmNewPassword := "",
                           loading := false },
      world := w,
      emitted := showNotification.success "Contraseña actualizada exitosamente." emitted }

/-- The form accepted the new password: the submission went past the checks
of the client to the update step. -/
def CambiarContrasena.accepts (view : CambiarContrasenaView) (w : World)
    (emitted : List Notice) : Bool :=
  (CambiarContrasena.handleSubmit view w emitted).view.success.isSome

/-! ## Route table (`frontend/src/App.js` 83-190) -/

/-- The components the routes render. -/
inductive Screen where
  | Login
  | StudentDashboard
  | ChatPrincipal
  | AnalisisEmocional
  | AnalisisProfundo
  | ChatDirecto
  | Configuracion
  | PerfilUsuario
  | CambiarContrasena
  | DashboardTutor
  | PanelTutor
deriving DecidableEq, Repr

/-- The `element` of a route: a component, a component inside
`ProtectedRoute` with its `allowedRoles`, or a `Navigate`. -/
inductive RouteTarget where
  | page (screen : Screen)
  | guarded (allowedRoles : List String) (screen : Screen)
  | redirect (target : String)
deriving DecidableEq, Repr

/-- A location, as the list of the segments of its path. -/
abbrev Path := List String

/-- Split the characters of a path at the slashes; `current` holds the
characters of the segment being read, last first. -/
def splitPath : List Char → List Char → Path
  | [], current => if current.isEmpty then [] else [String.mk current.reverse]
  | c :: rest, current =>
    if c = Char.ofNat 47 then
      if current.isEmpty then splitPath rest []
      else String.mk current.reverse :: splitPath rest []
    else splitPath rest (c :: current)

/-- The location a `Navigate` leads to. -/
def parsePath (target : String) : Path :=
  splitPath target.data []

/-- The routes of `AppContent` (App.js 85-189); a segment written with a
colon in the source matches any one segment, and the last route matches
every other path. -/
def routes (path : Path) : RouteTarget :=
  match path with
  | ["login"] => RouteTarget.page Screen.Login
  | [] => RouteTarget.guarded ["estudiante"] Screen.StudentDashboard
  | ["chat"] => RouteTarget.guarded ["estudiante"] Screen.ChatPrincipal
  | ["analisis"] => RouteTarget.guarded ["estudiante"] Screen.AnalisisEmocional
  | ["analisis-profundo"] => RouteTarget.guarded ["estudiante"] Screen.AnalisisProfundo
  | ["chat-directo", _] => RouteTarget.guarded ["estudiante"] Screen.ChatDirecto
  | ["configuracion"] => RouteTarget.guarded [] Screen.Configuracion
  | ["perfil"] => RouteTarget.guarded [] Screen.PerfilUsuario
  | ["cambiar-contrasena"] => RouteTarget.guarded [] Screen.CambiarContrasena
  | ["tutor"] => RouteTarget.guarded ["tutor"] Screen.DashboardTutor
  | ["tutor", "panel"] => RouteTarget.guarded ["tutor"] Screen.PanelTutor
  | ["tutor", "chat", _] => RouteTarget.guarded ["tutor"] Screen.ChatDirecto
  | _ => RouteTarget.redirect "/"

/-- What the router shows at a location. -/
inductive Visit where
  | rendered (screen : Screen)
  | placeholder
  | redirected (target : Path)
deriving DecidableEq, Repr

/-- Render the route of a location for a session. -/
def visit (auth : Session) (path : Path) (emitted : List Notice) : Visit × List Notice :=
  match routes path with
  | RouteTarget.page screen => (Visit.rendered screen, emitted)
  | RouteTarget.redirect target => (Visit.redirected (parsePath target), emitted)
  | RouteTarget.guarded allowedRoles screen =>
    match ProtectedRoute allowedRoles [] auth emitted with
    | (Element.children, after) => (Visit.rendered screen, after)
    | (Element.LoadingSpinner, after) => (Visit.placeholder, after)
    | (Element.Navigate target, after) => (Visit.redirected (parsePath target), after)

/-- Follow the redirects from a location, through at most `fuel` locations:
the component reached, if one is rendered. -/
def follow : Nat → Session → Path → List Notice → Option Screen × List Notice
  | 0, _, _, emitted => (none, emitted)
  | fuel + 1, auth, path, emitted =>
    match visit auth path emitted with
    | (Visit.rendered screen, after) => (some screen, after)
    | (Visit.placeholder, after) => (none, after)
    | (Visit.redirected target, after) => follow fuel auth target after

/-! ## Memoization (`src/utils/performance.js` 32-44) -/

/-- The escape of a character inside a string of JSON. -/
def JSON.quoteChar (c : Char) : List Char :=
  if c.toNat = 34 then [Char.ofNat 92, Char.ofNat 34]
  else if c.toNat = 92 then [Char.ofNat 92, Char.ofNat 92]
  else if c.toNat = 8 then [Char.ofNat 92, 'b']
  else if c.toNat = 9 then [Char.ofNat 92, 't']
  else if c.toNat = 10 then [Char.ofNat 92, 'n']
  else if c.toNat = 12 then [Char.ofNat 92, 'f']
  else if c.toNat = 13 then [Char.ofNat 92, 'r']
  else if c.toNat < 32 then
    [Char.ofNat 92, 'u', '0', '0', Nat.digitChar (c.toNat / 16), Nat.digitChar (c.toNat % 16)]
  else [c]

/-- The text `JSON.stringify` gives for an element of an array: `undefined`
and `NaN` are written as `null`. -/
def JSON.stringifyElement (v : JsValue) : String :=
  match v with
  | JsValue.undefined => "null"
  | JsValue.null => "null"
  | JsValue.bool true => "true"
  | JsValue.bool false => "false"
  | JsValue.num n => toString n
  | JsValue.nan => "null"
  | JsValue.str s =>
    String.mk ([Char.ofNat 34] ++ (s.data.map JSON.quoteChar).flatten ++ [Char.ofNat 34])

/-- The call `JSON.stringify(args)` on the array of the arguments. -/
def JSON.stringify (args : List JsValue) : String :=
  "[" ++ ",".intercalate (args.map JSON.stringifyElement) ++ "]"

/-- The `Map` of `memoize`: keys and results, in the order they were set. -/
abbrev MemoCache (β : Type) := List (String × β)

/-- The calls `cache.has(key)` and `cache.get(key)`. -/
def MemoCache.lookup {β : Type} (cache : MemoCache β) (key : String) : Option β :=
  (cache.find? (fun entry => entry.1 == key)).map (fun entry => entry.2)

/-- One call of the function `memoize(fn)` returns (performance.js 35-42):
the result and the cache afterwards. -/
def memoized {β : Type} (fn : List JsValue → β) (args : List JsValue)
    (cache : MemoCache β) : β × MemoCache β :=
  let key := JSON.stringify args
  match cache.lookup key with
  | some result => (result, cache)
  | none => (fn args, cache ++ [(key, fn args)])

/-- The results of a sequence of calls of `memoize(fn)`, from a given cache. -/
def memoRun {β : Type} (fn : List JsValue → β) :
    List (List JsValue) → MemoCache β → List β
  | [], _ => []
  | args :: rest, cache =>
    (memoized fn args cache).1 :: memoRun fn rest (memoized fn args cache).2

/-- The first argument list with the same key among those passed before, or
the argument list itself when there is none. -/
def firstWithKey (seen : List (List JsValue)) (args : List JsValue) : List JsValue :=
  (seen.find? (fun earlier => JSON.stringify earlier == JSON.stringify args)).getD args

/-- What the calls return, said without the cache: each call returns `fn` of
the first argument list passed so far that has the same key. -/
def memoExpected {β : Type} (fn : List JsValue → β) :
    List (List JsValue) → List (List JsValue) → List β
  | [], _ => []
  | args :: rest, seen => fn (firstWithKey seen args) :: memoExpected fn rest (seen ++ [args])

/-! ## Tutor notifications (`src/components/NotificacionesTutor.js`) -/

/-- A notification of the tutor, as far as the view reads it. -/
structure TutorNotification where
  id : Nat
  leida : Bool
  urgencia : String
  tipo : String
deriving DecidableEq, Repr

/-- The state cell `stats` (NotificacionesTutor.js 33-38). -/
structure Stats where
  total : Nat
  unread : Nat
  critical : Nat
  high : Nat
deriving DecidableEq, Repr

/-- The state of the view, without the filters (NotificacionesTutor.js 24-38). -/
structure NotificacionesTutorView where
  notifications : List TutorNotification
  stats : Stats
  loading : Bool
  error : Option String
deriving DecidableEq, Repr

/-- The initial state of the view. -/
def NotificacionesTutor.initial : NotificacionesTutorView :=
  { notifications := [], stats := { total := 0, unread := 0, critical := 0, high := 0 },
    loading := true, error := none }

/-- The stats that `calculateStats` computes (NotificacionesTutor.js 64-72). -/
def calculateStats (notifs : List TutorNotification) : Stats :=
  { total := notifs.length,
    unread := (notifs.filter (fun n => !n.leida)).length,
    critical := (notifs.filter (fun n => n.urgencia == "critical")).length,
    high := (notifs.filter (fun n => n.urgencia == "high")).length }

/-- The function `loadNotifications` (NotificacionesTutor.js 50-62). -/
def NotificacionesTutor.loadNotifications (outcome : Except ApiError (List TutorNotification))
    (view : NotificacionesTutorView) : NotificacionesTutorView :=
  match outcome with
  | Except.ok response =>
    { view with notifications := response, stats := calculateStats response, loading := false }
  | Except.error _ =>
    { view with error := some "Error al cargar las notificaciones", loading := false }

/-- The function `markAsRead` (NotificacionesTutor.js 94-105). -/
def NotificacionesTutor.markAsRead (notificationId : Nat) (outcome : Except ApiError Unit)
    (view : NotificacionesTutorView) : NotificacionesTutorView :=
  match outcome with
  | Except.ok _ =>
    { view with notifications :=
        view.notifications.map (fun n => if n.id = notificationId then { n with leida := true }
                                         else n) }
  | Except.error _ => view

/-- The function `markAllAsRead` (NotificacionesTutor.js 107-118). -/
def NotificacionesTutor.markAllAsRead (outcome : Except ApiError Unit)
    (view : NotificacionesTutorView) : NotificacionesTutorView :=
  match outcome with
  | Except.ok _ =>
    { view with notifications := view.notifications.map (fun n => { n with leida := true }) }
  | Except.error _ => view

/-- The function `deleteNotification` (NotificacionesTutor.js 120-130). -/
def NotificacionesTutor.deleteNotification (notificationId : Nat)
    (outcome : Except ApiError Unit) (view : NotificacionesTutorView) :
    NotificacionesTutorView :=
  match outcome with
  | Except.ok _ =>
    { view with notifications := view.notifications.filter (fun n => n.id != notificationId) }
  | Except.error _ => view

/-- The stats agree with the list of notifications. -/
def StatsAgree (view : NotificacionesTutorView) : Prop :=
  view.stats.total = view.notifications.length ∧
  view.stats.unread = (view.notifications.filter (fun n => n.leida == false)).length ∧
  view.stats.critical = (view.notifications.filter (fun n => n.urgencia == "critical")).length ∧
  view.stats.high = (view.notifications.filter (fun n => n.urgencia == "high")).length

/-! ## Chat (`src/components/ChatPrincipal.js` 69-137) -/

/-- A message of the chat; the last four fields are set on a message of the
user when the answer of the backend arrives. -/
structure ChatMessage where
  id : Nat
  content : String
  sender : String
  timestamp : String
  emotion : Option String
  emotion_score : Option String
  style : Option String
  style_score : Option String
deriving DecidableEq, Repr

/-- The body the view passes to `chatService.sendMessage`. -/
structure ChatBody where
  user_text : String
  history : List (String × String)
deriving DecidableEq, Repr

/-- The answer of the backend, as far as the view reads it: `reply` and the
four fields of `meta`. -/
structure ChatResponse where
  reply : Option String
  detected_emotion : Option String
  emotion_score : Option String
  detected_style : Option String
  style_score : Option String
deriving DecidableEq, Repr

/-- The state of the view (ChatPrincipal.js 19-24), with the bodies it has
passed to `chatService.sendMessage`. -/
structure ChatPrincipalView where
  messages : List ChatMessage
  newMessage : String
  isLoading : Bool
  errorMessage : Option String
  isBotTyping : Bool
  requests : List ChatBody
deriving DecidableEq, Repr

/-- The history built in `handleSendMessage` (ChatPrincipal.js 88-91). -/
def ChatPrincipal.buildHistory (messages : List ChatMessage) : List (String × String) :=
  ((messages.filter (fun msg => msg.sender == "user" || msg.sender == "bot")).map
    (fun msg => (if msg.sender == "user" then msg.content else "",
                 if msg.sender == "bot" then msg.content else ""))).filter
    (fun pair => pair.1 != "" || pair.2 != "")

/-- The handler `handleSendMessage` (ChatPrincipal.js 69-137).  `now` and
`later` are the two readings of `Date.now()`, `stamp` and `laterStamp` the
two timestamps, `outcome` the answer to the request. -/
def ChatPrincipal.handleSendMessage (now later : Nat) (stamp laterStamp : String)
    (outcome : Except ApiError ChatResponse) (view : ChatPrincipalView) :
    ChatPrincipalView :=
  if (jsTrim view.newMessage == "") || view.isLoading then view
  else
    let userMessage : ChatMessage :=
      { id := now, content := view.newMessage, sender := "user", timestamp := stamp,
        emotion := none, emotion_score := none, style := none, style_score := none }
    let view1 : ChatPrincipalView :=
      { view with errorMessage := none,
                  messages := view.messages ++ [userMessage],
                  newMessage := "", isLoading := true, isBotTyping := true }
    let history := ChatPrincipal.buildHistory view.messages
    let view2 : ChatPrincipalView :=
      { view1 with requests := view1.requests ++
          [{ user_text := view.newMessage, history := history }] }
    match outcome with
    | Except.ok response =>
      let userMessageWithMeta : ChatMessage :=
        { userMessage with emotion := response.detected_emotion,
                           emotion_score := response.emotion_score,
                           style := response.detected_style,
                           style_score := response.style_score }
      let botMessage : ChatMessage :=
        { id := later + 1,
          content := orElse response.reply
            "Gracias por tu mensaje. ¿Hay algo más en lo que pueda ayudarte?",
          sender := "bot", timestamp := laterStamp,
          emotion := none, emotion_score := none, style := none, style_score := none }
      { view2 with messages := (view2.messages.dropLast ++ [userMessageWithMeta]) ++ [botMessage],
                   isBotTyping := false, isLoading := false }
    | Except.error error =>
      let errorMessageObj : ChatMessage :=
        { id := later + 1,
          content := orElse (some error.message)
            "Lo siento, hubo un error al procesar tu mensaje. ¿Podrías intentarlo de nuevo?",
          sender := "bot", timestamp := laterStamp,
          emotion := none, emotion_score := none, style := none, style_score := none }
      { view2 with
        errorMessage := some
          "Lo siento, hubo un error al procesar tu mensaje. ¿Podrías intentarlo de nuevo?",
        messages := view2.messages ++ [errorMessageObj],
        isBotTyping := false, isLoading := false }

/-- The history the backend is to receive, said message by message: one pair
for each message of the user or of the bot with a content, in order. -/
def expectedHistory : List ChatMessage → List (String × String)
  | [] => []
  | msg :: rest =>
    if msg.sender = "user" ∧ msg.content ≠ "" then (msg.content, "") :: expectedHistory rest
    else if msg.sender = "bot" ∧ msg.content ≠ "" then ("", msg.content) :: expectedHistory rest
    else expectedHistory rest

/-! ## Concrete scenarios -/

/-- A student, for the concrete scenarios. -/
def sampleStudent : User :=
  { id := 1, email := "a@b.com", rol := some "estudiante", permisos := none }

/-- The world after that student logged in and received the token abc. -/
def loggedInWorld : World :=
  { session := { user := some sampleStudent, isAuthenticated := true, loading := false,
                 error := none },
    localStorage := [("token", "abc")], href := "/chat", commonAuthorization := none,
    sent := [] }

/-- An anonymous world with no stored token, at the login page. -/
def anonymousWorld : World :=
  { session := { user := none, isAuthenticated := false, loading := false, error := none },
    localStorage := [("theme", "dark")], href := "/login", commonAuthorization := none,
    sent := [] }

/-- A failure without any response (network error or timeout). -/
def networkError : ApiError :=
  { message := "Network Error", response := none }

/-! ## Specification-side vocabulary -/

/-- The user's rol is a member of the allowed roles. -/
def roleIsMember (allowedRoles : List String) (auth : Session) : Prop :=
  ∃ r, auth.user.bind (fun u => u.rol) = some r ∧ r ∈ allowedRoles

/-- The user's permisos (absent permisos counting as empty) contain every
required permission. -/
def hasEveryPermission (requiredPermissions : List String) (auth : Session) : Prop :=
  ∀ p, p ∈ requiredPermissions → p ∈ (auth.user.bind (fun u => u.permisos)).getD []

/-- The notifications after the call are those before plus exactly one, of the given kind. -/
def emitsOne (kind : NoticeKind) (before after : List Notice) : Prop :=
  ∃ message, after = before ++ [{ kind := kind, message := message }]

/-- The part of the session invariant that every reachable state has: an
authenticated session has a user, and once rehydration is over a stored
non-empty token means the session is authenticated. -/
def SessionCore (w : World) : Prop :=
  (w.session.isAuthenticated = true → w.session.user.isSome = true) ∧
  (w.session.loading = false → truthy (w.localStorage.getItem "token") = true →
    w.session.isAuthenticated = true)

/-- The part of the session invariant that the store keeps while no answer of
status 401 arrives: an authenticated session has a user and a stored token,
and once rehydration is over a stored non-empty token means the session is
authenticated. -/
def SessionInvariant (w : World) : Prop :=
  (w.session.isAuthenticated = true →
    w.session.user.isSome = true ∧ (w.localStorage.getItem "token").isSome = true) ∧
  (w.session.loading = false → truthy (w.localStorage.getItem "token") = true →
    w.session.isAuthenticated = true)

/-- The ids of the collection are strictly increasing in list order and all
smaller than the id counter. -/
def IdsOrdered (m : NotificationManager) : Prop :=
  List.Pairwise (fun a b => a < b) m.ids ∧ ∀ id, id ∈ m.ids → id < m.nextId

/-- The page shows exactly the notifications of the collection, in order. -/
def Synced (m : NotificationManager) : Prop :=
  m.container.getD [] = m.ids

/-- The notification a pending timer is about. -/
def TimerTask.target (task : TimerTask) : Nat :=
  match task with
  | TimerTask.show id => id
  | TimerTask.expire id => id
  | TimerTask.detach id => id

/-- Every pending timer is about a notification that was created. -/
def TimersKnown (m : NotificationManager) : Prop :=
  ∀ t, t ∈ m.timers → t.task.target < m.nextId

/-- What every reachable state of the manager satisfies. -/
def ManagerInvariant (m : NotificationManager) : Prop :=
  IdsOrdered m ∧ Synced m ∧ TimersKnown m

/-! # Theorems -/

/-! ## Route guard: the decision procedure -/

theorem includes_iff (xs : List String) (auth : Session) :
    includes xs (auth.user.bind (fun u => u.rol)) = true ↔ roleIsMember xs auth := by
  unfold includes roleIsMember
  cases h : auth.user.bind (fun u => u.rol) with
  | none => simp
  | some r => simp

theorem all_contains_iff (ps : List String) (auth : Session) :
    (ps.all (fun permission =>
      ((auth.user.bind (fun u => u.permisos)).getD []).contains permission)) = true
      ↔ hasEveryPermission ps auth := by
  unfold hasEveryPermission
  simp [List.all_eq_true]

/-- C1: ProtectedRoute decides in order, first match wins: loading gives the
placeholder and no notification; otherwise an unauthenticated session gives one
warning and a redirect to /login; otherwise a non-empty allowedRoles without the
rol of the user gives one error and a redirect to /; otherwise non-empty
requiredPermissions not all held give one error and a redirect to /; otherwise
the children are rendered and nothing is emitted.  A user of rol estudiante on
a route for tutor is redirected to / with one error notification. -/
theorem protectedRoute_first_match (allowedRoles requiredPermissions : List String)
    (auth : Session) (emitted : List Notice) :
    (auth.loading = true →
      ProtectedRoute allowedRoles requiredPermissions auth emitted
        = (Element.LoadingSpinner, emitted)) ∧
    (auth.loading = false → auth.isAuthenticated = false →
      (ProtectedRoute allowedRoles requiredPermissions auth emitted).1 = Element.Navigate "/login" ∧
      emitsOne NoticeKind.warning emitted
        (ProtectedRoute allowedRoles requiredPermissions auth emitted).2) ∧
    (auth.loading = false → auth.isAuthenticated = true →
      allowedRoles ≠ [] → ¬ roleIsMember allowedRoles auth →
      (ProtectedRoute allowedRoles requiredPermissions auth emitted).1 = Element.Navigate "/" ∧
      emitsOne NoticeKind.error emitted
        (ProtectedRoute allowedRoles requiredPermissions auth emitted).2) ∧
    (auth.loading = false → auth.isAuthenticated = true →
      (allowedRoles = [] ∨ roleIsMember allowedRoles auth) →
      requiredPermissions ≠ [] → ¬ hasEveryPermission requiredPermissions auth →
      (ProtectedRoute allowedRoles requiredPermissions auth emitted).1 = Element.Navigate "/" ∧
      emitsOne NoticeKind.error emitted
        (ProtectedRoute allowedRoles requiredPermissions auth emitted).2) ∧
    (auth.loading = false → auth.isAuthenticated = true →
      (allowedRoles = [] ∨ roleIsMember allowedRoles auth) →
      (requiredPermissions = [] ∨ hasEveryPermission requiredPermissions auth) →
      ProtectedRoute allowedRoles requiredPermissions auth emitted
        = (Element.children, emitted)) ∧
    (∀ (u : User) (err : Option String), u.rol = some "estudiante" →
      (ProtectedRoute ["tutor"] requiredPermissions
        { user := some u, isAuthenticated := true, loading := false, error := err } emitted).1
          = Element.Navigate "/" ∧
      emitsOne NoticeKind.error emitted
        (ProtectedRoute ["tutor"] requiredPermissions
          { user := some u, isAuthenticated := true, loading := false, error := err } emitted).2) := by
  refine ⟨?_, ?_, ?_, ?_, ?_, ?_⟩
  · intro hl
    simp [ProtectedRoute, hl]
  · intro hl ha
    simp [ProtectedRoute, hl, ha, emitsOne, showNotification.warning]
  · intro hl ha hne hmem
    have h1 : includes allowedRoles (auth.user.bind (fun u => u.rol)) = false := by
      rw [← Bool.not_eq_true, includes_iff]; exact hmem
    have h2 : allowedRoles.length > 0 := List.length_pos.mpr hne
    simp [ProtectedRoute, hl, ha, h1, h2, emitsOne, showNotification.error]
  · intro hl ha hrole hne hperm
    have h1 : (decide (allowedRoles.length > 0)
        && !(includes allowedRoles (auth.user.bind (fun u => u.rol)))) = false := by
      rcases hrole with h | h
      · simp [h]
      · simp [(includes_iff allowedRoles auth).mpr h]
    have h2 : requiredPermissions.length > 0 := List.length_pos.mpr hne
    have h3 : (requiredPermissions.all (fun permission =>
        ((auth.user.bind (fun u => u.permisos)).getD []).contains permission)) = false := by
      rw [← Bool.not_eq_true, all_contains_iff]; exact hperm
    unfold ProtectedRoute
    simp only [hl, ha, h1, h2, h3]
    simp [emitsOne, showNotification.error]
  · intro hl ha hrole hperm
    have h1 : (decide (allowedRoles.length > 0)
        && !(includes allowedRoles (auth.user.bind (fun u => u.rol)))) = false := by
      rcases hrole with h | h
      · simp [h]
      · simp [(includes_iff allowedRoles auth).mpr h]
    unfold ProtectedRoute
    simp only [hl, ha, h1]
    rcases hperm with h | h
    · simp [h]
    · have h3 := (all_contains_iff requiredPermissions auth).mpr h
      simp only [h3]
      simp
  · intro u err hrol
    simp [ProtectedRoute, includes, hrol, emitsOne, showNotification.error]


/-! ## Storage -/

theorem getItem_cons (k v : String) (rest : Storage) (key : String) :
    Storage.getItem ((k, v) :: rest) key
      = if k = key then some v else Storage.getItem rest key := by
  unfold Storage.getItem
  by_cases h : k = key <;> simp [List.find?_cons, h]

theorem removeItem_cons (k v : String) (rest : Storage) (key : String) :
    Storage.removeItem ((k, v) :: rest) key
      = if k = key then Storage.removeItem rest key
        else (k, v) :: Storage.removeItem rest key := by
  unfold Storage.removeItem
  by_cases h : k = key <;> simp [List.filter_cons, h]

theorem getItem_removeItem (s : Storage) (key : String) :
    (s.removeItem key).getItem key = none := by
  induction s with
  | nil => rfl
  | cons kv rest ih =>
    obtain ⟨k, v⟩ := kv
    rw [removeItem_cons]
    by_cases h : k = key
    · simp only [h, if_true]; exact ih
    · simp only [h, if_false, getItem_cons]; exact ih

theorem getItem_removeItem_ne (s : Storage) (key other : String) (h : other ≠ key) :
    (s.removeItem key).getItem other = s.getItem other := by
  induction s with
  | nil => rfl
  | cons kv rest ih =>
    obtain ⟨k, v⟩ := kv
    rw [removeItem_cons, getItem_cons]
    by_cases h1 : k = key
    · have h2 : ¬ k = other := fun h3 => h (h3.symm.trans h1)
      subst h1
      rw [if_pos rfl, if_neg h2]
      exact ih
    · simp only [h1, if_false, getItem_cons, ih]

theorem getItem_setItem (s : Storage) (key value : String) :
    (s.setItem key value).getItem key = some value := by
  simp [Storage.setItem, getItem_cons]

theorem getItem_setItem_ne (s : Storage) (key value other : String) (h : other ≠ key) :
    (s.setItem key value).getItem other = s.getItem other := by
  have h2 : ¬ key = other := fun h3 => h h3.symm
  simp [Storage.setItem, getItem_cons, h2, getItem_removeItem_ne s key other h]

theorem removeItem_removeItem (s : Storage) (key : String) :
    (s.removeItem key).removeItem key = s.removeItem key := by
  simp [Storage.removeItem, List.filter_filter]

theorem removeItem_of_getItem_none (s : Storage) (key : String)
    (h : s.getItem key = none) : s.removeItem key = s := by
  induction s with
  | nil => rfl
  | cons kv rest ih =>
    obtain ⟨k, v⟩ := kv
    rw [getItem_cons] at h
    rw [removeItem_cons]
    by_cases h1 : k = key
    · simp [h1] at h
    · simp only [h1, if_false] at h ⊢
      rw [ih h]

theorem truthy_none : truthy none = false := rfl

theorem truthy_isSome (v : Option String) (h : truthy v = true) : v.isSome = true := by
  cases v with
  | none => simp [truthy] at h
  | some s => rfl

/-! ## Login -/

/-- C5: when the login service operation succeeds with a token and a user,
login stores exactly that token under the key token (other keys untouched),
sets user to the returned user, isAuthenticated to true, error to absent, and
returns the returned user. -/
theorem login_success_contract (email password : String) (payload : AuthPayload) (w : World) :
    (login email password (Except.ok payload) w).1 = Except.ok payload.user ∧
    (login email password (Except.ok payload) w).2.localStorage.getItem "token"
      = some payload.token ∧
    (∀ key, key ≠ "token" →
      (login email password (Except.ok payload) w).2.localStorage.getItem key
        = w.localStorage.getItem key) ∧
    (login email password (Except.ok payload) w).2.session.user = some payload.user ∧
    (login email password (Except.ok payload) w).2.session.isAuthenticated = true ∧
    (login email password (Except.ok payload) w).2.session.error = none := by
  cases ht : truthy (w.localStorage.getItem "token") <;>
  simp [login, authService.login, api.request, api.send, requestInterceptor, localStorage.getItem,
    localStorage.setItem, setUser, setIsAuthenticated, setError, bind, pure,
    Eff.seq, Eff.ret, Eff.tryCatch, Eff.modify, ht, getItem_setItem]
  all_goals (intro key hk; exact getItem_setItem_ne _ _ _ _ hk)

/-- The detail message of the response payload of an error, when it has one. -/
theorem orElse_spec (v : Option String) (fallback : String) :
    (∀ d, v = some d → d ≠ "" → orElse v fallback = d) ∧
    (v = none ∨ v = some "" → orElse v fallback = fallback) := by
  constructor
  · intro d hv hd
    simp [orElse, hv, hd]
  · intro h
    rcases h with h | h <;> simp [orElse, h]

/-- C6, as the code has it: when the login service operation fails with e,
login re-raises the same e, sets error to the detail of the response payload of
e when that is a non-empty string and to the fallback message otherwise, and
leaves user and isAuthenticated as they were; localStorage and the location
are as they were unless e carries status 401, in which case the response
interceptor has removed the token and set the location to /login. -/
theorem login_failure_contract (email password : String) (e : ApiError) (w : World) :
    (login email password (Except.error e) w).1 = Except.error e ∧
    (∀ d, e.response.bind (fun r => r.detail) = some d → d ≠ "" →
      (login email password (Except.error e) w).2.session.error = some d) ∧
    ((e.response.bind (fun r => r.detail) = none ∨
        e.response.bind (fun r => r.detail) = some "") →
      (login email password (Except.error e) w).2.session.error
        = some "Error en el inicio de sesión") ∧
    (login email password (Except.error e) w).2.session.user = w.session.user ∧
    (login email password (Except.error e) w).2.session.isAuthenticated
      = w.session.isAuthenticated ∧
    (login email password (Except.error e) w).2.session.loading = w.session.loading ∧
    (e.is401 = false →
      (login email password (Except.error e) w).2.localStorage = w.localStorage ∧
      (login email password (Except.error e) w).2.href = w.href) ∧
    (e.is401 = true →
      (login email password (Except.error e) w).2.localStorage
        = w.localStorage.removeItem "token" ∧
      (login email password (Except.error e) w).2.href = "/login") := by
  have hs := orElse_spec (e.response.bind (fun r => r.detail)) "Error en el inicio de sesión"
  cases ht : truthy (w.localStorage.getItem "token") <;>
  cases h4 : e.is401 <;>
  simp [login, authService.login, api.request, api.send, requestInterceptor, responseInterceptor,
    localStorage.getItem, localStorage.removeItem,
    localStorage.setItem, setUser, setIsAuthenticated, setError, bind, pure,
    Eff.seq, Eff.ret, Eff.tryCatch, Eff.modify, Eff.raise, ht, h4] <;>
  exact ⟨fun d hd hne => hs.1 d hd hne, fun h => hs.2 (by simpa using h)⟩

/-- C6 fails as stated: a logged-in session whose login call is answered with
status 401 loses its stored token. -/
theorem login_failure_401_drops_token :
    loggedInWorld.localStorage.getItem "token" = some "abc" ∧
    (login "a@b.com" "wrong" (Except.error (unauthorizedError "Unauthorized" none))
      loggedInWorld).2.localStorage.getItem "token" = none ∧
    (login "a@b.com" "wrong" (Except.error (unauthorizedError "Unauthorized" none))
      loggedInWorld).2.localStorage.getItem "token"
        ≠ loggedInWorld.localStorage.getItem "token" := by
  decide

/-! ## Register -/

/-- C7 fails as stated: on a failure without detail register and login leave
different sessions (their fallback messages differ), and on a 401 failure the
stored token does not stay as it was. -/
theorem register_differs_from_login :
    (register [("email", "a@b.com")] (Except.error networkError) anonymousWorld).2.session
      ≠ (login "a@b.com" "pw123" (Except.error networkError) anonymousWorld).2.session ∧
    (register [("email", "a@b.com")] (Except.error (unauthorizedError "Unauthorized" none))
      loggedInWorld).2.localStorage.getItem "token"
        ≠ loggedInWorld.localStorage.getItem "token" := by
  decide

/-- C7, as the code has it: on every service outcome register makes the
transition login makes, except for the endpoint and body of the request and
for the text of the fallback message.  Result, user, isAuthenticated, loading,
localStorage and location agree; on success the token is stored, the user set
and error cleared; on failure e is re-raised and error is the non-empty detail
or else the fallback of the operation; the token is removed exactly when e
carries status 401. -/
theorem register_matches_login (userData : List (String × String)) (email password : String)
    (outcome : Except ApiError AuthPayload) (w : World) :
    (register userData outcome w).1 = (login email password outcome w).1 ∧
    (register userData outcome w).2.session.user
      = (login email password outcome w).2.session.user ∧
    (register userData outcome w).2.session.isAuthenticated
      = (login email password outcome w).2.session.isAuthenticated ∧
    (register userData outcome w).2.session.loading
      = (login email password outcome w).2.session.loading ∧
    (register userData outcome w).2.localStorage
      = (login email password outcome w).2.localStorage ∧
    (register userData outcome w).2.href = (login email password outcome w).2.href ∧
    (∃ authorization,
      (register userData outcome w).2.sent = w.sent ++
        [{ method := Method.POST, url := "/auth/register", data := userData,
           authorization := authorization }] ∧
      (login email password outcome w).2.sent = w.sent ++
        [{ method := Method.POST, url := "/auth/login",
           data := [("username", email), ("password", password)],
           authorization := authorization }]) ∧
    (∀ payload, outcome = Except.ok payload →
      (register userData outcome w).1 = Except.ok payload.user ∧
      (register userData outcome w).2.localStorage.getItem "token" = some payload.token ∧
      (register userData outcome w).2.session.user = some payload.user ∧
      (register userData outcome w).2.session.isAuthenticated = true ∧
      (register userData outcome w).2.session.error = none ∧
      (login email password outcome w).2.session.error = none) ∧
    (∀ e, outcome = Except.error e →
      (register userData outcome w).1 = Except.error e ∧
      (register userData outcome w).2.session.user = w.session.user ∧
      (register userData outcome w).2.session.isAuthenticated = w.session.isAuthenticated ∧
      (register userData outcome w).2.session.error
        = some (orElse (e.response.bind (fun r => r.detail)) "Error en el registro") ∧
      (login email password outcome w).2.session.error
        = some (orElse (e.response.bind (fun r => r.detail)) "Error en el inicio de sesión") ∧
      (e.is401 = false → (register userData outcome w).2.localStorage = w.localStorage) ∧
      (e.is401 = true →
        (register userData outcome w).2.localStorage = w.localStorage.removeItem "token")) := by
  cases outcome with
  | ok payload =>
    cases ht : truthy (w.localStorage.getItem "token") <;>
    simp [register, login, authService.register, authService.login, api.request, api.send,
      requestInterceptor, responseInterceptor, localStorage.getItem, localStorage.removeItem,
      localStorage.setItem, setUser, setIsAuthenticated, setError, bind, pure,
      Eff.seq, Eff.ret, Eff.tryCatch, Eff.modify, Eff.raise, ht, getItem_setItem]
  | error e =>
    cases ht : truthy (w.localStorage.getItem "token") <;>
    cases h4 : e.is401 <;>
    simp [register, login, authService.register, authService.login, api.request, api.send,
      requestInterceptor, responseInterceptor, localStorage.getItem, localStorage.removeItem,
      localStorage.setItem, setUser, setIsAuthenticated, setError, bind, pure,
      Eff.seq, Eff.ret, Eff.tryCatch, Eff.modify, Eff.raise, ht, h4]

/-! ## Logout -/

/-- C9: from every state logout removes the stored token (other keys are
kept), sets user to absent, isAuthenticated to false and error to absent,
issues no request, returns normally, and leaves loading, the location and the
axios defaults unchanged. -/
theorem logout_frame (w : World) :
    (logout w).1 = Except.ok () ∧
    (logout w).2.localStorage.getItem "token" = none ∧
    (∀ key, key ≠ "token" →
      (logout w).2.localStorage.getItem key = w.localStorage.getItem key) ∧
    (logout w).2.session.user = none ∧
    (logout w).2.session.isAuthenticated = false ∧
    (logout w).2.session.error = none ∧
    (logout w).2.sent = w.sent ∧
    (logout w).2.session.loading = w.session.loading ∧
    (logout w).2.href = w.href ∧
    (logout w).2.commonAuthorization = w.commonAuthorization := by
  simp [logout, localStorage.removeItem, setUser, setIsAuthenticated, setError, bind,
    Eff.seq, Eff.modify, getItem_removeItem]
  intro key hk
  exact getItem_removeItem_ne _ _ _ hk

/-! ## Rehydration -/

/-- C8: checkAuthStatus never raises and always ends with loading false.
Without a stored token (also when the stored string is empty, which the test
of the code treats alike) it sends nothing and leaves user, isAuthenticated
and localStorage alone; with a token and a successful call it sets user to the
returned user and isAuthenticated to true; with a token and a failed call it
removes the token and leaves user and isAuthenticated alone.  Run from the
initial state of AuthProvider, the last and the first case end anonymous. -/
theorem checkAuthStatus_contract (outcome : Except ApiError User) (w : World) :
    (checkAuthStatus outcome w).1 = Except.ok () ∧
    (checkAuthStatus outcome w).2.session.loading = false ∧
    (w.localStorage.getItem "token" = none → truthy (w.localStorage.getItem "token") = false) ∧
    (truthy (w.localStorage.getItem "token") = false →
      (checkAuthStatus outcome w).2.sent = w.sent ∧
      (checkAuthStatus outcome w).2.localStorage = w.localStorage ∧
      (checkAuthStatus outcome w).2.session.user = w.session.user ∧
      (checkAuthStatus outcome w).2.session.isAuthenticated = w.session.isAuthenticated) ∧
    (∀ token userData, w.localStorage.getItem "token" = some token → token ≠ "" →
      outcome = Except.ok userData →
      (checkAuthStatus outcome w).2.session.user = some userData ∧
      (checkAuthStatus outcome w).2.session.isAuthenticated = true ∧
      (checkAuthStatus outcome w).2.localStorage = w.localStorage ∧
      (checkAuthStatus outcome w).2.sent = w.sent ++
        [{ method := Method.GET, url := "/auth/me", data := [],
           authorization := some ("Bearer " ++ token) }]) ∧
    (∀ token e, w.localStorage.getItem "token" = some token → token ≠ "" →
      outcome = Except.error e →
      (checkAuthStatus outcome w).2.localStorage.getItem "token" = none ∧
      (checkAuthStatus outcome w).2.session.user = w.session.user ∧
      (checkAuthStatus outcome w).2.session.isAuthenticated = w.session.isAuthenticated) ∧
    (∀ storage href,
      (truthy (Storage.getItem storage "token") = false ∨ ∃ e, outcome = Except.error e) →
      (checkAuthStatus outcome (initialWorld storage href)).2.session
        = { user := none, isAuthenticated := false, loading := false, error := none }) := by
  refine ⟨?_, ?_, ?_, ?_, ?_, ?_, ?_⟩
  · cases ht : truthy (w.localStorage.getItem "token") <;>
    cases outcome with
    | ok u =>
      simp [checkAuthStatus, authService.getCurrentUser, api.request, api.send, requestInterceptor,
        responseInterceptor, localStorage.getItem, localStorage.removeItem, setUser,
        setIsAuthenticated, setLoading, bind, pure, Eff.seq, Eff.ret, Eff.tryCatch,
        Eff.tryFinally, Eff.modify, Eff.raise, ht]
    | error e =>
      cases h4 : e.is401 <;>
      simp [checkAuthStatus, authService.getCurrentUser, api.request, api.send, requestInterceptor,
        responseInterceptor, localStorage.getItem, localStorage.removeItem, setUser,
        setIsAuthenticated, setLoading, bind, pure, Eff.seq, Eff.ret, Eff.tryCatch,
        Eff.tryFinally, Eff.modify, Eff.raise, ht, h4]
  · cases ht : truthy (w.localStorage.getItem "token") <;>
    cases outcome with
    | ok u =>
      simp [checkAuthStatus, authService.getCurrentUser, api.request, api.send, requestInterceptor,
        responseInterceptor, localStorage.getItem, localStorage.removeItem, setUser,
        setIsAuthenticated, setLoading, bind, pure, Eff.seq, Eff.ret, Eff.tryCatch,
        Eff.tryFinally, Eff.modify, Eff.raise, ht]
    | error e =>
      cases h4 : e.is401 <;>
      simp [checkAuthStatus, authService.getCurrentUser, api.request, api.send, requestInterceptor,
        responseInterceptor, localStorage.getItem, localStorage.removeItem, setUser,
        setIsAuthenticated, setLoading, bind, pure, Eff.seq, Eff.ret, Eff.tryCatch,
        Eff.tryFinally, Eff.modify, Eff.raise, ht, h4]
  · intro h
    simp [truthy, h]
  · intro ht
    simp [checkAuthStatus, localStorage.getItem, setLoading, bind, pure, Eff.seq, Eff.ret,
      Eff.tryCatch, Eff.tryFinally, Eff.modify, ht]
  · intro token userData htok hne hout
    have ht : truthy (some token) = true := by simp [truthy, hne]
    subst hout
    simp [checkAuthStatus, authService.getCurrentUser, api.request, api.send, requestInterceptor,
      localStorage.getItem, setUser, setIsAuthenticated, setLoading, bind, pure, Eff.seq,
      Eff.ret, Eff.tryCatch, Eff.tryFinally, Eff.modify, ht, htok]
  · intro token e htok hne hout
    have ht : truthy (some token) = true := by simp [truthy, hne]
    subst hout
    cases h4 : e.is401 <;>
    simp [checkAuthStatus, authService.getCurrentUser, api.request, api.send, requestInterceptor,
      responseInterceptor, localStorage.getItem, localStorage.removeItem, setUser,
      setIsAuthenticated, setLoading, bind, pure, Eff.seq, Eff.ret, Eff.tryCatch,
      Eff.tryFinally, Eff.modify, Eff.raise, ht, htok, h4, getItem_removeItem,
      removeItem_removeItem]
  · intro storage href h
    rcases h with ht | ⟨e, he⟩
    · have ht2 : truthy (Storage.getItem (initialWorld storage href).localStorage "token")
          = false := ht
      simp [checkAuthStatus, localStorage.getItem, setLoading, bind, pure, Eff.seq, Eff.ret,
        Eff.tryCatch, Eff.tryFinally, Eff.modify, ht2]
      simp [initialWorld, initialSession]
    · subst he
      cases ht : truthy (Storage.getItem (initialWorld storage href).localStorage "token") <;>
      cases h4 : e.is401 <;>
      simp [checkAuthStatus, authService.getCurrentUser, api.request, api.send, requestInterceptor,
        responseInterceptor, localStorage.getItem, localStorage.removeItem, setUser,
        setIsAuthenticated, setLoading, bind, pure, Eff.seq, Eff.ret, Eff.tryCatch,
        Eff.tryFinally, Eff.modify, Eff.raise, ht, h4] <;>
      simp [initialWorld, initialSession]

/-! ## Forced teardown on 401 -/

/-- C3 fails as stated: a façade call of a view answered with 401 removes the
token and sets the location, but user and isAuthenticated of the session store
are still those of the logged-in user when the interceptor has run. -/
theorem unauthorized_keeps_session :
    ((chatService.getChatHistory (Except.error (unauthorizedError "Unauthorized" none)) :
        Eff Unit) loggedInWorld).2.localStorage.getItem "token" = none ∧
    ((chatService.getChatHistory (Except.error (unauthorizedError "Unauthorized" none)) :
        Eff Unit) loggedInWorld).2.href = "/login" ∧
    ((chatService.getChatHistory (Except.error (unauthorizedError "Unauthorized" none)) :
        Eff Unit) loggedInWorld).2.session.user = some sampleStudent ∧
    ((chatService.getChatHistory (Except.error (unauthorizedError "Unauthorized" none)) :
        Eff Unit) loggedInWorld).2.session.isAuthenticated = true := by
  decide

/-- C3, as the code has it: for every request through the axios instance and
every state, a response of status 401 removes the token from storage, sets the
location to /login and rejects with the same error, leaving the state cells of
the session store untouched; the session is anonymous (user absent,
isAuthenticated false, loading false) once the document has loaded again at
the new location, which sends no request since no token is stored. -/
theorem unauthorized_response_teardown {α : Type} (method : Method) (url : String)
    (data : List (String × String)) (e : ApiError) (w : World)
    (afterLoad : Except ApiError User) (h : e.is401 = true) :
    ((api.request method url data (Except.error e) : Eff α) w).1 = Except.error e ∧
    ((api.request method url data (Except.error e) : Eff α) w).2.localStorage.getItem "token"
      = none ∧
    ((api.request method url data (Except.error e) : Eff α) w).2.href = "/login" ∧
    ((api.request method url data (Except.error e) : Eff α) w).2.session = w.session ∧
    (pageLoad afterLoad ((api.request method url data (Except.error e) : Eff α) w).2).2.session
      = { user := none, isAuthenticated := false, loading := false, error := none } ∧
    (pageLoad afterLoad ((api.request method url data (Except.error e) : Eff α) w).2).2.sent
      = ((api.request method url data (Except.error e) : Eff α) w).2.sent ∧
    (pageLoad afterLoad
      ((api.request method url data (Except.error e) : Eff α) w).2).2.localStorage.getItem "token"
      = none := by
  cases ht : truthy (w.localStorage.getItem "token") <;>
  simp [pageLoad, checkAuthStatus, api.request, api.send, requestInterceptor, responseInterceptor,
    localStorage.getItem, localStorage.removeItem, setLoading, bind, pure, Eff.seq, Eff.ret,
    Eff.tryCatch, Eff.tryFinally, Eff.modify, Eff.raise, ht, h, truthy_none,
    getItem_removeItem, initialSession]

/-- A 401 answer to a view request in a logged-in session, then the reload. -/
theorem unauthorized_response_teardown_witness :
    (unauthorizedError "Unauthorized" none).is401 = true ∧
    ((api.request Method.GET "/chat/history" []
        (Except.error (unauthorizedError "Unauthorized" none)) : Eff Unit)
      loggedInWorld).2.localStorage.getItem "token" = none ∧
    (pageLoad (Except.error networkError)
      ((api.request Method.GET "/chat/history" []
        (Except.error (unauthorizedError "Unauthorized" none)) : Eff Unit)
          loggedInWorld).2).2.session
      = { user := none, isAuthenticated := false, loading := false, error := none } :=
  ⟨by decide,
   (unauthorized_response_teardown Method.GET "/chat/history" []
      (unauthorizedError "Unauthorized" none) loggedInWorld (Except.error networkError)
      (by decide)).2.1,
   (unauthorized_response_teardown Method.GET "/chat/history" []
      (unauthorizedError "Unauthorized" none) loggedInWorld (Except.error networkError)
      (by decide)).2.2.2.2.1⟩

/-! ## Idempotent teardown -/

theorem teardown_run_anonymous (t : Teardown) (w : World)
    (hu : w.session.user = none) (ha : w.session.isAuthenticated = false)
    (he : w.session.error = none) (ht : w.localStorage.getItem "token" = none) :
    (t.run w).session = w.session ∧ (t.run w).localStorage = w.localStorage := by
  have hrm := removeItem_of_getItem_none w.localStorage "token" ht
  obtain ⟨session, storage, href, common, sent⟩ := w
  obtain ⟨user, isAuthenticated, loading, error⟩ := session
  simp only at hu ha he hrm
  subst hu ha he
  cases t with
  | logout =>
    simp [Teardown.run, logout, localStorage.removeItem, setUser, setIsAuthenticated, setError,
      bind, Eff.seq, Eff.modify, hrm]
  | unauthorized message detail =>
    simp [Teardown.run, responseInterceptor, unauthorizedError, ApiError.is401,
      localStorage.removeItem, bind, Eff.seq, Eff.modify, Eff.raise, hrm]

theorem logout_logout (w : World) : logout (logout w).2 = logout w := by
  simp [logout, localStorage.removeItem, setUser, setIsAuthenticated, setError,
    bind, Eff.seq, Eff.modify, removeItem_removeItem]

/-- C4: from an anonymous session (user absent, isAuthenticated false, error
absent) with no stored token, any sequence of logout calls and 401 teardowns
leaves the session and the storage as they were, hence anonymous and without
token; and from any state, logout applied twice gives the same result and the
same world as logout applied once. -/
theorem teardown_idempotent (ts : List Teardown) (w : World)
    (hu : w.session.user = none) (ha : w.session.isAuthenticated = false)
    (he : w.session.error = none) (ht : w.localStorage.getItem "token" = none) :
    (runTeardowns ts w).session = w.session ∧
    (runTeardowns ts w).localStorage = w.localStorage ∧
    (runTeardowns ts w).session.user = none ∧
    (runTeardowns ts w).session.isAuthenticated = false ∧
    (runTeardowns ts w).session.error = none ∧
    (runTeardowns ts w).localStorage.getItem "token" = none ∧
    (∀ w0 : World, logout (logout w0).2 = logout w0) := by
  have key : (runTeardowns ts w).session = w.session ∧
      (runTeardowns ts w).localStorage = w.localStorage := by
    induction ts generalizing w with
    | nil => exact ⟨rfl, rfl⟩
    | cons t rest ih =>
      have h1 := teardown_run_anonymous t w hu ha he ht
      have h2 := ih (t.run w) (by rw [h1.1]; exact hu) (by rw [h1.1]; exact ha)
        (by rw [h1.1]; exact he) (by rw [h1.2]; exact ht)
      have h3 : runTeardowns (t :: rest) w = runTeardowns rest (t.run w) := rfl
      rw [h3]
      exact ⟨h2.1.trans h1.1, h2.2.trans h1.2⟩
  refine ⟨key.1, key.2, ?_, ?_, ?_, ?_, logout_logout⟩
  · rw [key.1]; exact hu
  · rw [key.1]; exact ha
  · rw [key.1]; exact he
  · rw [key.2]; exact ht

/-- Two logouts around two 401 teardowns, from the anonymous world. -/
theorem teardown_idempotent_witness :
    (runTeardowns [Teardown.logout, Teardown.unauthorized "Unauthorized" none,
        Teardown.unauthorized "Unauthorized" (some "expired"), Teardown.logout]
      anonymousWorld).session = anonymousWorld.session ∧
    (runTeardowns [Teardown.logout, Teardown.unauthorized "Unauthorized" none,
        Teardown.unauthorized "Unauthorized" (some "expired"), Teardown.logout]
      anonymousWorld).localStorage.getItem "token" = none :=
  ⟨(teardown_idempotent [Teardown.logout, Teardown.unauthorized "Unauthorized" none,
        Teardown.unauthorized "Unauthorized" (some "expired"), Teardown.logout]
      anonymousWorld rfl rfl rfl (by decide)).1,
   (teardown_idempotent [Teardown.logout, Teardown.unauthorized "Unauthorized" none,
        Teardown.unauthorized "Unauthorized" (some "expired"), Teardown.logout]
      anonymousWorld rfl rfl rfl (by decide)).2.2.2.2.2.1⟩

/-! ## Session invariant -/

/-- C2 fails as stated, in four ways: before rehydration a token is stored
while the session is not authenticated; updateUser on an anonymous session
gives a user without authentication; a 401 answer after a login removes the
token while isAuthenticated stays true; and an empty string stored under the
token key is a stored token that rehydration does not take for a session. -/
theorem session_invariant_broken :
    (Reachable (initialWorld [("token", "abc")] "/") ∧
      ((initialWorld [("token", "abc")] "/").localStorage.getItem "token").isSome = true ∧
      (initialWorld [("token", "abc")] "/").session.isAuthenticated = false) ∧
    (Reachable ((StoreOp.updateUser sampleStudent).run (initialWorld [] "/login")) ∧
      ((StoreOp.updateUser sampleStudent).run (initialWorld [] "/login")).session.user.isSome
        = true ∧
      ((StoreOp.updateUser sampleStudent).run (initialWorld [] "/login")).session.isAuthenticated
        = false) ∧
    (Reachable ((responseInterceptor (unauthorizedError "Unauthorized" none) : Eff Unit)
        ((StoreOp.login "a@b.com" "pw123"
          (Except.ok { token := "abc", user := sampleStudent })).run
            (initialWorld [] "/login"))).2 ∧
      ((responseInterceptor (unauthorizedError "Unauthorized" none) : Eff Unit)
        ((StoreOp.login "a@b.com" "pw123"
          (Except.ok { token := "abc", user := sampleStudent })).run
            (initialWorld [] "/login"))).2.session.isAuthenticated = true ∧
      ((responseInterceptor (unauthorizedError "Unauthorized" none) : Eff Unit)
        ((StoreOp.login "a@b.com" "pw123"
          (Except.ok { token := "abc", user := sampleStudent })).run
            (initialWorld [] "/login"))).2.localStorage.getItem "token" = none) ∧
    (Reachable (checkAuthStatus (Except.ok sampleStudent) (initialWorld [("token", "")] "/")).2 ∧
      (checkAuthStatus (Except.ok sampleStudent)
        (initialWorld [("token", "")] "/")).2.session.loading = false ∧
      ((checkAuthStatus (Except.ok sampleStudent)
        (initialWorld [("token", "")] "/")).2.localStorage.getItem "token").isSome = true ∧
      (checkAuthStatus (Except.ok sampleStudent)
        (initialWorld [("token", "")] "/")).2.session.isAuthenticated = false) := by
  refine ⟨⟨Reachable.init _ _, by decide, by decide⟩,
    ⟨Reachable.store _ _ (Reachable.init _ _), by decide, by decide⟩,
    ⟨Reachable.response _ _ (Reachable.store _ _ (Reachable.init _ _)), by decide, by decide⟩,
    ⟨Reachable.mounted _ _ _, by decide, by decide, by decide⟩⟩

theorem invariant_initial (storage : Storage) (href : String) :
    SessionInvariant (initialWorld storage href) := by
  simp [SessionInvariant, initialWorld, initialSession]

theorem invariant_mounted (storage : Storage) (href : String) (outcome : Except ApiError User) :
    SessionInvariant (checkAuthStatus outcome (initialWorld storage href)).2 := by
  unfold SessionInvariant
  cases ht : truthy (Storage.getItem (initialWorld storage href).localStorage "token") <;>
  cases outcome with
  | ok u =>
    simp [checkAuthStatus, authService.getCurrentUser, api.request, api.send, requestInterceptor,
      responseInterceptor, localStorage.getItem, localStorage.removeItem, setUser,
      setIsAuthenticated, setLoading, bind, pure, Eff.seq, Eff.ret, Eff.tryCatch,
      Eff.tryFinally, Eff.modify, Eff.raise, ht]
    all_goals simp_all [initialWorld, initialSession]
    all_goals exact truthy_isSome _ ht
  | error e =>
    cases h4 : e.is401 <;>
    simp [checkAuthStatus, authService.getCurrentUser, api.request, api.send, requestInterceptor,
      responseInterceptor, localStorage.getItem, localStorage.removeItem, setUser,
      setIsAuthenticated, setLoading, bind, pure, Eff.seq, Eff.ret, Eff.tryCatch,
      Eff.tryFinally, Eff.modify, Eff.raise, ht, h4, getItem_removeItem,
      removeItem_removeItem, truthy_none] <;>
    simp_all [initialWorld, initialSession, truthy]

theorem invariant_store (op : StoreOp) (w : World) (h401 : op.gets401 = false)
    (ih : SessionInvariant w) : SessionInvariant (op.run w) := by
  unfold SessionInvariant at *
  obtain ⟨ih1, ih2⟩ := ih
  cases op with
  | login email password outcome =>
    cases outcome with
    | ok payload =>
      cases ht : truthy (w.localStorage.getItem "token") <;>
      simp [StoreOp.run, login, authService.login, api.request, api.send, requestInterceptor,
        localStorage.getItem, localStorage.setItem, setUser, setIsAuthenticated, setError,
        bind, pure, Eff.seq, Eff.ret, Eff.tryCatch, Eff.modify, ht, getItem_setItem]
    | error e =>
      have h4 : e.is401 = false := h401
      cases ht : truthy (w.localStorage.getItem "token") <;>
      simp [StoreOp.run, login, authService.login, api.request, api.send, requestInterceptor,
        responseInterceptor, localStorage.getItem, setError, bind, pure, Eff.seq, Eff.ret,
        Eff.tryCatch, Eff.modify, Eff.raise, ht, h4] <;>
      first | exact ih1 | exact ⟨ih1, fun hl => ih2 hl ht⟩
  | register userData outcome =>
    cases outcome with
    | ok payload =>
      cases ht : truthy (w.localStorage.getItem "token") <;>
      simp [StoreOp.run, register, authService.register, api.request, api.send, requestInterceptor,
        localStorage.getItem, localStorage.setItem, setUser, setIsAuthenticated, setError,
        bind, pure, Eff.seq, Eff.ret, Eff.tryCatch, Eff.modify, ht, getItem_setItem]
    | error e =>
      have h4 : e.is401 = false := h401
      cases ht : truthy (w.localStorage.getItem "token") <;>
      simp [StoreOp.run, register, authService.register, api.request, api.send, requestInterceptor,
        responseInterceptor, localStorage.getItem, setError, bind, pure, Eff.seq, Eff.ret,
        Eff.tryCatch, Eff.modify, Eff.raise, ht, h4] <;>
      first | exact ih1 | exact ⟨ih1, fun hl => ih2 hl ht⟩
  | logout =>
    simp [StoreOp.run, logout, localStorage.removeItem, setUser, setIsAuthenticated, setError,
      bind, Eff.seq, Eff.modify, getItem_removeItem, truthy_none]
  | updateUser userData =>
    simp [StoreOp.run, updateUser, setUser, Eff.modify]
    exact ⟨fun h => (ih1 h).2, ih2⟩
  | clearError =>
    simp [StoreOp.run, clearError, setError, Eff.modify]
    exact ⟨ih1, ih2⟩
  | updatePassword o n outcome =>
    cases outcome with
    | ok u =>
      cases ht : truthy (w.localStorage.getItem "token") <;>
      simp [StoreOp.run, updatePassword, authService.changePassword, api.request, api.send,
        requestInterceptor, localStorage.getItem, bind, pure, Eff.seq, Eff.ret,
        Eff.tryCatch, Eff.modify, ht] <;>
      first | exact ih1 | exact ⟨ih1, fun hl => ih2 hl ht⟩
    | error e =>
      have h4 : e.is401 = false := h401
      cases ht : truthy (w.localStorage.getItem "token") <;>
      simp [StoreOp.run, updatePassword, authService.changePassword, api.request, api.send,
        requestInterceptor, responseInterceptor, localStorage.getItem, bind, pure, Eff.seq,
        Eff.ret, Eff.tryCatch, Eff.modify, Eff.raise, ht, h4] <;>
      first | exact ih1 | exact ⟨ih1, fun hl => ih2 hl ht⟩

theorem invariant_response (e : ApiError) (w : World) (h4 : e.is401 = false)
    (ih : SessionInvariant w) :
    SessionInvariant ((responseInterceptor e : Eff Unit) w).2 := by
  simpa [responseInterceptor, bind, pure, Eff.seq, Eff.ret, Eff.raise, h4] using ih

theorem invariant_login_ok (w : World) (email password : String) (payload : AuthPayload) :
    SessionInvariant ((StoreOp.login email password (Except.ok payload)).run w) := by
  unfold SessionInvariant
  cases ht : truthy (w.localStorage.getItem "token") <;>
  simp [StoreOp.run, login, authService.login, api.request, api.send, requestInterceptor,
    localStorage.getItem, localStorage.setItem, setUser, setIsAuthenticated, setError,
    bind, pure, Eff.seq, Eff.ret, Eff.tryCatch, Eff.modify, ht, getItem_setItem]

theorem invariant_register_ok (w : World) (userData : List (String × String))
    (payload : AuthPayload) :
    SessionInvariant ((StoreOp.register userData (Except.ok payload)).run w) := by
  unfold SessionInvariant
  cases ht : truthy (w.localStorage.getItem "token") <;>
  simp [StoreOp.run, register, authService.register, api.request, api.send, requestInterceptor,
    localStorage.getItem, localStorage.setItem, setUser, setIsAuthenticated, setError,
    bind, pure, Eff.seq, Eff.ret, Eff.tryCatch, Eff.modify, ht, getItem_setItem]

theorem invariant_logout (w : World) : SessionInvariant (StoreOp.logout.run w) := by
  unfold SessionInvariant
  simp [StoreOp.run, logout, localStorage.removeItem, setUser, setIsAuthenticated, setError,
    bind, Eff.seq, Eff.modify, getItem_removeItem, truthy_none]

theorem invariant_no401 (w : World) (h : No401SinceSession w) : SessionInvariant w := by
  induction h with
  | init storage href => exact invariant_initial storage href
  | mounted storage href outcome => exact invariant_mounted storage href outcome
  | login w email password payload _ => exact invariant_login_ok w email password payload
  | register w userData payload _ => exact invariant_register_ok w userData payload
  | logout w _ => exact invariant_logout w
  | store w op h401 _ ih => exact invariant_store op w h401 ih
  | response w e h4 _ ih => exact invariant_response e w h4 ih

theorem core_of_invariant (w : World) (h : SessionInvariant w) : SessionCore w :=
  ⟨fun ha => (h.1 ha).1, h.2⟩

theorem core_store (op : StoreOp) (w : World) (ih : SessionCore w) :
    SessionCore (op.run w) := by
  unfold SessionCore at *
  obtain ⟨ih1, ih2⟩ := ih
  cases op with
  | login email password outcome =>
    cases outcome with
    | ok payload =>
      exact core_of_invariant _ (invariant_login_ok w email password payload)
    | error e =>
      cases h4 : e.is401 <;>
      cases ht : truthy (w.localStorage.getItem "token") <;>
      simp [StoreOp.run, login, authService.login, api.request, api.send, requestInterceptor,
        responseInterceptor, localStorage.getItem, localStorage.removeItem, setError, bind,
        pure, Eff.seq, Eff.ret, Eff.tryCatch, Eff.modify, Eff.raise, ht, h4,
        getItem_removeItem, truthy_none] <;>
      first | exact ih1 | exact ⟨ih1, fun hl => ih2 hl ht⟩
  | register userData outcome =>
    cases outcome with
    | ok payload =>
      exact core_of_invariant _ (invariant_register_ok w userData payload)
    | error e =>
      cases h4 : e.is401 <;>
      cases ht : truthy (w.localStorage.getItem "token") <;>
      simp [StoreOp.run, register, authService.register, api.request, api.send,
        requestInterceptor, responseInterceptor, localStorage.getItem, localStorage.removeItem,
        setError, bind, pure, Eff.seq, Eff.ret, Eff.tryCatch, Eff.modify, Eff.raise, ht, h4,
        getItem_removeItem, truthy_none] <;>
      first | exact ih1 | exact ⟨ih1, fun hl => ih2 hl ht⟩
  | logout => exact core_of_invariant _ (invariant_logout w)
  | updateUser userData =>
    simp [StoreOp.run, updateUser, setUser, Eff.modify]
    exact ih2
  | clearError =>
    simp [StoreOp.run, clearError, setError, Eff.modify]
    exact ⟨ih1, ih2⟩
  | updatePassword o n outcome =>
    cases outcome with
    | ok u =>
      cases ht : truthy (w.localStorage.getItem "token") <;>
      simp [StoreOp.run, updatePassword, authService.changePassword, api.request, api.send,
        requestInterceptor, localStorage.getItem, bind, pure, Eff.seq, Eff.ret,
        Eff.tryCatch, Eff.modify, ht] <;>
      first | exact ih1 | exact ⟨ih1, fun hl => ih2 hl ht⟩
    | error e =>
      cases h4 : e.is401 <;>
      cases ht : truthy (w.localStorage.getItem "token") <;>
      simp [StoreOp.run, updatePassword, authService.changePassword, api.request, api.send,
        requestInterceptor, responseInterceptor, localStorage.getItem,
        localStorage.removeItem, bind, pure, Eff.seq, Eff.ret, Eff.tryCatch, Eff.modify,
        Eff.raise, ht, h4, getItem_removeItem, truthy_none] <;>
      first | exact ih1 | exact ⟨ih1, fun hl => ih2 hl ht⟩

theorem core_response (e : ApiError) (w : World) (ih : SessionCore w) :
    SessionCore ((responseInterceptor e : Eff Unit) w).2 := by
  unfold SessionCore at *
  obtain ⟨ih1, ih2⟩ := ih
  cases h4 : e.is401 <;>
  simp [responseInterceptor, localStorage.removeItem, bind, pure, Eff.seq, Eff.ret,
    Eff.raise, Eff.modify, h4, getItem_removeItem, truthy_none] <;>
  first | exact ih1 | exact ⟨ih1, ih2⟩

theorem core_reachable (w : World) (h : Reachable w) : SessionCore w := by
  induction h with
  | init storage href => exact core_of_invariant _ (invariant_initial storage href)
  | mounted storage href outcome =>
    exact core_of_invariant _ (invariant_mounted storage href outcome)
  | store w op _ ih => exact core_store op w ih
  | response w e _ ih => exact core_response e w ih

theorem reachable_of_no401 (w : World) (h : No401SinceSession w) : Reachable w := by
  induction h with
  | init storage href => exact Reachable.init storage href
  | mounted storage href outcome => exact Reachable.mounted storage href outcome
  | login w email password payload hr => exact Reachable.store w _ hr
  | register w userData payload hr => exact Reachable.store w _ hr
  | logout w hr => exact Reachable.store w _ hr
  | store w op _ _ ih => exact Reachable.store w op ih
  | response w e _ _ ih => exact Reachable.response w e ih

/-- C2, as the code has it: in every state reached from the initial state of
AuthProvider (whatever localStorage holds) by the mount-time checkAuthStatus
and then any sequence of login, register, logout, updateUser, clearError,
updatePassword and failed requests of views, answers of status 401 included,
an authenticated session has a user, and once loading is false a stored
non-empty token means the session is authenticated; and an authenticated
session has a stored token as long as no answer of status 401 has arrived
since the mount effect or the last successful login, successful register or
logout. -/
theorem session_invariant_reachable (w : World) (h : Reachable w) :
    (w.session.isAuthenticated = true → w.session.user.isSome = true) ∧
    (w.session.loading = false → truthy (w.localStorage.getItem "token") = true →
      w.session.isAuthenticated = true) ∧
    (No401SinceSession w → w.session.isAuthenticated = true →
      (w.localStorage.getItem "token").isSome = true) :=
  ⟨(core_reachable w h).1, (core_reachable w h).2,
   fun h2 ha => ((invariant_no401 w h2).1 ha).2⟩

/-- A login, a 401 answer to a request of a view, and a second login: the
session is authenticated with a user after the 401 answer, and has a stored
token again after the second login. -/
theorem session_invariant_reachable_witness :
    ((responseInterceptor (unauthorizedError "Unauthorized" none) : Eff Unit)
      ((StoreOp.login "a@b.com" "pw123"
        (Except.ok { token := "abc", user := sampleStudent })).run
          (initialWorld [] "/login"))).2.session.isAuthenticated = true ∧
    ((responseInterceptor (unauthorizedError "Unauthorized" none) : Eff Unit)
      ((StoreOp.login "a@b.com" "pw123"
        (Except.ok { token := "abc", user := sampleStudent })).run
          (initialWorld [] "/login"))).2.session.user.isSome = true ∧
    (((StoreOp.login "a@b.com" "pw123"
        (Except.ok { token := "xyz", user := sampleStudent })).run
      ((responseInterceptor (unauthorizedError "Unauthorized" none) : Eff Unit)
        ((StoreOp.login "a@b.com" "pw123"
          (Except.ok { token := "abc", user := sampleStudent })).run
            (initialWorld [] "/login"))).2).localStorage.getItem "token").isSome = true :=
  ⟨by decide,
   (session_invariant_reachable _
      (Reachable.response _ (unauthorizedError "Unauthorized" none)
        (Reachable.store _
          (StoreOp.login "a@b.com" "pw123" (Except.ok { token := "abc", user := sampleStudent }))
          (Reachable.init [] "/login")))).1 (by decide),
   (session_invariant_reachable _
      (Reachable.store _
        (StoreOp.login "a@b.com" "pw123" (Except.ok { token := "xyz", user := sampleStudent }))
        (Reachable.response _ (unauthorizedError "Unauthorized" none)
          (Reachable.store _
            (StoreOp.login "a@b.com" "pw123"
              (Except.ok { token := "abc", user := sampleStudent }))
            (Reachable.init [] "/login"))))).2.2
      (No401SinceSession.login _ "a@b.com" "pw123" { token := "xyz", user := sampleStudent }
        (Reachable.response _ (unauthorizedError "Unauthorized" none)
          (Reachable.store _
            (StoreOp.login "a@b.com" "pw123"
              (Except.ok { token := "abc", user := sampleStudent }))
            (Reachable.init [] "/login"))))
      (by decide)⟩

/-! ## Bearer header -/

/-- C10 at the failing input: after authService.setToken the session store
logs out; storage holds no token, yet the next request carries the bearer
header of the old token, taken from the defaults of the axios instance.  With
authService.removeToken in place of logout the request carries no such
header; and whenever the defaults hold no Authorization header, a request
carries Bearer followed by the stored token when that is a non-empty string
and no Authorization header otherwise. -/
theorem stale_bearer_after_logout :
    (logout (authService.setToken "abc" (initialWorld [] "/")).2).2.localStorage.getItem "token"
      = none ∧
    ((chatService.getChatHistory (Except.error networkError) : Eff Unit)
      (logout (authService.setToken "abc" (initialWorld [] "/")).2).2).2.sent
      = [{ method := Method.GET, url := "/chat/history", data := [],
           authorization := some "Bearer abc" }] ∧
    ((chatService.getChatHistory (Except.error networkError) : Eff Unit)
      (authService.removeToken (authService.setToken "abc" (initialWorld [] "/")).2).2).2.sent
      = [{ method := Method.GET, url := "/chat/history", data := [],
           authorization := none }] ∧
    (∀ (method : Method) (url : String) (data : List (String × String))
        (outcome : Except ApiError Unit) (w : World), w.commonAuthorization = none →
      ((api.request method url data outcome : Eff Unit) w).2.sent = w.sent ++
        [{ method := method, url := url, data := data,
           authorization :=
             match w.localStorage.getItem "token" with
             | some token => if token = "" then none else some ("Bearer " ++ token)
             | none => none }]) := by
  refine ⟨by decide, by decide, by decide, ?_⟩
  intro method url data outcome w hc
  cases hg : w.localStorage.getItem "token" with
  | none =>
    have ht : truthy (w.localStorage.getItem "token") = false := by rw [hg]; rfl
    cases outcome with
    | ok u =>
      simp [api.request, api.send, requestInterceptor, localStorage.getItem, bind, pure, Eff.seq,
        Eff.ret, Eff.modify, ht, hc]
    | error e =>
      cases h4 : e.is401 <;>
      simp [api.request, api.send, requestInterceptor, responseInterceptor, localStorage.getItem,
        localStorage.removeItem, bind, pure, Eff.seq, Eff.ret, Eff.modify, Eff.raise, ht, hc, h4]
  | some token =>
    by_cases hne : token = ""
    · have ht : truthy (w.localStorage.getItem "token") = false := by
        rw [hg]; simp [truthy, hne]
      cases outcome with
      | ok u =>
        simp [api.request, api.send, requestInterceptor, localStorage.getItem, bind, pure, Eff.seq,
          Eff.ret, Eff.modify, ht, hc, hne]
      | error e =>
        cases h4 : e.is401 <;>
        simp [api.request, api.send, requestInterceptor, responseInterceptor, localStorage.getItem,
          localStorage.removeItem, bind, pure, Eff.seq, Eff.ret, Eff.modify, Eff.raise, ht, hc,
          h4, hne]
    · have ht : truthy (some token) = true := by
        simp [truthy, hne]
      cases outcome with
      | ok u =>
        simp [api.request, api.send, requestInterceptor, localStorage.getItem, bind, pure, Eff.seq,
          Eff.ret, Eff.modify, ht, hc, hne, hg]
      | error e =>
        cases h4 : e.is401 <;>
        simp [api.request, api.send, requestInterceptor, responseInterceptor, localStorage.getItem,
          localStorage.removeItem, bind, pure, Eff.seq, Eff.ret, Eff.modify, Eff.raise, ht, hc,
          h4, hne, hg]

/-! ## Errors other than 401 -/

/-- C11: for every failed request whose error has no response, or a response
of a status other than 401, the response interceptor rejects with the very
same error and leaves the whole world, the stored token and the location in
particular, as it was; so does a request through the axios instance, apart
from the request it has logged as sent. -/
theorem response_error_passthrough {α : Type} (e : ApiError) (w : World)
    (h : e.response = none ∨ ∃ r, e.response = some r ∧ r.status ≠ 401) :
    (responseInterceptor e : Eff α) w = (Except.error e, w) ∧
    (∀ (method : Method) (url : String) (data params : List (String × String)),
      ((api.send method url data params (Except.error e) : Eff α) w).1 = Except.error e ∧
      ((api.send method url data params (Except.error e) : Eff α) w).2.localStorage
        = w.localStorage ∧
      ((api.send method url data params (Except.error e) : Eff α) w).2.href = w.href ∧
      ((api.send method url data params (Except.error e) : Eff α) w).2.session = w.session) := by
  have h4 : e.is401 = false := by
    rcases h with h | ⟨r, hr, hs⟩
    · simp [ApiError.is401, h]
    · simp [ApiError.is401, hr, hs]
  constructor
  · simp [responseInterceptor, bind, pure, Eff.seq, Eff.ret, Eff.raise, h4]
  · intro method url data params
    cases ht : truthy (w.localStorage.getItem "token") <;>
    simp [api.send, requestInterceptor, responseInterceptor, localStorage.getItem, bind, pure,
      Eff.seq, Eff.ret, Eff.modify, Eff.raise, ht, h4]

/-- A network failure and a 500 answer in the logged-in world. -/
theorem response_error_passthrough_witness :
    (responseInterceptor networkError : Eff Unit) loggedInWorld
      = (Except.error networkError, loggedInWorld) ∧
    (responseInterceptor
        { message := "Server Error", response := some { status := 500, detail := none } } :
      Eff Unit) loggedInWorld
      = (Except.error
          { message := "Server Error", response := some { status := 500, detail := none } },
         loggedInWorld) :=
  ⟨(response_error_passthrough networkError loggedInWorld (Or.inl rfl)).1,
   (response_error_passthrough
      { message := "Server Error", response := some { status := 500, detail := none } }
      loggedInWorld (Or.inr ⟨{ status := 500, detail := none }, rfl, by decide⟩)).1⟩

/-! ## Client configuration -/

/-- C12 at every environment: the axios instance is created with the base
URL of the current configuration but without any timeout, so its requests run
with the library default 0 (no timeout), not with the 10000 ms that the API
configuration of the same module declares. -/
theorem api_client_has_no_timeout (env : ProcessEnv) :
    (apiCreateConfig env).baseURL = currentConfig.apiBaseUrl env ∧
    (apiCreateConfig env).baseURL = (apiConfig env).baseURL ∧
    (apiCreateConfig env).timeout = none ∧
    effectiveTimeout (apiCreateConfig env) = 0 ∧
    (apiConfig env).timeout = some 10000 ∧
    effectiveTimeout (apiConfig env) = 10000 ∧
    effectiveTimeout (apiCreateConfig env) ≠ effectiveTimeout (apiConfig env) := by
  simp [apiCreateConfig, apiConfig, effectiveTimeout]

/-! ## Service façades -/

theorem api_send_once {α : Type} (method : Method) (url : String)
    (data params : List (String × String)) (outcome : Except ApiError α) (w : World) :
    (∃ authorization, ((api.send method url data params outcome : Eff α) w).2.sent = w.sent ++
      [{ method := method, url := url, data := data, authorization := authorization,
         params := params }]) ∧
    ((api.send method url data params outcome : Eff α) w).1 = outcome := by
  cases outcome with
  | ok d =>
    cases ht : truthy (w.localStorage.getItem "token") <;>
    simp [api.send, requestInterceptor, localStorage.getItem, bind, pure, Eff.seq, Eff.ret,
      Eff.modify, ht]
  | error e =>
    cases ht : truthy (w.localStorage.getItem "token") <;>
    cases h4 : e.is401 <;>
    simp [api.send, requestInterceptor, responseInterceptor, localStorage.getItem,
      localStorage.removeItem, bind, pure, Eff.seq, Eff.ret, Eff.modify, Eff.raise, ht, h4]

/-- C13: every network operation of authService, chatService, analysisService,
notificationService and userService hands exactly one request to the network
per call; when the request succeeds the operation returns the data of the
answer, and when it fails it raises the error of the request unchanged, with
no further request. -/
theorem facade_fire_once {α : Type} (f : Facade α) (outcome : Except ApiError α) (w : World) :
    (∃ request, (f.run outcome w).2.sent = w.sent ++ [request]) ∧
    (f.run outcome w).1 = outcome ∧
    (∀ data, outcome = Except.ok data → (f.run outcome w).1 = Except.ok data) ∧
    (∀ e, outcome = Except.error e → (f.run outcome w).1 = Except.error e) := by
  have key : (∃ request, (f.run outcome w).2.sent = w.sent ++ [request]) ∧
      (f.run outcome w).1 = outcome := by
    cases f <;>
    first
    | exact ⟨⟨_, (api_send_once _ _ _ _ outcome w).1.choose_spec⟩,
        (api_send_once _ _ _ _ outcome w).2⟩
  exact ⟨key.1, key.2, fun d hd => by rw [key.2, hd], fun e he => by rw [key.2, he]⟩

/-- C14 at every time range: the call of the views sends GET /analysis/deep
without any query parameter, the time range is dropped; the sibling
exportAnalysisReport does send its time range as a query parameter. -/
theorem deep_analysis_drops_time_range (r : String) (outcome : Except ApiError Unit)
    (w : World) :
    (∃ authorization, (loadDeepAnalysis.request r outcome w).2.sent = w.sent ++
      [{ method := Method.GET, url := "/analysis/deep", data := [],
         authorization := authorization, params := [] }]) ∧
    (∀ request, request ∈ (loadDeepAnalysis.request r outcome w).2.sent →
      request ∉ w.sent → ("timeRange", r) ∉ request.params) ∧
    (∃ authorization, (analysisService.exportAnalysisReport r outcome w).2.sent = w.sent ++
      [{ method := Method.GET, url := "/analysis/export-report", data := [],
         authorization := authorization, params := [("time_range", r)] }]) := by
  have h1 := (api_send_once Method.GET "/analysis/deep" [] [] outcome w).1
  have h2 := (api_send_once Method.GET "/analysis/export-report" [] [("time_range", r)]
    outcome w).1
  refine ⟨h1, ?_, h2⟩
  obtain ⟨a, ha⟩ := h1
  intro request hmem hnot
  have hs : (loadDeepAnalysis.request r outcome w).2.sent = w.sent ++
      [{ method := Method.GET, url := "/analysis/deep", data := [],
         authorization := a, params := [] }] := ha
  rw [hs] at hmem
  rcases List.mem_append.mp hmem with hm | hm
  · exact absurd hm hnot
  · simp at hm
    simp [hm]

/-! ## Route guard: determinism -/

/-- C20: the decision of ProtectedRoute depends on user, isAuthenticated and
loading of the session and on allowedRoles and requiredPermissions only: two
evaluations that agree on these return the same element, whatever the error
cell, and whatever notifications were emitted before. -/
theorem protectedRoute_deterministic (allowedRoles1 allowedRoles2 : List String)
    (requiredPermissions1 requiredPermissions2 : List String) (auth1 auth2 : Session)
    (emitted1 emitted2 : List Notice)
    (hu : auth1.user = auth2.user) (ha : auth1.isAuthenticated = auth2.isAuthenticated)
    (hl : auth1.loading = auth2.loading) (hr : allowedRoles1 = allowedRoles2)
    (hp : requiredPermissions1 = requiredPermissions2) :
    (ProtectedRoute allowedRoles1 requiredPermissions1 auth1 emitted1).1
      = (ProtectedRoute allowedRoles2 requiredPermissions2 auth2 emitted2).1 := by
  subst hr hp
  obtain ⟨u1, a1, l1, e1⟩ := auth1
  obtain ⟨u2, a2, l2, e2⟩ := auth2
  simp only at hu ha hl
  subst hu ha hl
  unfold ProtectedRoute
  simp only []
  split_ifs <;> rfl

/-- The same student on the same route, with different error cells and
different notifications emitted before. -/
theorem protectedRoute_deterministic_witness :
    (ProtectedRoute ["tutor"] []
        { user := some sampleStudent, isAuthenticated := true, loading := false,
          error := none } []).1
      = (ProtectedRoute ["tutor"] []
        { user := some sampleStudent, isAuthenticated := true, loading := false,
          error := some "Error en el inicio de sesión" }
        [{ kind := NoticeKind.info, message := "hola" }]).1 :=
  protectedRoute_deterministic ["tutor"] ["tutor"] [] [] _ _ _ _ rfl rfl rfl rfl rfl

/-! ## Logger threshold -/

theorem shouldLog_iff (isDevelopment : Bool) (threshold level : Level) :
    Logger.shouldLog { isDevelopment := isDevelopment, logLevel := threshold.label } level.label
      = decide (level.number ≤ threshold.number) := by
  cases isDevelopment <;> cases threshold <;> cases level <;> decide

/-- C19: with ERROR 0, WARN 1, INFO 2, DEBUG 3, for every configured threshold
and each of the methods error, warn, info, debug, the method appends exactly
one console record when the number of its level is at most that of the
threshold and appends nothing otherwise.  With threshold error only error
emits; with threshold warn, info emits nothing and warn emits one record. -/
theorem logger_threshold (isDevelopment : Bool) (threshold level : Level)
    (message : String) (data : Option String) (timestamp : String)
    (console : List ConsoleRecord) :
    (level.number ≤ threshold.number →
      ∃ record, Logger.write { isDevelopment := isDevelopment, logLevel := threshold.label }
        level message data timestamp console = console ++ [record]) ∧
    (¬ level.number ≤ threshold.number →
      Logger.write { isDevelopment := isDevelopment, logLevel := threshold.label }
        level message data timestamp console = console) ∧
    (Logger.write { isDevelopment := isDevelopment, logLevel := "error" }
        Level.DEBUG message data timestamp console = console ∧
     Logger.write { isDevelopment := isDevelopment, logLevel := "error" }
        Level.INFO message data timestamp console = console ∧
     Logger.write { isDevelopment := isDevelopment, logLevel := "error" }
        Level.WARN message data timestamp console = console ∧
     ∃ record, Logger.write { isDevelopment := isDevelopment, logLevel := "error" }
        Level.ERROR message data timestamp console = console ++ [record]) ∧
    (Logger.write { isDevelopment := isDevelopment, logLevel := "warn" }
        Level.INFO message data timestamp console = console ∧
     ∃ record, Logger.write { isDevelopment := isDevelopment, logLevel := "warn" }
        Level.WARN message data timestamp console = console ++ [record]) := by
  have key : ∀ (T lv : Level),
      (lv.number ≤ T.number →
        ∃ record, Logger.write { isDevelopment := isDevelopment, logLevel := T.label }
          lv message data timestamp console = console ++ [record]) ∧
      (¬ lv.number ≤ T.number →
        Logger.write { isDevelopment := isDevelopment, logLevel := T.label }
          lv message data timestamp console = console) := by
    intro T lv
    have hs := shouldLog_iff isDevelopment T lv
    constructor
    · intro hle
      have hs1 : Logger.shouldLog { isDevelopment := isDevelopment, logLevel := T.label }
          lv.label = true := by rw [hs]; exact decide_eq_true hle
      cases lv <;> exact ⟨_, if_pos hs1⟩
    · intro hle
      have hs1 : ¬ Logger.shouldLog { isDevelopment := isDevelopment, logLevel := T.label }
          lv.label = true := by rw [hs]; simpa using hle
      cases lv <;> exact if_neg hs1
  refine ⟨(key threshold level).1, (key threshold level).2, ⟨?_, ?_, ?_, ?_⟩, ⟨?_, ?_⟩⟩
  · exact (key Level.ERROR Level.DEBUG).2 (by decide)
  · exact (key Level.ERROR Level.INFO).2 (by decide)
  · exact (key Level.ERROR Level.WARN).2 (by decide)
  · exact (key Level.ERROR Level.ERROR).1 (by decide)
  · exact (key Level.WARN Level.INFO).2 (by decide)
  · exact (key Level.WARN Level.WARN).1 (by decide)

/-! ## Notification manager: create -/

theorem create_fst (type message : String) (title : Option String) (duration : Option Int)
    (m : NotificationManager) : (m.create type message title duration).1 = m.nextId := rfl

theorem create_notifications (type message : String) (title : Option String)
    (duration : Option Int) (m : NotificationManager) :
    (m.create type message title duration).2.notifications = m.notifications ++
      [{ id := m.nextId, type := type, message := message, title := title,
         timestamp := m.now, duration := duration.getD 5000 }] := by
  unfold NotificationManager.create
  by_cases h : duration.getD 5000 > 0 <;>
  simp [h, NotificationManager.render, NotificationManager.setTimeout,
    NotificationManager.getOrCreateContainer] <;>
  cases m.container <;> rfl

theorem create_nextId (type message : String) (title : Option String)
    (duration : Option Int) (m : NotificationManager) :
    (m.create type message title duration).2.nextId = m.nextId + 1 := by
  unfold NotificationManager.create
  by_cases h : duration.getD 5000 > 0 <;>
  simp [h, NotificationManager.render, NotificationManager.setTimeout,
    NotificationManager.getOrCreateContainer] <;>
  cases m.container <;> rfl

/-- C15 fails as stated: create called with kind error and no duration
appends a notification of duration 5000, not 8000. -/
theorem create_error_default_duration :
    ((NotificationManager.new 0).create "error" "fallo" none none).2.notifications
      = [{ id := 1, type := "error", message := "fallo", title := none, timestamp := 0,
           duration := 5000 }] ∧
    ((NotificationManager.new 0).create "error" "fallo" none none).2.notifications.map
      (fun n => n.duration) ≠ [8000] := by
  decide

/-- C15, as the code has it: for every kind, message and optional title,
create returns the id of the notification it appends at the end of the
collection; when no duration is passed to create the duration of that
notification is 5000 for every kind, error included.  The methods success,
warning and info pass no duration (5000) and the method error passes 8000;
each returns the id of the notification it appended. -/
theorem create_returns_appended_id (type message : String) (title : Option String)
    (duration : Option Int) (m : NotificationManager) :
    (m.create type message title duration).2.notifications = m.notifications ++
      [{ id := (m.create type message title duration).1, type := type, message := message,
         title := title, timestamp := m.now, duration := duration.getD 5000 }] ∧
    (m.create type message title none).2.notifications = m.notifications ++
      [{ id := (m.create type message title none).1, type := type, message := message,
         title := title, timestamp := m.now, duration := 5000 }] ∧
    (m.success message title).2.notifications = m.notifications ++
      [{ id := (m.success message title).1, type := "success", message := message,
         title := some (title.getD "Éxito"), timestamp := m.now, duration := 5000 }] ∧
    (m.warning message title).2.notifications = m.notifications ++
      [{ id := (m.warning message title).1, type := "warning", message := message,
         title := some (title.getD "Advertencia"), timestamp := m.now, duration := 5000 }] ∧
    (m.info message title).2.notifications = m.notifications ++
      [{ id := (m.info message title).1, type := "info", message := message,
         title := some (title.getD "Información"), timestamp := m.now, duration := 5000 }] ∧
    (m.error message title).2.notifications = m.notifications ++
      [{ id := (m.error message title).1, type := "error", message := message,
         title := some (title.getD "Error"), timestamp := m.now, duration := 8000 }] := by
  refine ⟨?_, ?_, ?_, ?_, ?_, ?_⟩
  · rw [create_notifications, create_fst]
  · rw [create_notifications, create_fst]; rfl
  · unfold NotificationManager.success
    rw [create_notifications, create_fst]; rfl
  · unfold NotificationManager.warning
    rw [create_notifications, create_fst]; rfl
  · unfold NotificationManager.info
    rw [create_notifications, create_fst]; rfl
  · unfold NotificationManager.error
    rw [create_notifications, create_fst]; rfl

/-! ## Notification manager: what every reachable state satisfies -/

theorem create_eq (type message : String) (title : Option String) (duration : Option Int)
    (m : NotificationManager) :
    (m.create type message title duration).2 =
      { notifications := m.notifications ++
          [{ id := m.nextId, type := type, message := message, title := title,
             timestamp := m.now, duration := duration.getD 5000 }],
        nextId := m.nextId + 1,
        container := some (m.container.getD [] ++ [m.nextId]),
        now := m.now,
        timers := (m.timers ++ [{ due := m.now + 10, task := TimerTask.show m.nextId }]) ++
          (if duration.getD 5000 > 0 then
            [{ due := m.now + (duration.getD 5000).toNat, task := TimerTask.expire m.nextId }]
           else []) } := by
  unfold NotificationManager.create
  by_cases h : duration.getD 5000 > 0 <;>
  simp [h, NotificationManager.render, NotificationManager.setTimeout,
    NotificationManager.getOrCreateContainer] <;>
  cases m.container <;> simp

theorem hasElement_iff (id : Nat) (m : NotificationManager) :
    m.hasElement id = true ↔ id ∈ m.container.getD [] := by
  unfold NotificationManager.hasElement
  cases m.container <;> simp

theorem ids_filter (notifications : List Notification) (id : Nat) :
    (notifications.filter (fun n => n.id != id)).map (fun n => n.id)
      = (notifications.map (fun n => n.id)).filter (fun child => child != id) := by
  induction notifications with
  | nil => rfl
  | cons n rest ih =>
    by_cases h : n.id = id <;> simp [List.filter_cons, h, ih]

theorem invariant_create (type message : String) (title : Option String)
    (duration : Option Int) (m : NotificationManager) (h : ManagerInvariant m) :
    ManagerInvariant (m.create type message title duration).2 := by
  obtain ⟨⟨hp, hlt⟩, hs, ht⟩ := h
  rw [create_eq]
  refine ⟨⟨?_, ?_⟩, ?_, ?_⟩
  · simp only [NotificationManager.ids, List.map_append, List.map_cons, List.map_nil]
    rw [List.pairwise_append]
    refine ⟨hp, List.pairwise_singleton _ _, ?_⟩
    intro a ha b hb
    simp at hb
    subst hb
    exact hlt a ha
  · intro id hid
    simp only [NotificationManager.ids, List.map_append, List.map_cons, List.map_nil,
      List.mem_append, List.mem_singleton] at hid
    rcases hid with hid | hid
    · exact Nat.lt_succ_of_lt (hlt id hid)
    · subst hid; exact Nat.lt_succ_self _
  · unfold Synced at *
    simp [NotificationManager.ids, hs]
  · intro t htm
    simp only [List.mem_append] at htm
    rcases htm with (htm | htm) | htm
    · exact Nat.lt_succ_of_lt (ht t htm)
    · simp at htm; subst htm; exact Nat.lt_succ_self _
    · by_cases hd : duration.getD 5000 > 0
      · simp [hd] at htm; subst htm; exact Nat.lt_succ_self _
      · simp [hd] at htm

theorem invariant_remove (id : Nat) (m : NotificationManager) (h : ManagerInvariant m) :
    ManagerInvariant (m.remove id) := by
  obtain ⟨⟨hp, hlt⟩, hs, ht⟩ := h
  unfold NotificationManager.remove
  by_cases he : m.hasElement id = true
  · rw [if_pos he]
    refine ⟨⟨hp, hlt⟩, hs, ?_⟩
    intro t htm
    simp only [NotificationManager.setTimeout, List.mem_append, List.mem_singleton] at htm
    rcases htm with htm | htm
    · exact ht t htm
    · subst htm
      have hmem : id ∈ m.ids := by
        have := (hasElement_iff id m).mp he
        rwa [hs] at this
      exact hlt id hmem
  · rw [if_neg he]
    exact ⟨⟨hp, hlt⟩, hs, ht⟩

theorem invariant_clear (m : NotificationManager) (h : ManagerInvariant m) :
    ManagerInvariant m.clear := by
  obtain ⟨_, _, ht⟩ := h
  refine ⟨⟨List.Pairwise.nil, ?_⟩, ?_, ht⟩
  · intro id hid
    simp [NotificationManager.clear, NotificationManager.ids] at hid
  · unfold Synced NotificationManager.clear NotificationManager.ids
    cases m.container <;> simp

theorem invariant_task (task : TimerTask) (m : NotificationManager)
    (h : ManagerInvariant m) : ManagerInvariant (task.run m) := by
  cases task with
  | «show» id => exact h
  | expire id => exact invariant_remove id m h
  | detach id =>
    obtain ⟨⟨hp, hlt⟩, hs, ht⟩ := h
    refine ⟨⟨?_, ?_⟩, ?_, ht⟩
    · simp only [TimerTask.run, NotificationManager.ids]
      rw [ids_filter]
      exact hp.sublist (List.filter_sublist _)
    · intro j hj
      simp only [TimerTask.run, NotificationManager.ids] at hj
      rw [ids_filter] at hj
      exact hlt j (List.mem_of_mem_filter hj)
    · unfold Synced at *
      simp only [TimerTask.run, NotificationManager.ids]
      rw [ids_filter]
      unfold NotificationManager.ids at hs
      rw [← hs]
      cases m.container <;> simp

theorem invariant_fire (t : Timer) (m : NotificationManager) (h : ManagerInvariant m) :
    ManagerInvariant (m.fire t) := by
  unfold NotificationManager.fire
  apply invariant_task
  obtain ⟨hi, hs, ht⟩ := h
  exact ⟨hi, hs, fun u hu => ht u (List.mem_of_mem_erase hu)⟩

theorem runTimers_invariant (P : NotificationManager → Prop) (target : Nat)
    (hstep : ∀ s t, P s → s.nextDue target = some t → P (s.fire t)) :
    ∀ (fuel : Nat) (s : NotificationManager), P s →
      P (NotificationManager.runTimers fuel target s) := by
  intro fuel
  induction fuel with
  | zero => intro s hs; exact hs
  | succ n ih =>
    intro s hs
    unfold NotificationManager.runTimers
    cases hn : s.nextDue target with
    | none => exact hs
    | some t => exact ih _ (hstep s t hs hn)

theorem invariant_elapse (ms : Nat) (m : NotificationManager) (h : ManagerInvariant m) :
    ManagerInvariant (m.elapse ms) := by
  have h1 : ManagerInvariant
      (NotificationManager.runTimers (totalWeight m.timers) (m.now + ms) m) :=
    runTimers_invariant ManagerInvariant _ (fun s t hs _ => invariant_fire t s hs) _ m h
  exact h1

theorem invariant_new (now : Nat) : ManagerInvariant (NotificationManager.new now) := by
  refine ⟨⟨List.Pairwise.nil, ?_⟩, rfl, ?_⟩
  · intro id hid; simp [NotificationManager.new, NotificationManager.ids] at hid
  · intro t ht; simp [NotificationManager.new] at ht

theorem invariant_op (op : ManagerOp) (m : NotificationManager) (h : ManagerInvariant m) :
    ManagerInvariant (op.run m).1 := by
  cases op with
  | create type message title duration => exact invariant_create type message title duration m h
  | remove id => exact invariant_remove id m h
  | clear => exact invariant_clear m h
  | elapse ms => exact invariant_elapse ms m h

theorem invariant_runOps (ops : List ManagerOp) :
    ∀ m : NotificationManager, ManagerInvariant m → ManagerInvariant (runOps ops m).1 := by
  induction ops with
  | nil => intro m h; exact h
  | cons op rest ih => intro m h; exact ih _ (invariant_op op m h)

/-! ## Notification manager: ids -/

theorem task_nextId (task : TimerTask) (m : NotificationManager) :
    (task.run m).nextId = m.nextId := by
  cases task with
  | «show» id => rfl
  | expire id =>
    simp only [TimerTask.run, NotificationManager.remove]
    split <;> rfl
  | detach id => rfl

theorem elapse_nextId (ms : Nat) (m : NotificationManager) :
    (m.elapse ms).nextId = m.nextId := by
  have h1 : (NotificationManager.runTimers (totalWeight m.timers) (m.now + ms) m).nextId
      = m.nextId :=
    runTimers_invariant (fun s => s.nextId = m.nextId) _
      (fun s t hs _ => by
        show (s.fire t).nextId = m.nextId
        unfold NotificationManager.fire
        rw [task_nextId]; exact hs) _ m rfl
  exact h1

theorem op_returned (op : ManagerOp) (m : NotificationManager) :
    m.nextId ≤ (op.run m).1.nextId ∧
    List.Pairwise (fun a b => a < b) (op.run m).2 ∧
    ∀ id, id ∈ (op.run m).2 → m.nextId ≤ id ∧ id < (op.run m).1.nextId := by
  cases op with
  | create type message title duration =>
    simp only [ManagerOp.run, create_nextId, create_fst]
    refine ⟨Nat.le_succ _, List.pairwise_singleton _ _, ?_⟩
    intro id hid
    simp at hid
    subst hid
    exact ⟨Nat.le_refl _, Nat.lt_succ_self _⟩
  | remove id =>
    have h : (m.remove id).nextId = m.nextId := by
      unfold NotificationManager.remove; split <;> rfl
    simp only [ManagerOp.run, h]
    exact ⟨Nat.le_refl _, List.Pairwise.nil, fun id hid => by simp at hid⟩
  | clear =>
    exact ⟨Nat.le_refl _, List.Pairwise.nil, fun id hid => by simp [ManagerOp.run] at hid⟩
  | elapse ms =>
    simp only [ManagerOp.run, elapse_nextId]
    exact ⟨Nat.le_refl _, List.Pairwise.nil, fun id hid => by simp at hid⟩

theorem runOps_returned (ops : List ManagerOp) :
    ∀ m : NotificationManager,
      m.nextId ≤ (runOps ops m).1.nextId ∧
      List.Pairwise (fun a b => a < b) (runOps ops m).2 ∧
      ∀ id, id ∈ (runOps ops m).2 → m.nextId ≤ id ∧ id < (runOps ops m).1.nextId := by
  induction ops with
  | nil =>
    intro m
    exact ⟨Nat.le_refl _, List.Pairwise.nil, fun id hid => by simp [runOps] at hid⟩
  | cons op rest ih =>
    intro m
    obtain ⟨h1, h2, h3⟩ := op_returned op m
    obtain ⟨k1, k2, k3⟩ := ih (op.run m).1
    have hr1 : (runOps (op :: rest) m).1 = (runOps rest (op.run m).1).1 := rfl
    have hr2 : (runOps (op :: rest) m).2 = (op.run m).2 ++ (runOps rest (op.run m).1).2 := rfl
    rw [hr1, hr2]
    refine ⟨Nat.le_trans h1 k1, ?_, ?_⟩
    · rw [List.pairwise_append]
      refine ⟨h2, k2, ?_⟩
      intro a ha b hb
      exact Nat.lt_of_lt_of_le (h3 a ha).2 (k3 b hb).1
    · intro id hid
      rcases List.mem_append.mp hid with hid | hid
      · exact ⟨(h3 id hid).1, Nat.lt_of_lt_of_le (h3 id hid).2 k1⟩
      · exact ⟨Nat.le_trans h1 (k3 id hid).1, (k3 id hid).2⟩

/-- C16: in every state of the manager reached from a new manager by create,
remove, clear and the passing of time, the ids of the notifications in the
collection are pairwise distinct, strictly increasing in list order and all
smaller than nextId; and the ids returned by the calls of create are strictly
increasing in the order of the calls. -/
theorem ids_distinct_increasing (ops : List ManagerOp) (now : Nat) :
    (runOps ops (NotificationManager.new now)).1.ids.Nodup ∧
    List.Pairwise (fun a b => a < b) (runOps ops (NotificationManager.new now)).1.ids ∧
    (∀ id, id ∈ (runOps ops (NotificationManager.new now)).1.ids →
      id < (runOps ops (NotificationManager.new now)).1.nextId) ∧
    List.Pairwise (fun a b => a < b) (runOps ops (NotificationManager.new now)).2 := by
  have h := invariant_runOps ops (NotificationManager.new now) (invariant_new now)
  obtain ⟨⟨hp, hlt⟩, _, _⟩ := h
  refine ⟨?_, hp, hlt, (runOps_returned ops (NotificationManager.new now)).2.1⟩
  exact hp.imp (fun hab => Nat.ne_of_lt hab)

/-! ## Notification manager: the timer queue -/

theorem earliest_spec (timers : List Timer) :
    (earliest timers = none → timers = []) ∧
    (∀ t, earliest timers = some t → t ∈ timers ∧ ∀ u, u ∈ timers → t.due ≤ u.due) := by
  induction timers with
  | nil => exact ⟨fun _ => rfl, fun t h => by simp [earliest] at h⟩
  | cons a rest ih =>
    obtain ⟨ih1, ih2⟩ := ih
    cases he : earliest rest with
    | none =>
      have hrest : rest = [] := ih1 he
      subst hrest
      refine ⟨fun h => by simp [earliest] at h, ?_⟩
      intro t h
      simp [earliest] at h
      subst h
      exact ⟨List.mem_singleton.mpr rfl, fun u hu => by
        rw [List.mem_singleton.mp hu]⟩
    | some b =>
      obtain ⟨hb1, hb2⟩ := ih2 b he
      refine ⟨fun h => by
        simp only [earliest, he] at h
        split at h <;> simp at h, ?_⟩
      intro t h
      simp only [earliest, he] at h
      by_cases hle : a.due ≤ b.due
      · rw [if_pos hle] at h
        simp at h
        subst h
        refine ⟨List.mem_cons_self _ _, ?_⟩
        intro u hu
        rcases List.mem_cons.mp hu with hu | hu
        · rw [hu]
        · exact Nat.le_trans hle (hb2 u hu)
      · rw [if_neg hle] at h
        simp at h
        subst h
        refine ⟨List.mem_cons_of_mem _ hb1, ?_⟩
        intro u hu
        rcases List.mem_cons.mp hu with hu | hu
        · rw [hu]; exact Nat.le_of_lt (Nat.lt_of_not_le hle)
        · exact hb2 u hu

theorem nextDue_some (target : Nat) (s : NotificationManager) (t : Timer)
    (h : s.nextDue target = some t) :
    t ∈ s.timers ∧ t.due ≤ target ∧ ∀ u, u ∈ s.timers → t.due ≤ u.due := by
  unfold NotificationManager.nextDue at h
  cases he : earliest s.timers with
  | none => simp [he] at h
  | some b =>
    simp only [he] at h
    by_cases hle : b.due ≤ target
    · rw [if_pos hle] at h
      simp at h
      subst h
      exact ⟨((earliest_spec s.timers).2 b he).1, hle, ((earliest_spec s.timers).2 b he).2⟩
    · rw [if_neg hle] at h
      simp at h

theorem nextDue_none (target : Nat) (s : NotificationManager)
    (h : s.nextDue target = none) : ∀ u, u ∈ s.timers → target < u.due := by
  unfold NotificationManager.nextDue at h
  cases he : earliest s.timers with
  | none =>
    intro u hu
    rw [(earliest_spec s.timers).1 he] at hu
    simp at hu
  | some b =>
    simp only [he] at h
    by_cases hle : b.due ≤ target
    · rw [if_pos hle] at h
      simp at h
    · intro u hu
      exact Nat.lt_of_lt_of_le (Nat.lt_of_not_le hle) (((earliest_spec s.timers).2 b he).2 u hu)

theorem weight_pos (task : TimerTask) : 0 < task.weight := by
  cases task <;> simp [TimerTask.weight]

theorem totalWeight_erase (timers : List Timer) (t : Timer) (h : t ∈ timers) :
    totalWeight (timers.erase t) + t.task.weight = totalWeight timers := by
  induction timers with
  | nil => simp at h
  | cons a rest ih =>
    by_cases hat : a = t
    · subst hat
      simp [totalWeight, Nat.add_comm]
    · have hmem : t ∈ rest := by
        rcases List.mem_cons.mp h with h | h
        · exact absurd h.symm hat
        · exact h
      have := ih hmem
      have he : (a :: rest).erase t = a :: rest.erase t := by
        simp [List.erase_cons, hat]
      rw [he]
      simp only [totalWeight, List.map_cons, List.sum_cons] at this ⊢
      omega

theorem totalWeight_append (a b : List Timer) :
    totalWeight (a ++ b) = totalWeight a + totalWeight b := by
  simp [totalWeight]

theorem fire_weight (t : Timer) (s : NotificationManager) (h : t ∈ s.timers) :
    totalWeight (s.fire t).timers < totalWeight s.timers := by
  have he := totalWeight_erase s.timers t h
  obtain ⟨due, task⟩ := t
  cases task with
  | «show» id =>
    simp only [NotificationManager.fire, TimerTask.run, TimerTask.weight] at he ⊢
    omega
  | expire id =>
    simp only [NotificationManager.fire, TimerTask.run, TimerTask.weight,
      NotificationManager.remove] at he ⊢
    split
    · simp only [NotificationManager.setTimeout, totalWeight_append]
      simp only [totalWeight, List.map_cons, List.map_nil, List.sum_cons, List.sum_nil,
        TimerTask.weight] at he ⊢
      omega
    · simp only []
      omega
  | detach id =>
    simp only [NotificationManager.fire, TimerTask.run, TimerTask.weight] at he ⊢
    omega

theorem runTimers_done (target : Nat) :
    ∀ (fuel : Nat) (s : NotificationManager), totalWeight s.timers ≤ fuel →
      (NotificationManager.runTimers fuel target s).nextDue target = none := by
  intro fuel
  induction fuel with
  | zero =>
    intro s hs
    unfold NotificationManager.runTimers
    cases hn : s.nextDue target with
    | none => rfl
    | some t =>
      have ht := (nextDue_some target s t hn).1
      have := totalWeight_erase s.timers t ht
      have := weight_pos t.task
      omega
  | succ n ih =>
    intro s hs
    unfold NotificationManager.runTimers
    cases hn : s.nextDue target with
    | none => simpa using hn
    | some t =>
      simp only []
      apply ih
      have := fire_weight t s (nextDue_some target s t hn).1
      omega

theorem fire_now (t : Timer) (s : NotificationManager) :
    (s.fire t).now = max s.now t.due := by
  obtain ⟨due, task⟩ := t
  cases task with
  | «show» id => rfl
  | expire id =>
    simp only [NotificationManager.fire, TimerTask.run, NotificationManager.remove]
    split <;> rfl
  | detach id => rfl

theorem fire_ids_subset (t : Timer) (s : NotificationManager) (id : Nat)
    (h : id ∈ (s.fire t).ids) : id ∈ s.ids := by
  obtain ⟨due, task⟩ := t
  cases task with
  | «show» j => exact h
  | expire j =>
    simp only [NotificationManager.fire, TimerTask.run, NotificationManager.remove] at h
    split at h <;> exact h
  | detach j =>
    simp only [NotificationManager.fire, TimerTask.run, NotificationManager.ids] at h
    rw [ids_filter] at h
    exact List.mem_of_mem_filter h

theorem fire_timers_mem (t u : Timer) (s : NotificationManager)
    (hu : u ∈ s.timers) (hne : u ≠ t) : u ∈ (s.fire t).timers := by
  have he : u ∈ s.timers.erase t := (List.mem_erase_of_ne hne).mpr hu
  obtain ⟨due, task⟩ := t
  cases task with
  | «show» j => exact he
  | expire j =>
    simp only [NotificationManager.fire, TimerTask.run, NotificationManager.remove]
    split
    · simp only [NotificationManager.setTimeout]
      exact List.mem_append_left _ he
    · exact he
  | detach j => exact he

theorem fire_expire_adds (due id : Nat) (s : NotificationManager)
    (h : id ∈ s.container.getD []) :
    ({ due := max s.now due + 300, task := TimerTask.detach id } : Timer)
      ∈ (s.fire { due := due, task := TimerTask.expire id }).timers := by
  have hh : NotificationManager.hasElement id
      { s with now := max s.now due,
               timers := s.timers.erase { due := due, task := TimerTask.expire id } } = true :=
    (hasElement_iff id _).mpr h
  simp only [NotificationManager.fire, TimerTask.run, NotificationManager.remove, hh, if_true,
    NotificationManager.setTimeout]
  exact List.mem_append_right _ (List.mem_singleton.mpr rfl)

theorem fire_detach_ids (due id : Nat) (s : NotificationManager) :
    id ∉ (s.fire { due := due, task := TimerTask.detach id }).ids := by
  simp only [NotificationManager.fire, TimerTask.run, NotificationManager.ids]
  rw [ids_filter]
  simp

theorem fire_timers_origin (t u : Timer) (s : NotificationManager)
    (hu : u ∈ (s.fire t).timers) :
    u ∈ s.timers ∨ ∃ j, t.task = TimerTask.expire j ∧ u.task = TimerTask.detach j := by
  obtain ⟨due, task⟩ := t
  cases task with
  | «show» j => exact Or.inl (List.mem_of_mem_erase hu)
  | expire j =>
    simp only [NotificationManager.fire, TimerTask.run, NotificationManager.remove] at hu
    split at hu
    · simp only [NotificationManager.setTimeout, List.mem_append, List.mem_singleton] at hu
      rcases hu with hu | hu
      · exact Or.inl (List.mem_of_mem_erase hu)
      · exact Or.inr ⟨j, rfl, by rw [hu]⟩
    · exact Or.inl (List.mem_of_mem_erase hu)
  | detach j => exact Or.inl (List.mem_of_mem_erase hu)

theorem fire_ids_keep (t : Timer) (s : NotificationManager) (id : Nat)
    (h : id ∈ s.ids) (hne : t.task ≠ TimerTask.detach id) : id ∈ (s.fire t).ids := by
  obtain ⟨due, task⟩ := t
  cases task with
  | «show» j => exact h
  | expire j =>
    simp only [NotificationManager.fire, TimerTask.run, NotificationManager.remove]
    split <;> exact h
  | detach j =>
    have hj : id ≠ j := fun hij => hne (by rw [hij])
    simp only [NotificationManager.fire, TimerTask.run, NotificationManager.ids]
    rw [ids_filter]
    exact List.mem_filter.mpr ⟨h, by simpa using hj⟩

/-- While the automatic removal of a notification is pending, or the end of
its fade-out is, the notification may be in the collection; nothing else keeps
it there. -/
theorem removal_pending_step (id bound : Nat) (s : NotificationManager) (t0 : Timer)
    (hinv : ManagerInvariant s)
    (hJ : id ∈ s.ids → ∃ t, t ∈ s.timers ∧
      ((t.task = TimerTask.expire id ∧ t.due ≤ bound ∧ s.now ≤ bound) ∨
       (t.task = TimerTask.detach id ∧ t.due ≤ bound + 300)))
    (hn : s.nextDue (bound + 300) = some t0) :
    id ∈ (s.fire t0).ids → ∃ t, t ∈ (s.fire t0).timers ∧
      ((t.task = TimerTask.expire id ∧ t.due ≤ bound ∧ (s.fire t0).now ≤ bound) ∨
       (t.task = TimerTask.detach id ∧ t.due ≤ bound + 300)) := by
  intro hid'
  have hid : id ∈ s.ids := fire_ids_subset t0 s id hid'
  obtain ⟨t, htm, ht⟩ := hJ hid
  obtain ⟨_, _, hmin⟩ := nextDue_some _ s t0 hn
  by_cases heq : t = t0
  · subst heq
    rcases ht with ⟨htask, hdue, hnow⟩ | ⟨htask, _⟩
    · obtain ⟨due, task⟩ := t
      simp only at htask hdue
      subst htask
      have hel : id ∈ s.container.getD [] := by rw [hinv.2.1]; exact hid
      refine ⟨_, fire_expire_adds due id s hel, Or.inr ⟨rfl, ?_⟩⟩
      simp only
      have : max s.now due ≤ bound := Nat.max_le.mpr ⟨hnow, hdue⟩
      omega
    · obtain ⟨due, task⟩ := t
      simp only at htask
      subst htask
      exact absurd hid' (fire_detach_ids due id s)
  · refine ⟨t, fire_timers_mem t0 t s htm heq, ?_⟩
    rcases ht with ⟨htask, hdue, hnow⟩ | ⟨htask, hdue⟩
    · refine Or.inl ⟨htask, hdue, ?_⟩
      rw [fire_now]
      exact Nat.max_le.mpr ⟨hnow, Nat.le_trans (hmin t htm) hdue⟩
    · exact Or.inr ⟨htask, hdue⟩

theorem elapse_ids (ms : Nat) (m : NotificationManager) :
    (m.elapse ms).ids
      = (NotificationManager.runTimers (totalWeight m.timers) (m.now + ms) m).ids := rfl

theorem expiry_after_fade_out (m : NotificationManager) (hinv : ManagerInvariant m)
    (type message : String) (title : Option String) (d : Int) (hd : 0 < d) :
    (m.create type message title (some d)).1
      ∉ ((m.create type message title (some d)).2.elapse (d.toNat + 300)).ids := by
  intro hmem
  have hinv1 := invariant_create type message title (some d) m hinv
  have hnow : (m.create type message title (some d)).2.now = m.now := by rw [create_eq]
  have htimer : ({ due := m.now + d.toNat, task := TimerTask.expire m.nextId } : Timer)
      ∈ (m.create type message title (some d)).2.timers := by
    rw [create_eq]
    simp only [Option.getD_some]
    rw [if_pos hd]
    exact List.mem_append_right _ (List.mem_singleton.mpr rfl)
  rw [elapse_ids, hnow, create_fst] at hmem
  have htarget : m.now + (d.toNat + 300) = (m.now + d.toNat) + 300 := by omega
  rw [htarget] at hmem
  have hP := runTimers_invariant
    (fun s => ManagerInvariant s ∧ (m.nextId ∈ s.ids → ∃ t, t ∈ s.timers ∧
      ((t.task = TimerTask.expire m.nextId ∧ t.due ≤ m.now + d.toNat ∧
          s.now ≤ m.now + d.toNat) ∨
       (t.task = TimerTask.detach m.nextId ∧ t.due ≤ (m.now + d.toNat) + 300))))
    ((m.now + d.toNat) + 300)
    (fun s t hs hn => ⟨invariant_fire t s hs.1,
      removal_pending_step m.nextId (m.now + d.toNat) s t hs.1 hs.2 hn⟩)
    (totalWeight (m.create type message title (some d)).2.timers)
    (m.create type message title (some d)).2
    ⟨hinv1, fun _ => ⟨_, htimer, Or.inl ⟨rfl, Nat.le_refl _, by rw [hnow]; omega⟩⟩⟩
  obtain ⟨t, htm, ht⟩ := hP.2 hmem
  have hdone := runTimers_done ((m.now + d.toNat) + 300)
    (totalWeight (m.create type message title (some d)).2.timers)
    (m.create type message title (some d)).2 (Nat.le_refl _)
  have hlate := nextDue_none _ _ hdone t htm
  rcases ht with ⟨_, hdue, _⟩ | ⟨_, hdue⟩ <;> omega

theorem persistent_step (id : Nat) (s : NotificationManager) (t0 : Timer)
    (hQ : id ∈ s.ids ∧ ∀ t, t ∈ s.timers →
      t.task ≠ TimerTask.expire id ∧ t.task ≠ TimerTask.detach id)
    (h0 : t0 ∈ s.timers) :
    id ∈ (s.fire t0).ids ∧ ∀ t, t ∈ (s.fire t0).timers →
      t.task ≠ TimerTask.expire id ∧ t.task ≠ TimerTask.detach id := by
  obtain ⟨hid, hno⟩ := hQ
  refine ⟨fire_ids_keep t0 s id hid (hno t0 h0).2, ?_⟩
  intro t ht
  rcases fire_timers_origin t0 t s ht with h | ⟨j, hj0, hjt⟩
  · exact hno t h
  · have hne : j ≠ id := fun hji => (hno t0 h0).1 (by rw [hj0, hji])
    constructor
    · rw [hjt]; intro hc; cases hc
    · rw [hjt]; intro hc; injection hc with hc; exact hne hc

theorem persistent_without_timer (m : NotificationManager) (hinv : ManagerInvariant m)
    (type message : String) (title : Option String) (ms : Nat) :
    (∀ t, t ∈ (m.create type message title (some 0)).2.timers →
      t.task ≠ TimerTask.expire (m.create type message title (some 0)).1 ∧
      t.task ≠ TimerTask.detach (m.create type message title (some 0)).1) ∧
    (m.create type message title (some 0)).1
      ∈ ((m.create type message title (some 0)).2.elapse ms).ids := by
  have hQ0 : m.nextId ∈ (m.create type message title (some 0)).2.ids ∧
      ∀ t, t ∈ (m.create type message title (some 0)).2.timers →
        t.task ≠ TimerTask.expire m.nextId ∧ t.task ≠ TimerTask.detach m.nextId := by
    constructor
    · simp [NotificationManager.ids, create_notifications]
    · intro t ht
      rw [create_eq] at ht
      simp only [Option.getD_some, gt_iff_lt, lt_self_iff_false, if_false, List.append_nil,
        List.mem_append, List.mem_singleton] at ht
      rcases ht with ht | ht
      · have hk := hinv.2.2 t ht
        constructor
        · intro hc; rw [hc] at hk; exact Nat.lt_irrefl _ hk
        · intro hc; rw [hc] at hk; exact Nat.lt_irrefl _ hk
      · subst ht
        constructor <;> intro hc <;> cases hc
  refine ⟨hQ0.2, ?_⟩
  rw [elapse_ids, create_fst]
  exact (runTimers_invariant
    (fun s => m.nextId ∈ s.ids ∧ ∀ t, t ∈ s.timers →
      t.task ≠ TimerTask.expire m.nextId ∧ t.task ≠ TimerTask.detach m.nextId)
    _ (fun s t hs hn => persistent_step m.nextId s t hs (nextDue_some _ s t hn).1)
    _ _ hQ0).1

/-! ## Notification manager: expiry -/

/-- C17 fails as stated: a notification created with duration 5000 is still
in the collection when 5000 ms have elapsed; at that time its fade-out starts,
and it has left the collection 300 ms later. -/
theorem expiry_not_at_duration :
    ((NotificationManager.new 0).create "info" "hola" none (some 5000)).1 = 1 ∧
    1 ∈ (((NotificationManager.new 0).create "info" "hola" none (some 5000)).2.elapse
      5000).ids ∧
    1 ∈ (((NotificationManager.new 0).create "info" "hola" none (some 5000)).2.elapse
      5299).ids ∧
    1 ∉ (((NotificationManager.new 0).create "info" "hola" none (some 5000)).2.elapse
      5300).ids := by
  decide

/-- C17, as the code has it: in every reachable state of the manager and for
every d > 0, a notification created with duration d is in the collection when
create returns and is no longer in it once d + 300 ms have elapsed (the timer
of create starts the fade-out of 300 ms that ends with the removal), with no
call on the manager in between; a notification created with duration 0 has no
removal scheduled and stays in the collection however much time passes. -/
theorem notification_expiry (ops : List ManagerOp) (now : Nat) (type message : String)
    (title : Option String) (d : Int) (ms : Nat) (hd : 0 < d) :
    ((runOps ops (NotificationManager.new now)).1.create type message title (some d)).1
      ∈ ((runOps ops (NotificationManager.new now)).1.create type message title
          (some d)).2.ids ∧
    ((runOps ops (NotificationManager.new now)).1.create type message title (some d)).1
      ∉ (((runOps ops (NotificationManager.new now)).1.create type message title
          (some d)).2.elapse (d.toNat + 300)).ids ∧
    ((runOps ops (NotificationManager.new now)).1.create type message title (some 0)).1
      ∈ ((runOps ops (NotificationManager.new now)).1.create type message title
          (some 0)).2.ids ∧
    (∀ t, t ∈ ((runOps ops (NotificationManager.new now)).1.create type message title
          (some 0)).2.timers →
      t.task ≠ TimerTask.expire
        ((runOps ops (NotificationManager.new now)).1.create type message title (some 0)).1 ∧
      t.task ≠ TimerTask.detach
        ((runOps ops (NotificationManager.new now)).1.create type message title (some 0)).1) ∧
    ((runOps ops (NotificationManager.new now)).1.create type message title (some 0)).1
      ∈ (((runOps ops (NotificationManager.new now)).1.create type message title
          (some 0)).2.elapse ms).ids := by
  have hinv := invariant_runOps ops (NotificationManager.new now) (invariant_new now)
  refine ⟨?_, expiry_after_fade_out _ hinv type message title d hd, ?_,
    (persistent_without_timer _ hinv type message title ms).1,
    (persistent_without_timer _ hinv type message title ms).2⟩
  · simp [NotificationManager.ids, create_notifications, create_fst]
  · simp [NotificationManager.ids, create_notifications, create_fst]

/-- A notification of 5000 ms created after another one was created and removed. -/
theorem notification_expiry_witness :
    ((runOps [ManagerOp.create "error" "fallo" none none, ManagerOp.remove 1,
        ManagerOp.elapse 400] (NotificationManager.new 0)).1.create
        "info" "hola" none (some 5000)).1
      ∉ (((runOps [ManagerOp.create "error" "fallo" none none, ManagerOp.remove 1,
        ManagerOp.elapse 400] (NotificationManager.new 0)).1.create
        "info" "hola" none (some 5000)).2.elapse ((5000 : Int).toNat + 300)).ids :=
  (notification_expiry [ManagerOp.create "error" "fallo" none none, ManagerOp.remove 1,
    ManagerOp.elapse 400] 0 "info" "hola" none 5000 0 (by decide)).2.1

/-! ## Notification manager: remove -/

/-- C18 fails as stated: when remove returns, the notification is still in
the collection, after one call as after two. -/
theorem remove_keeps_collection_at_return :
    ((NotificationManager.new 0).create "info" "hola" none (some 0)).2.ids = [1] ∧
    (((NotificationManager.new 0).create "info" "hola" none (some 0)).2.remove 1).ids = [1] ∧
    ((((NotificationManager.new 0).create "info" "hola" none (some 0)).2.remove 1).remove
      1).ids = [1] := by
  decide

theorem remove_notifications (id : Nat) (m : NotificationManager) :
    (m.remove id).notifications = m.notifications ∧
    (m.remove id).container = m.container ∧ (m.remove id).now = m.now := by
  unfold NotificationManager.remove
  split <;> exact ⟨rfl, rfl, rfl⟩

theorem earliest_split (timers : List Timer) (t : Timer) (h : earliest timers = some t) :
    ∃ l1 l2, timers = l1 ++ t :: l2 ∧ (∀ u, u ∈ l1 → t.due < u.due) ∧
      (∀ u, u ∈ l2 → t.due ≤ u.due) := by
  induction timers generalizing t with
  | nil => simp [earliest] at h
  | cons a rest ih =>
    cases he : earliest rest with
    | none =>
      have hrest : rest = [] := (earliest_spec rest).1 he
      subst hrest
      simp [earliest] at h
      subst h
      exact ⟨[], [], rfl, fun u hu => by simp at hu, fun u hu => by simp at hu⟩
    | some b =>
      simp only [earliest, he] at h
      by_cases hle : a.due ≤ b.due
      · rw [if_pos hle] at h
        simp at h
        subst h
        exact ⟨[], rest, rfl, fun u hu => by simp at hu,
          fun u hu => Nat.le_trans hle (((earliest_spec rest).2 b he).2 u hu)⟩
      · rw [if_neg hle] at h
        simp at h
        subst h
        obtain ⟨l1, l2, hl, h1, h2⟩ := ih b he
        refine ⟨a :: l1, l2, by rw [hl]; rfl, ?_, h2⟩
        intro u hu
        rcases List.mem_cons.mp hu with hu | hu
        · rw [hu]; exact Nat.lt_of_not_le hle
        · exact h1 u hu

theorem earliest_of_split (l1 l2 : List Timer) (t : Timer)
    (h1 : ∀ u, u ∈ l1 → t.due < u.due) (h2 : ∀ u, u ∈ l2 → t.due ≤ u.due) :
    earliest (l1 ++ t :: l2) = some t := by
  induction l1 with
  | nil =>
    cases he : earliest l2 with
    | none => simp [earliest, he]
    | some u =>
      have hu := h2 u ((earliest_spec l2).2 u he).1
      simp [earliest, he, hu]
  | cons a l1 ih =>
    have iha := ih (fun u hu => h1 u (List.mem_cons_of_mem _ hu))
    have hlt := h1 a (List.mem_cons_self _ _)
    have hn : ¬ a.due ≤ t.due := by omega
    simp [earliest, iha, hn]

theorem erase_split (l1 l2 : List Timer) (t : Timer) (h1 : ∀ u, u ∈ l1 → t.due < u.due) :
    (l1 ++ t :: l2).erase t = l1 ++ l2 := by
  have hnot : t ∉ l1 := fun hm => Nat.lt_irrefl _ (h1 t hm)
  rw [List.erase_append_right _ hnot, List.erase_cons_head]

theorem nextDue_of_earliest (target : Nat) (s : NotificationManager) (t : Timer)
    (h : earliest s.timers = some t) :
    s.nextDue target = if t.due ≤ target then some t else none := by
  simp [NotificationManager.nextDue, h]

theorem nextDue_none_of_late (target : Nat) (s : NotificationManager)
    (h : ∀ u, u ∈ s.timers → target < u.due) : s.nextDue target = none := by
  cases he : earliest s.timers with
  | none => simp [NotificationManager.nextDue, he]
  | some t =>
    have := h t ((earliest_spec s.timers).2 t he).1
    have hn : ¬ t.due ≤ target := by omega
    simp [NotificationManager.nextDue, he, hn]

theorem runTimers_succ_some (fuel target : Nat) (s : NotificationManager) (t : Timer)
    (h : s.nextDue target = some t) :
    NotificationManager.runTimers (fuel + 1) target s
      = NotificationManager.runTimers fuel target (s.fire t) := by
  simp [NotificationManager.runTimers, h]

theorem runTimers_none (fuel target : Nat) (s : NotificationManager)
    (h : s.nextDue target = none) : NotificationManager.runTimers fuel target s = s := by
  cases fuel with
  | zero => rfl
  | succ n => simp [NotificationManager.runTimers, h]

/-- Firing a timer on a manager whose pending timers are replaced: the
callback does the same to the collection and the page, and sets the same
timers, each the end of a fade-out 300 ms after the firing. -/
theorem fire_with_timers (t : Timer) (s : NotificationManager) :
    ∃ extra : List Timer,
      (∀ u, u ∈ extra →
        u.due = max s.now t.due + 300 ∧ ∃ j, u.task = TimerTask.detach j) ∧
      ∀ X : List Timer, NotificationManager.fire t { s with timers := X }
        = { s.fire t with timers := X.erase t ++ extra } := by
  obtain ⟨due, task⟩ := t
  cases task with
  | «show» j =>
    refine ⟨[], fun u hu => by simp at hu, fun X => ?_⟩
    simp [NotificationManager.fire, TimerTask.run]
  | expire j =>
    by_cases he : s.hasElement j = true
    · refine ⟨[{ due := max s.now due + 300, task := TimerTask.detach j }], ?_, fun X => ?_⟩
      · intro u hu
        rw [List.mem_singleton.mp hu]
        exact ⟨rfl, j, rfl⟩
      · have he2 : NotificationManager.hasElement j
            { s with now := max s.now due,
                     timers := X.erase { due := due, task := TimerTask.expire j } }
            = true := he
        have he3 : NotificationManager.hasElement j
            { s with now := max s.now due,
                     timers := s.timers.erase { due := due, task := TimerTask.expire j } }
            = true := he
        simp only [NotificationManager.fire, TimerTask.run, NotificationManager.remove,
          if_pos he2, if_pos he3, NotificationManager.setTimeout]
    · refine ⟨[], fun u hu => by simp at hu, fun X => ?_⟩
      have he2 : ¬ NotificationManager.hasElement j
          { s with now := max s.now due,
                   timers := X.erase { due := due, task := TimerTask.expire j } }
          = true := he
      have he3 : ¬ NotificationManager.hasElement j
          { s with now := max s.now due,
                   timers := s.timers.erase { due := due, task := TimerTask.expire j } }
          = true := he
      simp only [NotificationManager.fire, TimerTask.run, NotificationManager.remove,
        if_neg he2, if_neg he3, List.append_nil]
  | detach j =>
    refine ⟨[], fun u hu => by simp at hu, fun X => ?_⟩
    simp [NotificationManager.fire, TimerTask.run]

/-- Once the end of the fade-out of `id` has fired and only ends of fade-outs
are still due, the run goes on as without it, on a collection without `id`. -/
theorem removal_simulation_after (id target : Nat) :
    ∀ (fuel : Nat) (a : NotificationManager) (n : Nat),
      (∀ t, t ∈ a.timers → t.due ≤ target → ∃ j, t.task = TimerTask.detach j) →
      (NotificationManager.runTimers fuel target
        { a with notifications := a.notifications.filter (fun x => x.id != id),
                 container := a.container.map (fun c => c.filter (fun child => child != id)),
                 now := n }).notifications
        = (NotificationManager.runTimers fuel target a).notifications.filter
            (fun x => x.id != id) := by
  intro fuel
  induction fuel with
  | zero => intro a n _; rfl
  | succ k ih =>
    intro a n hd
    have hnd : NotificationManager.nextDue target
        { a with notifications := a.notifications.filter (fun x => x.id != id),
                 container := a.container.map (fun c => c.filter (fun child => child != id)),
                 now := n } = a.nextDue target := rfl
    cases hn : a.nextDue target with
    | none =>
      rw [runTimers_none _ _ _ (hnd.trans hn), runTimers_none _ _ _ hn]
    | some t =>
      obtain ⟨htm, htl, _⟩ := nextDue_some target a t hn
      obtain ⟨j, hj⟩ := hd t htm htl
      rw [runTimers_succ_some _ _ _ t (hnd.trans hn), runTimers_succ_some _ _ _ t hn]
      obtain ⟨due, task⟩ := t
      simp only at hj
      subst hj
      have hb : NotificationManager.fire { due := due, task := TimerTask.detach j }
          { a with notifications := a.notifications.filter (fun x => x.id != id),
                   container := a.container.map (fun c => c.filter (fun child => child != id)),
                   now := n }
          = { a.fire { due := due, task := TimerTask.detach j } with
                notifications :=
                  (a.fire { due := due, task := TimerTask.detach j }).notifications.filter
                    (fun x => x.id != id),
                container := (a.fire { due := due, task := TimerTask.detach j }).container.map
                  (fun c => c.filter (fun child => child != id)),
                now := max n due } := by
        cases hc : a.container <;>
        simp [NotificationManager.fire, TimerTask.run, List.filter_filter, Bool.and_comm, hc]
      rw [hb]
      apply ih
      intro u hu hul
      exact hd u (List.mem_of_mem_erase hu) hul

/-- One step of the run with the end of the fade-out of `id` pending at `due`
among the timers, next to the run without it: both fire the same timer and
stay related, or both stop, or the end of the fade-out fires. -/
theorem removal_simulation_step (id due target : Nat) (htd : target ≤ due)
    (a : NotificationManager) (pre post : List Timer)
    (hsplit : a.timers = pre ++ post)
    (hpost : ∀ u, u ∈ post → due ≤ u.due ∧ ∃ j, u.task = TimerTask.detach j)
    (hnow : due ≤ a.now + 300) :
    (∃ t pre2 post2,
      a.nextDue target = some t ∧
      NotificationManager.nextDue target
        { a with timers := pre ++ { due := due, task := TimerTask.detach id } :: post } = some t ∧
      (a.fire t).timers = pre2 ++ post2 ∧
      NotificationManager.fire t
        { a with timers := pre ++ { due := due, task := TimerTask.detach id } :: post }
        = { a.fire t with
              timers := pre2 ++ { due := due, task := TimerTask.detach id } :: post2 } ∧
      (∀ u, u ∈ post2 → due ≤ u.due ∧ ∃ j, u.task = TimerTask.detach j) ∧
      due ≤ (a.fire t).now + 300) ∨
    (a.nextDue target = none ∧
      NotificationManager.nextDue target
        { a with timers := pre ++ { due := due, task := TimerTask.detach id } :: post } = none ∧
      target < due) ∨
    (due = target ∧
      NotificationManager.nextDue target
        { a with timers := pre ++ { due := due, task := TimerTask.detach id } :: post }
        = some { due := due, task := TimerTask.detach id } ∧
      NotificationManager.fire { due := due, task := TimerTask.detach id }
        { a with timers := pre ++ { due := due, task := TimerTask.detach id } :: post }
        = { a with notifications := a.notifications.filter (fun x => x.id != id),
                   container := a.container.map (fun c => c.filter (fun child => child != id)),
                   now := max a.now due } ∧
      ∀ t, t ∈ a.timers → t.due ≤ target → ∃ j, t.task = TimerTask.detach j) := by
  by_cases hex : ∃ t, t ∈ pre ∧ t.due ≤ due
  · obtain ⟨t1, ht1, ht1d⟩ := hex
    cases he : earliest pre with
    | none =>
      rw [(earliest_spec pre).1 he] at ht1
      simp at ht1
    | some t0 =>
      obtain ⟨l1, l2, hl, h1, h2⟩ := earliest_split pre t0 he
      have ht0d : t0.due ≤ due :=
        Nat.le_trans (((earliest_spec pre).2 t0 he).2 t1 ht1) ht1d
      have hea : earliest a.timers = some t0 := by
        rw [hsplit, hl, List.append_assoc, List.cons_append]
        apply earliest_of_split _ _ _ h1
        intro u hu
        rcases List.mem_append.mp hu with hu | hu
        · exact h2 u hu
        · exact Nat.le_trans ht0d (hpost u hu).1
      have heb : earliest (pre ++ { due := due, task := TimerTask.detach id } :: post)
          = some t0 := by
        rw [hl, List.append_assoc, List.cons_append]
        apply earliest_of_split _ _ _ h1
        intro u hu
        rcases List.mem_append.mp hu with hu | hu
        · exact h2 u hu
        · rcases List.mem_cons.mp hu with hu | hu
          · rw [hu]; exact ht0d
          · exact Nat.le_trans ht0d (hpost u hu).1
      have hna := nextDue_of_earliest target a t0 hea
      have hnb := nextDue_of_earliest target
        { a with timers := pre ++ { due := due, task := TimerTask.detach id } :: post } t0 heb
      by_cases hle : t0.due ≤ target
      · rw [if_pos hle] at hna hnb
        obtain ⟨extra, hextra, hfire⟩ := fire_with_timers t0 a
        have hfa : (a.fire t0).timers = (l1 ++ l2) ++ (post ++ extra) := by
          have h0 := congrArg NotificationManager.timers (hfire a.timers)
          have h3 : (a.fire t0).timers = a.timers.erase t0 ++ extra := h0
          rw [h3, hsplit, hl, List.append_assoc, List.cons_append, erase_split _ _ _ h1]
          simp [List.append_assoc]
        refine Or.inl ⟨t0, l1 ++ l2, post ++ extra, hna, hnb, hfa, ?_, ?_, ?_⟩
        · rw [hfire]
          have h4 : (pre ++ { due := due, task := TimerTask.detach id } :: post).erase t0 ++ extra
              = (l1 ++ l2) ++ { due := due, task := TimerTask.detach id } :: (post ++ extra) := by
            rw [hl, List.append_assoc, List.cons_append, erase_split _ _ _ h1]
            simp [List.append_assoc]
          rw [h4]
        · intro u hu
          rcases List.mem_append.mp hu with hu | hu
          · exact hpost u hu
          · obtain ⟨hd1, hd2⟩ := hextra u hu
            refine ⟨?_, hd2⟩
            rw [hd1]
            have := Nat.le_max_left a.now t0.due
            omega
        · rw [fire_now]
          have := Nat.le_max_left a.now t0.due
          omega
      · rw [if_neg hle] at hna hnb
        exact Or.inr (Or.inl ⟨hna, hnb, by omega⟩)
  · have hpre : ∀ u, u ∈ pre → due < u.due := by
      intro u hu
      by_contra hc
      exact hex ⟨u, hu, by omega⟩
    have heb : earliest (pre ++ { due := due, task := TimerTask.detach id } :: post)
        = some { due := due, task := TimerTask.detach id } :=
      earliest_of_split pre post _ hpre (fun u hu => (hpost u hu).1)
    have hnb := nextDue_of_earliest target
      { a with timers := pre ++ { due := due, task := TimerTask.detach id } :: post } _ heb
    by_cases hle : due ≤ target
    · have hdt : due = target := Nat.le_antisymm hle htd
      simp only [if_pos hle] at hnb
      refine Or.inr (Or.inr ⟨hdt, hnb, ?_, ?_⟩)
      · have h5 : (pre ++ { due := due, task := TimerTask.detach id } :: post).erase
            { due := due, task := TimerTask.detach id } = a.timers := by
          rw [erase_split pre post _ hpre, hsplit]
        simp only [NotificationManager.fire, TimerTask.run, h5]
      · intro t ht htl
        rw [hsplit] at ht
        rcases List.mem_append.mp ht with ht | ht
        · have := hpre t ht
          omega
        · exact (hpost t ht).2
    · simp only [if_neg hle] at hnb
      refine Or.inr (Or.inl ⟨?_, hnb, by omega⟩)
      apply nextDue_none_of_late
      intro u hu
      rw [hsplit] at hu
      rcases List.mem_append.mp hu with hu | hu
      · have := hpre u hu
        omega
      · have := (hpost u hu).1
        omega

/-- The run with the end of the fade-out of `id` pending at `due`, next to
the run without it: up to a time before `due` the collections agree, and up to
`due` the one is the other without `id`. -/
theorem removal_simulation (id due target : Nat) (htd : target ≤ due) :
    ∀ (fuel : Nat) (a : NotificationManager) (pre post : List Timer),
      a.timers = pre ++ post →
      (∀ u, u ∈ post → due ≤ u.due ∧ ∃ j, u.task = TimerTask.detach j) →
      due ≤ a.now + 300 →
      totalWeight a.timers ≤ fuel →
      (NotificationManager.runTimers (fuel + 1) target
        { a with timers := pre ++ { due := due, task := TimerTask.detach id } :: post
          }).notifications
        = if due ≤ target
          then (NotificationManager.runTimers fuel target a).notifications.filter
            (fun x => x.id != id)
          else (NotificationManager.runTimers fuel target a).notifications := by
  intro fuel
  induction fuel with
  | zero =>
    intro a pre post hsplit hpost hnow hw
    rcases removal_simulation_step id due target htd a pre post hsplit hpost hnow with
      ⟨t, _, _, hna, _, _, _, _, _⟩ | ⟨hna, hnb, hlt⟩ | ⟨hdt, hnb, hfire, _⟩
    · have ht := (nextDue_some target a t hna).1
      have := totalWeight_erase a.timers t ht
      have := weight_pos t.task
      omega
    · rw [runTimers_none _ _ _ hnb, if_neg (by omega)]
      rfl
    · rw [runTimers_succ_some _ _ _ _ hnb, hfire, if_pos (by omega)]
      rfl
  | succ k ih =>
    intro a pre post hsplit hpost hnow hw
    rcases removal_simulation_step id due target htd a pre post hsplit hpost hnow with
      ⟨t, pre2, post2, hna, hnb, hfa, hfb, hpost2, hnow2⟩ | ⟨hna, hnb, hlt⟩ |
      ⟨hdt, hnb, hfire, hdet⟩
    · rw [runTimers_succ_some _ _ _ t hnb, hfb, runTimers_succ_some _ _ _ t hna]
      apply ih (a.fire t) pre2 post2 hfa hpost2 hnow2
      have := fire_weight t a (nextDue_some target a t hna).1
      omega
    · rw [runTimers_none _ _ _ hnb, runTimers_none _ _ _ hna, if_neg (by omega)]
    · rw [runTimers_succ_some _ _ _ _ hnb, hfire, if_pos (by omega)]
      exact removal_simulation_after id target (k + 1) a (max a.now due) hdet

/-- With its element in the page, remove then time passing, up to 300 ms: the
collection is the one that the same time passing leaves without the call,
and once the 300 ms are over without `id`. -/
theorem remove_then_elapse (id ms : Nat) (m : NotificationManager)
    (he : m.hasElement id = true) (hms : ms ≤ 300) :
    ((m.remove id).elapse ms).notifications
      = if 300 ≤ ms then (m.elapse ms).notifications.filter (fun x => x.id != id)
        else (m.elapse ms).notifications := by
  have hrem : m.remove id
      = { m with
            timers := m.timers ++ { due := m.now + 300, task := TimerTask.detach id } :: [] } := by
    unfold NotificationManager.remove
    rw [if_pos he]
    rfl
  have hsim := removal_simulation id (m.now + 300) (m.now + ms) (by omega)
    (totalWeight m.timers) m m.timers [] (by simp) (fun u hu => by simp at hu)
    (Nat.le_refl _) (Nat.le_refl _)
  have hw : totalWeight (m.timers ++ { due := m.now + 300, task := TimerTask.detach id } :: [])
      = totalWeight m.timers + 1 := by
    simp [totalWeight, TimerTask.weight]
  rw [hrem]
  simp only [NotificationManager.elapse, hw]
  rw [hsim]
  by_cases h3 : 300 ≤ ms
  · rw [if_pos h3, if_pos (by omega)]
  · rw [if_neg h3, if_neg (by omega)]

theorem elapse_quiet (ms : Nat) (m : NotificationManager)
    (h : ∀ t, t ∈ m.timers → m.now + ms < t.due) :
    (m.elapse ms).notifications = m.notifications := by
  simp only [NotificationManager.elapse]
  rw [runTimers_none _ _ _ (nextDue_none_of_late _ _ h)]

theorem remove_hasElement (id j : Nat) (m : NotificationManager) :
    (m.remove j).hasElement id = m.hasElement id := by
  unfold NotificationManager.remove
  split <;> rfl

/-- C18, as the code has it: in every reachable state of the manager and for
every id, remove never fails and leaves the collection unchanged when it
returns, after one call as after two; for an id that is not in the collection
it changes nothing at all; for an id in the collection it sets one timer, due
300 ms later, and changes nothing else, and whatever other timers are pending
the collection is, while less than 300 ms have passed, what it would be
without the call, and once 300 ms have passed, what it would be without the
call, without that id and with every other notification kept in order,
whether remove was called once or twice; when no other timer is due within
those 300 ms this is the original collection without that id. -/
theorem remove_idempotent_after_fade_out (ops : List ManagerOp) (now id ms : Nat) :
    ((runOps ops (NotificationManager.new now)).1.remove id).notifications
      = (runOps ops (NotificationManager.new now)).1.notifications ∧
    (((runOps ops (NotificationManager.new now)).1.remove id).remove id).notifications
      = (runOps ops (NotificationManager.new now)).1.notifications ∧
    (id ∉ (runOps ops (NotificationManager.new now)).1.ids →
      (runOps ops (NotificationManager.new now)).1.remove id
        = (runOps ops (NotificationManager.new now)).1) ∧
    (id ∈ (runOps ops (NotificationManager.new now)).1.ids →
      (runOps ops (NotificationManager.new now)).1.remove id
        = (runOps ops (NotificationManager.new now)).1.setTimeout (TimerTask.detach id) 300 ∧
      (((runOps ops (NotificationManager.new now)).1.remove id).elapse 300).notifications
        = ((runOps ops (NotificationManager.new now)).1.elapse 300).notifications.filter
            (fun n => n.id != id) ∧
      ((((runOps ops (NotificationManager.new now)).1.remove id).remove id).elapse
          300).notifications
        = ((runOps ops (NotificationManager.new now)).1.elapse 300).notifications.filter
            (fun n => n.id != id) ∧
      (ms < 300 →
        (((runOps ops (NotificationManager.new now)).1.remove id).elapse ms).notifications
          = ((runOps ops (NotificationManager.new now)).1.elapse ms).notifications) ∧
      ((∀ t, t ∈ (runOps ops (NotificationManager.new now)).1.timers →
          (runOps ops (NotificationManager.new now)).1.now + 300 < t.due) →
        (((runOps ops (NotificationManager.new now)).1.remove id).elapse 300).notifications
          = (runOps ops (NotificationManager.new now)).1.notifications.filter
              (fun n => n.id != id) ∧
        ((((runOps ops (NotificationManager.new now)).1.remove id).remove id).elapse
            300).notifications
          = (runOps ops (NotificationManager.new now)).1.notifications.filter
              (fun n => n.id != id))) := by
  have hinv := invariant_runOps ops (NotificationManager.new now) (invariant_new now)
  generalize (runOps ops (NotificationManager.new now)).1 = m at hinv ⊢
  refine ⟨(remove_notifications id m).1, ?_, ?_, ?_⟩
  · rw [(remove_notifications id _).1, (remove_notifications id m).1]
  · intro hid
    have he : ¬ m.hasElement id = true := by
      rw [hasElement_iff, hinv.2.1]; exact hid
    unfold NotificationManager.remove
    rw [if_neg he]
  · intro hid
    have he : m.hasElement id = true := by
      rw [hasElement_iff, hinv.2.1]; exact hid
    have he2 : (m.remove id).hasElement id = true := by
      rw [remove_hasElement]; exact he
    have h1 : ((m.remove id).elapse 300).notifications
        = (m.elapse 300).notifications.filter (fun n => n.id != id) := by
      rw [remove_then_elapse id 300 m he (Nat.le_refl _), if_pos (Nat.le_refl _)]
    have h2 : (((m.remove id).remove id).elapse 300).notifications
        = (m.elapse 300).notifications.filter (fun n => n.id != id) := by
      rw [remove_then_elapse id 300 (m.remove id) he2 (Nat.le_refl _), if_pos (Nat.le_refl _),
        h1, List.filter_filter]
      simp
    refine ⟨?_, h1, h2, ?_, ?_⟩
    · unfold NotificationManager.remove
      rw [if_pos he]
    · intro hlt
      rw [remove_then_elapse id ms m he (by omega), if_neg (by omega)]
    · intro hq
      rw [h1, h2, elapse_quiet 300 m hq]
      exact ⟨rfl, rfl⟩

/-- Two toasts with their timers pending, the first removed by hand, twice:
300 ms later the collection holds the second alone, where without the call
it would hold both. -/
theorem remove_idempotent_after_fade_out_witness :
    1 ∈ (runOps [ManagerOp.create "error" "no" none (some 8000),
        ManagerOp.create "info" "hola" none none] (NotificationManager.new 0)).1.ids ∧
    ((runOps [ManagerOp.create "error" "no" none (some 8000),
        ManagerOp.create "info" "hola" none none] (NotificationManager.new 0)).1.elapse 300).ids
      = [1, 2] ∧
    ((((runOps [ManagerOp.create "error" "no" none (some 8000),
        ManagerOp.create "info" "hola" none none] (NotificationManager.new 0)).1.remove 1).remove
        1).elapse 300).ids = [2] ∧
    ((((runOps [ManagerOp.create "error" "no" none (some 8000),
        ManagerOp.create "info" "hola" none none] (NotificationManager.new 0)).1.remove 1).remove
        1).elapse 300).notifications
      = ((runOps [ManagerOp.create "error" "no" none (some 8000),
          ManagerOp.create "info" "hola" none none]
          (NotificationManager.new 0)).1.elapse 300).notifications.filter
            (fun n => n.id != 1) :=
  ⟨by decide, by decide, by decide,
   ((remove_idempotent_after_fade_out
      [ManagerOp.create "error" "no" none (some 8000),
        ManagerOp.create "info" "hola" none none] 0 1 0).2.2.2
      (by decide)).2.2.1⟩

/-! ## Validation: passwords -/

/-- C22: for every string p, validatePassword accepts p exactly when p is not
empty, has a length of at least 8 (VALIDATION.PASSWORD_MIN_LENGTH; the length
as JavaScript counts it, in UTF-16 code units), contains a letter of ASCII and
contains a digit; when it rejects, the message is that of the first failing
rule in the order required, minimum length, letter and number; when it
accepts, the message is empty. -/
theorem validatePassword_iff (p : String) :
    ((validatePassword (some p)).isValid = true ↔
      p ≠ "" ∧ VALIDATION.PASSWORD_MIN_LENGTH ≤ jsLength p ∧
      (∃ c, c ∈ p.data ∧ isAsciiLetter c = true) ∧ (∃ c, c ∈ p.data ∧ isDigit c = true)) ∧
    (p = "" → (validatePassword (some p)).message = "La contraseña es requerida") ∧
    (p ≠ "" → jsLength p < 8 →
      (validatePassword (some p)).message
        = "La contraseña debe tener al menos 8 caracteres") ∧
    (p ≠ "" → 8 ≤ jsLength p →
      ¬ ((∃ c, c ∈ p.data ∧ isAsciiLetter c = true) ∧ (∃ c, c ∈ p.data ∧ isDigit c = true)) →
      (validatePassword (some p)).message
        = "La contraseña debe contener al menos una letra y un número") ∧
    ((validatePassword (some p)).isValid = true → (validatePassword (some p)).message = "") := by
  have hmsg : "La contraseña debe tener al menos " ++ toString VALIDATION.PASSWORD_MIN_LENGTH
      ++ " caracteres" = "La contraseña debe tener al menos 8 caracteres" := by decide
  have hl : (p.data.any isAsciiLetter = true) ↔ ∃ c, c ∈ p.data ∧ isAsciiLetter c = true := by
    simp [List.any_eq_true]
  have hd : (p.data.any isDigit = true) ↔ ∃ c, c ∈ p.data ∧ isDigit c = true := by
    simp [List.any_eq_true]
  rw [← hl, ← hd]
  by_cases he : p = ""
  · subst he
    simp [validatePassword, truthy]
  · have ht : truthy (some p) = true := by simp [truthy, he]
    by_cases hlen : jsLength p < 8
    · have hlen2 : ¬ 8 ≤ jsLength p := by omega
      simp [validatePassword, ht, he, hlen, hlen2, VALIDATION.PASSWORD_MIN_LENGTH]
      exact hmsg
    · have hlen2 : 8 ≤ jsLength p := by omega
      cases h1 : p.data.any isAsciiLetter <;> cases h2 : p.data.any isDigit <;>
      simp [validatePassword, ht, he, hlen, hlen2, VALIDATION.PASSWORD_MIN_LENGTH, h1, h2]

/-! ## Validation: sanitizeInput -/

theorem deleteMatches_sublist (pattern : List Char) :
    ∀ (cs : List Char) (skip : Nat), (deleteMatches pattern skip cs).Sublist cs := by
  intro cs
  induction cs with
  | nil => intro skip; cases skip <;> exact List.Sublist.refl _
  | cons c rest ih =>
    intro skip
    cases skip with
    | zero =>
      unfold deleteMatches
      split
      · exact List.Sublist.cons _ (ih _)
      · exact List.Sublist.cons₂ _ (ih _)
    | succ n =>
      unfold deleteMatches
      exact List.Sublist.cons _ (ih _)

theorem trimChars_eq (cs : List Char) :
    trimChars cs = List.rdropWhile isJsWhitespace (cs.dropWhile isJsWhitespace) := rfl

theorem trimChars_spec (cs : List Char) :
    (trimChars cs).Sublist cs ∧
    (∀ c, (trimChars cs).head? = some c → isJsWhitespace c = false) ∧
    (∀ c, (trimChars cs).getLast? = some c → isJsWhitespace c = false) := by
  have hpre : trimChars cs <+: cs.dropWhile isJsWhitespace := by
    rw [trimChars_eq]; exact List.rdropWhile_prefix _ _
  refine ⟨hpre.sublist.trans (List.dropWhile_sublist _), ?_, ?_⟩
  · intro c hc
    have hne : trimChars cs ≠ [] := by
      intro h; rw [h] at hc; simp at hc
    have hne2 : cs.dropWhile isJsWhitespace ≠ [] := by
      intro h; rw [h] at hpre; exact hne (List.prefix_nil.mp hpre)
    have h1 := hpre.head hne
    have h2 := List.head_dropWhile_not isJsWhitespace cs hne2
    have h3 : (trimChars cs).head hne = c := by
      have := List.head?_eq_head hne
      rw [this] at hc
      exact Option.some.inj hc
    rw [← h3, h1]
    exact h2
  · intro c hc
    have hne : trimChars cs ≠ [] := by
      intro h; rw [h] at hc; simp at hc
    have h3 : (trimChars cs).getLast hne = c := by
      have := List.getLast?_eq_getLast _ hne
      rw [this] at hc
      exact Option.some.inj hc
    have hne2 : List.rdropWhile isJsWhitespace (cs.dropWhile isJsWhitespace) ≠ [] := hne
    have h4 := List.rdropWhile_last_not (p := isJsWhitespace)
      (l := cs.dropWhile isJsWhitespace) hne2
    have h5 : (List.rdropWhile isJsWhitespace (cs.dropWhile isJsWhitespace)).getLast hne2
        = c := h3
    rw [h5] at h4
    simpa using h4

/-- C23 at the failing input: the single pass that deletes javascript: leaves
the occurrence that the deletion itself puts together, so the result still
contains javascript:.  The other parts hold for every string: the result
contains neither of the angle brackets and has no white space at either end;
and an input that is not a string is returned unchanged. -/
theorem sanitizeInput_leaves_javascript :
    sanitizeInput (JsValue.str "javajavascript:script:alert(1)")
      = JsValue.str "javascript:alert(1)" ∧
    containsIgnoreCase "javascript:".data "javascript:alert(1)".data = true ∧
    sanitizeInput (JsValue.str "  <b>JavaScript:x</b> ") = JsValue.str "bx/b" ∧
    (∀ s : String, ∃ r : String, sanitizeInput (JsValue.str s) = JsValue.str r ∧
      Char.ofNat 60 ∉ r.data ∧ Char.ofNat 62 ∉ r.data ∧
      (∀ c, r.data.head? = some c → isJsWhitespace c = false) ∧
      (∀ c, r.data.getLast? = some c → isJsWhitespace c = false)) ∧
    (∀ v : JsValue, (∀ s, v ≠ JsValue.str s) → sanitizeInput v = v) := by
  refine ⟨by decide, by decide, by decide, ?_, ?_⟩
  · intro s
    refine ⟨String.mk (trimChars (removeJavascript (removeAngles s.data))), rfl, ?_, ?_,
      (trimChars_spec _).2.1, (trimChars_spec _).2.2⟩
    · intro hmem
      have h1 := (trimChars_spec (removeJavascript (removeAngles s.data))).1.subset hmem
      have h2 := (deleteMatches_sublist "javascript:".data (removeAngles s.data) 0).subset h1
      simp [removeAngles] at h2
    · intro hmem
      have h1 := (trimChars_spec (removeJavascript (removeAngles s.data))).1.subset hmem
      have h2 := (deleteMatches_sublist "javascript:".data (removeAngles s.data) 0).subset h1
      simp [removeAngles] at h2
  · intro v hv
    cases v with
    | str s => exact absurd rfl (hv s)
    | _ => rfl

/-! ## Registration: validation -/

theorem register_sent (userData : List (String × String))
    (outcome : Except ApiError AuthPayload) (w : World) :
    ∃ authorization, (register userData outcome w).2.sent = w.sent ++
      [{ method := Method.POST, url := "/auth/register", data := userData,
         authorization := authorization }] := by
  cases outcome with
  | ok payload =>
    cases ht : truthy (w.localStorage.getItem "token") <;>
    simp [register, authService.register, api.request, api.send,
      requestInterceptor, localStorage.getItem,
      localStorage.setItem, setUser, setIsAuthenticated, setError, bind, pure,
      Eff.seq, Eff.ret, Eff.tryCatch, Eff.modify, ht]
  | error e =>
    cases ht : truthy (w.localStorage.getItem "token") <;>
    cases h4 : e.is401 <;>
    simp [register, authService.register, api.request, api.send,
      requestInterceptor, responseInterceptor, localStorage.getItem, localStorage.removeItem,
      setError, bind, pure, Eff.seq, Eff.ret, Eff.tryCatch, Eff.modify, Eff.raise, ht, h4]

/-- C21 fails as stated: the view submits a registration whatever else the
form state holds; with a confirmation that differs from the password the
session store registers the user all the same, with one request to the
registration endpoint and no error notification. -/
theorem register_submitted_without_validation :
    (Login.handleSubmit
      { formData := { email := "a@b.com", password := "abc12345", name := "Ana",
                      others := [("confirmPassword", "abc12346")] },
        showPassword := false, loading := false, isLoginMode := false }
      (Except.ok { token := "abc", user := sampleStudent }) anonymousWorld []).world.sent
      = [{ method := Method.POST, url := "/auth/register",
           data := [("email", "a@b.com"), ("password", "abc12345"), ("name", "Ana")],
           authorization := none }] ∧
    (Login.handleSubmit
      { formData := { email := "a@b.com", password := "abc12345", name := "Ana",
                      others := [("confirmPassword", "abc12346")] },
        showPassword := false, loading := false, isLoginMode := false }
      (Except.ok { token := "abc", user := sampleStudent })
      anonymousWorld []).world.session.isAuthenticated = true ∧
    (Login.handleSubmit
      { formData := { email := "a@b.com", password := "abc12345", name := "Ana",
                      others := [("confirmPassword", "abc12346")] },
        showPassword := false, loading := false, isLoginMode := false }
      (Except.ok { token := "abc", user := sampleStudent }) anonymousWorld []).emitted
      = [{ kind := NoticeKind.success, message := "¡Cuenta creada exitosamente!" }] := by
  decide

/-- C21, as the code has it: the view Login has no field for a confirmation
and validates nothing: every submission in registration mode calls register
of the session store with email, password and name of the form, whatever the
other keys of the form state.  The validator validateRegisterForm, which the
view does not call, returns isValid false with errors.confirmPassword set for
every form whose confirmPassword is missing, empty or different from password. -/
theorem register_validation_only_in_validator (view : LoginView)
    (outcome : Except ApiError AuthPayload) (w : World) (emitted : List Notice)
    (formData : RegisterForm) :
    (view.isLoginMode = false →
      (Login.handleSubmit view outcome w emitted).world
        = (register [("email", view.formData.email), ("password", view.formData.password),
                     ("name", view.formData.name)] outcome w).2 ∧
      ∃ authorization, (Login.handleSubmit view outcome w emitted).world.sent = w.sent ++
        [{ method := Method.POST, url := "/auth/register",
           data := [("email", view.formData.email), ("password", view.formData.password),
                    ("name", view.formData.name)],
           authorization := authorization }]) ∧
    ((formData.confirmPassword = none ∨ formData.confirmPassword = some "" ∨
        formData.confirmPassword ≠ formData.password) →
      (validateRegisterForm formData).isValid = false ∧
      ∃ message, ("confirmPassword", message) ∈ (validateRegisterForm formData).errors) := by
  constructor
  · intro hmode
    have h1 : (Login.handleSubmit view outcome w emitted).world
        = (register [("email", view.formData.email), ("password", view.formData.password),
                     ("name", view.formData.name)] outcome w).2 := by
      simp [Login.handleSubmit, hmode]
    refine ⟨h1, ?_⟩
    rw [h1]
    exact register_sent _ outcome w
  · intro hc
    have hinv : (validatePasswordConfirmation formData.password formData.confirmPassword).isValid
        = false := by
      unfold validatePasswordConfirmation
      rcases hc with h | h | h
      · simp [h, truthy]
      · simp [h, truthy]
      · by_cases ht : truthy formData.confirmPassword = true
        · have hne : (formData.password != formData.confirmPassword) = true := by
            simpa [bne_iff_ne] using fun heq => h heq.symm
          simp [ht, hne]
        · simp [ht]
    have hmem : ("confirmPassword",
        (validatePasswordConfirmation formData.password formData.confirmPassword).message)
        ∈ (validateRegisterForm formData).errors := by
      simp [validateRegisterForm, addError, hinv]
    refine ⟨?_, _, hmem⟩
    have hlen : (validateRegisterForm formData).errors ≠ [] := by
      intro h; rw [h] at hmem; simp at hmem
    have : (validateRegisterForm formData).isValid
        = ((validateRegisterForm formData).errors.length == 0) := rfl
    rw [this]
    cases hE : (validateRegisterForm formData).errors with
    | nil => exact absurd hE hlen
    | cons a rest => rfl

/-! ## Change of password -/

theorem handleSubmit_world (view : CambiarContrasenaView) (w : World)
    (emitted : List Notice) : (CambiarContrasena.handleSubmit view w emitted).world = w := by
  unfold CambiarContrasena.handleSubmit
  simp only []
  split
  · rfl
  · split <;> rfl

/-- C25 at the failing input: with an old password and a new password of 8
characters that equals its confirmation, the submission shows the success
message and notification without any call of updatePassword: the world is
untouched and no request is sent, for this as for every form state; a call of
updatePassword of the session store would have sent one request to the
endpoint of the change of password. -/
theorem change_password_never_calls_update :
    (CambiarContrasena.handleSubmit
      { oldPassword := "old12345", newPassword := "abc12345",
        confirmNewPassword := "abc12345", loading := false, error := none, success := none }
      loggedInWorld []).world = loggedInWorld ∧
    (CambiarContrasena.handleSubmit
      { oldPassword := "old12345", newPassword := "abc12345",
        confirmNewPassword := "abc12345", loading := false, error := none, success := none }
      loggedInWorld []).world.sent = [] ∧
    (CambiarContrasena.handleSubmit
      { oldPassword := "old12345", newPassword := "abc12345",
        confirmNewPassword := "abc12345", loading := false, error := none, success := none }
      loggedInWorld []).view.success = some "Contraseña actualizada exitosamente." ∧
    (CambiarContrasena.handleSubmit
      { oldPassword := "old12345", newPassword := "abc12345",
        confirmNewPassword := "abc12345", loading := false, error := none, success := none }
      loggedInWorld []).emitted
      = [{ kind := NoticeKind.success, message := "Contraseña actualizada exitosamente." }] ∧
    (updatePassword "old12345" "abc12345" (Except.ok ()) loggedInWorld).2.sent
      = [{ method := Method.POST, url := "/auth/change-password",
           data := [("old_password", "old12345"), ("new_password", "abc12345")],
           authorization := some "Bearer abc" }] ∧
    (∀ (view : CambiarContrasenaView) (w : World) (emitted : List Notice),
      (CambiarContrasena.handleSubmit view w emitted).world = w) := by
  refine ⟨by decide, by decide, by decide, by decide, by decide, handleSubmit_world⟩

theorem accepts_iff (view : CambiarContrasenaView) (w : World) (emitted : List Notice) :
    CambiarContrasena.accepts view w emitted = true ↔
      view.newPassword = view.confirmNewPassword ∧ 6 ≤ jsLength view.newPassword := by
  unfold CambiarContrasena.accepts CambiarContrasena.handleSubmit
  by_cases h1 : view.newPassword = view.confirmNewPassword
  · by_cases h2 : jsLength view.newPassword < 6
    · have h3 : ¬ 6 ≤ jsLength view.newPassword := by omega
      have h2c : jsLength view.confirmNewPassword < 6 := by rw [← h1]; exact h2
      simp [h1, h2c]
    · have h3 : 6 ≤ jsLength view.newPassword := by omega
      have h2c : ¬ jsLength view.confirmNewPassword < 6 := by rw [← h1]; exact h2
      simp [h1, h2c]
      all_goals (try (rw [← h1]; exact h3))
  · simp [h1]

theorem validatePassword_length (p : String)
    (h : (validatePassword (some p)).isValid = true) :
    VALIDATION.PASSWORD_MIN_LENGTH ≤ jsLength p := by
  unfold validatePassword at h
  by_cases ht : truthy (some p) = true
  · by_cases hl : jsLength p < VALIDATION.PASSWORD_MIN_LENGTH
    · simp [ht, hl] at h
    · omega
  · simp [ht] at h

/-- C29 fails as stated: the form accepts the new password aaaaaa, which the
password validator rejects. -/
theorem change_password_accepts_weak :
    CambiarContrasena.accepts
      { oldPassword := "old12345", newPassword := "aaaaaa", confirmNewPassword := "aaaaaa",
        loading := false, error := none, success := none } loggedInWorld [] = true ∧
    (validatePassword (some "aaaaaa")).isValid = false := by
  decide

/-- C29, as the code has it: the change-password form accepts a new password
exactly when it equals its confirmation and has a length of at least 6; every
password that satisfies validatePassword and equals its confirmation is
accepted, but an accepted password need not satisfy validatePassword. -/
theorem change_password_accepts_iff (view : CambiarContrasenaView) (w : World)
    (emitted : List Notice) :
    (CambiarContrasena.accepts view w emitted = true ↔
      view.newPassword = view.confirmNewPassword ∧ 6 ≤ jsLength view.newPassword) ∧
    ((validatePassword (some view.newPassword)).isValid = true →
      view.newPassword = view.confirmNewPassword →
      CambiarContrasena.accepts view w emitted = true) := by
  refine ⟨accepts_iff view w emitted, ?_⟩
  intro hv heq
  have h8 := validatePassword_length _ hv
  have : 6 ≤ jsLength view.newPassword := by
    unfold VALIDATION.PASSWORD_MIN_LENGTH at h8; omega
  exact (accepts_iff view w emitted).mpr ⟨heq, this⟩

/-! ## Home route -/

theorem routes_home : routes [] = RouteTarget.guarded ["estudiante"] Screen.StudentDashboard :=
  rfl

theorem routes_chat :
    routes ["chat"] = RouteTarget.guarded ["estudiante"] Screen.ChatPrincipal := by
  decide

theorem visit_denied (auth : Session) (path : Path) (screen : Screen) (emitted : List Notice)
    (hroute : routes path = RouteTarget.guarded ["estudiante"] screen)
    (hl : auth.loading = false) (ha : auth.isAuthenticated = true)
    (hr : includes ["estudiante"] (auth.user.bind (fun u => u.rol)) = false) :
    visit auth path emitted = (Visit.redirected [],
      emitted ++ [{ kind := NoticeKind.error,
                    message := "No tienes permisos para acceder a esta página" }]) := by
  have hp : parsePath "/" = [] := by decide
  unfold visit
  rw [hroute]
  simp [ProtectedRoute, hl, ha, hr, showNotification.error, hp]

theorem follow_home_denied (auth : Session)
    (hl : auth.loading = false) (ha : auth.isAuthenticated = true)
    (hr : includes ["estudiante"] (auth.user.bind (fun u => u.rol)) = false) :
    ∀ (fuel : Nat) (emitted : List Notice), (follow fuel auth [] emitted).1 = none := by
  intro fuel
  induction fuel with
  | zero => intro emitted; rfl
  | succ n ih =>
    intro emitted
    unfold follow
    rw [visit_denied auth [] _ emitted routes_home hl ha hr]
    exact ih _

/-- C24 at the failing input: for an authenticated tutor (and likewise an
admin) the home route, which only admits the role estudiante, is not rendered
but redirects to itself with an error notification, so following the
redirects from the home route, or from a student route such as /chat, never
reaches a rendered view however many steps are taken; for a student the home
route renders the dashboard. -/
theorem home_redirects_to_itself (id : Nat) (email : String)
    (permisos : Option (List String)) (err : Option String) (emitted : List Notice)
    (fuel : Nat) :
    visit { user := some { id := id, email := email, rol := some "tutor",
                           permisos := permisos },
            isAuthenticated := true, loading := false, error := err } [] emitted
      = (Visit.redirected [],
         emitted ++ [{ kind := NoticeKind.error,
                       message := "No tienes permisos para acceder a esta página" }]) ∧
    (follow fuel { user := some { id := id, email := email, rol := some "tutor",
                                  permisos := permisos },
                   isAuthenticated := true, loading := false, error := err }
      [] emitted).1 = none ∧
    (follow fuel { user := some { id := id, email := email, rol := some "tutor",
                                  permisos := permisos },
                   isAuthenticated := true, loading := false, error := err }
      ["chat"] emitted).1 = none ∧
    (follow fuel { user := some { id := id, email := email, rol := some "admin",
                                  permisos := permisos },
                   isAuthenticated := true, loading := false, error := err }
      [] emitted).1 = none ∧
    (follow (fuel + 1) { user := some { id := id, email := email, rol := some "estudiante",
                                        permisos := permisos },
                         isAuthenticated := true, loading := false, error := err }
      [] emitted) = (some Screen.StudentDashboard, emitted) := by
  have ht : includes ["estudiante"] (some "tutor") = false := by decide
  have hadm : includes ["estudiante"] (some "admin") = false := by decide
  refine ⟨visit_denied _ [] _ emitted routes_home rfl rfl ht,
    follow_home_denied
      { user := some { id := id, email := email, rol := some "tutor", permisos := permisos },
        isAuthenticated := true, loading := false, error := err } rfl rfl ht fuel emitted,
    ?_,
    follow_home_denied
      { user := some { id := id, email := email, rol := some "admin", permisos := permisos },
        isAuthenticated := true, loading := false, error := err } rfl rfl hadm fuel emitted,
    ?_⟩
  · cases fuel with
    | zero => rfl
    | succ n =>
      unfold follow
      rw [visit_denied
        { user := some { id := id, email := email, rol := some "tutor", permisos := permisos },
          isAuthenticated := true, loading := false, error := err }
        ["chat"] _ emitted routes_chat rfl rfl ht]
      exact follow_home_denied
        { user := some { id := id, email := email, rol := some "tutor", permisos := permisos },
          isAuthenticated := true, loading := false, error := err } rfl rfl ht n _
  · have hs : includes ["estudiante"] (some "estudiante") = true := by decide
    unfold follow visit
    rw [routes_home]
    simp [ProtectedRoute, hs]

/-! ## Logger and configuration -/

/-- C26 at the failing input: in the test environment the logger uses the
threshold error while the configuration of that environment declares warn;
the logger derives its threshold from NODE_ENV alone and never reads the
configuration.  In development and production the two agree. -/
theorem logger_ignores_configuration (url : Option String) :
    (Logger.create (envOf "test" url).NODE_ENV).logLevel = "error" ∧
    currentConfig.logLevel (envOf "test" url) = some "warn" ∧
    some (Logger.create (envOf "test" url).NODE_ENV).logLevel
      ≠ currentConfig.logLevel (envOf "test" url) ∧
    some (Logger.create (envOf "development" url).NODE_ENV).logLevel
      = currentConfig.logLevel (envOf "development" url) ∧
    some (Logger.create (envOf "production" url).NODE_ENV).logLevel
      = currentConfig.logLevel (envOf "production" url) := by
  have h1 : currentConfig.logLevel (envOf "test" url) = some "warn" := by
    simp [currentConfig.logLevel, configFor, environment, orElse, envOf]
  have h2 : currentConfig.logLevel (envOf "development" url) = some "debug" := by
    simp [currentConfig.logLevel, configFor, environment, orElse, envOf]
  have h3 : currentConfig.logLevel (envOf "production" url) = some "error" := by
    simp [currentConfig.logLevel, configFor, environment, orElse, envOf]
  have k1 : (Logger.create (some "test")).logLevel = "error" := by decide
  have k2 : (Logger.create (some "development")).logLevel = "debug" := by decide
  have k3 : (Logger.create (some "production")).logLevel = "error" := by decide
  refine ⟨k1, h1, ?_, ?_, ?_⟩
  · rw [h1]
    show some (Logger.create (some "test")).logLevel ≠ some "warn"
    rw [k1]; decide
  · rw [h2]
    show some (Logger.create (some "development")).logLevel = some "debug"
    rw [k2]
  · rw [h3]
    show some (Logger.create (some "production")).logLevel = some "error"
    rw [k3]

/-! ## Memoization -/

theorem lookup_append {β : Type} (cache : MemoCache β) (k key : String) (v : β) :
    MemoCache.lookup (cache ++ [(k, v)]) key
      = (MemoCache.lookup cache key).or (if k = key then some v else none) := by
  unfold MemoCache.lookup
  rw [List.find?_append]
  cases cache.find? (fun entry => entry.1 == key) with
  | some e => simp
  | none =>
    by_cases h : k = key <;> simp [List.find?_cons, h]

theorem memoRun_eq_expected {β : Type} (fn : List JsValue → β) :
    ∀ (calls : List (List JsValue)) (cache : MemoCache β) (seen : List (List JsValue)),
      (∀ key, MemoCache.lookup cache key
        = (seen.find? (fun earlier => JSON.stringify earlier == key)).map fn) →
      memoRun fn calls cache = memoExpected fn calls seen := by
  intro calls
  induction calls with
  | nil => intro cache seen _; rfl
  | cons args rest ih =>
    intro cache seen hinv
    have hk := hinv (JSON.stringify args)
    unfold memoRun memoExpected
    cases hl : MemoCache.lookup cache (JSON.stringify args) with
    | some v =>
      rw [hl] at hk
      have hm : memoized fn args cache = (v, cache) := by
        simp [memoized, hl]
      rw [hm]
      cases hf : seen.find? (fun earlier => JSON.stringify earlier == JSON.stringify args) with
      | none => rw [hf] at hk; simp at hk
      | some b =>
        rw [hf] at hk
        have hv : fn b = v := by simpa using hk.symm
        have hfirst : firstWithKey seen args = b := by simp [firstWithKey, hf]
        rw [hfirst, hv]
        congr 1
        apply ih
        intro key
        rw [List.find?_append, hinv key]
        cases hs : seen.find? (fun earlier => JSON.stringify earlier == key) with
        | some c => simp
        | none =>
          by_cases hkey : JSON.stringify args = key
          · subst hkey
            rw [hf] at hs
            simp at hs
          · simp [List.find?_cons, hkey]
    | none =>
      rw [hl] at hk
      have hm : memoized fn args cache
          = (fn args, cache ++ [(JSON.stringify args, fn args)]) := by
        simp [memoized, hl]
      rw [hm]
      have hf : seen.find? (fun earlier => JSON.stringify earlier == JSON.stringify args)
          = none := by
        cases hf : seen.find? (fun earlier => JSON.stringify earlier == JSON.stringify args) with
        | none => rfl
        | some b => rw [hf] at hk; simp at hk
      have hfirst : firstWithKey seen args = args := by simp [firstWithKey, hf]
      rw [hfirst]
      congr 1
      apply ih
      intro key
      rw [lookup_append, List.find?_append, hinv key]
      cases hs : seen.find? (fun earlier => JSON.stringify earlier == key) with
      | some c => simp
      | none =>
        by_cases hkey : JSON.stringify args = key <;> simp [List.find?_cons, hkey]

theorem memoExpected_of_injective {β : Type} (fn : List JsValue → β) :
    ∀ (calls seen : List (List JsValue)),
      (∀ a, a ∈ seen ++ calls → ∀ b, b ∈ seen ++ calls →
        JSON.stringify a = JSON.stringify b → a = b) →
      memoExpected fn calls seen = calls.map fn := by
  intro calls
  induction calls with
  | nil => intro seen _; rfl
  | cons args rest ih =>
    intro seen hinj
    unfold memoExpected
    have hfirst : firstWithKey seen args = args := by
      unfold firstWithKey
      cases hf : seen.find? (fun earlier => JSON.stringify earlier == JSON.stringify args) with
      | none => rfl
      | some b =>
        have hb := List.find?_some hf
        have hmem := List.mem_of_find?_eq_some hf
        simp only [beq_iff_eq] at hb
        exact hinj b (List.mem_append_left _ hmem) args
          (List.mem_append_right _ (List.mem_cons_self _ _)) hb
    rw [hfirst, List.map_cons]
    congr 1
    apply ih
    intro a ha b hb
    apply hinj
    · simpa using ha
    · simpa using hb

/-- C27 fails as stated: called with null and then with undefined, the
memoized identity returns for the second call what it returned for the first,
since both argument lists have the key [null]. -/
theorem memoize_confuses_null_and_undefined :
    memoRun (fun args => args) [[JsValue.null], [JsValue.undefined]] []
      = [[JsValue.null], [JsValue.null]] ∧
    memoRun (fun args => args) [[JsValue.null], [JsValue.undefined]] []
      ≠ [[JsValue.null], [JsValue.undefined]].map (fun args => args) ∧
    JSON.stringify [JsValue.null] = JSON.stringify [JsValue.undefined] := by
  decide

/-- C27, as the code has it: for every pure function fn and every finite
sequence of calls, each call of memoize(fn) returns fn of the first argument
list passed so far whose JSON.stringify text equals that of its own; it
returns fn of its own arguments for every call when no two different argument
lists of the sequence have the same text. -/
theorem memoize_returns_first_with_key {β : Type} (fn : List JsValue → β)
    (calls : List (List JsValue)) :
    memoRun fn calls [] = memoExpected fn calls [] ∧
    ((∀ a, a ∈ calls → ∀ b, b ∈ calls → JSON.stringify a = JSON.stringify b → a = b) →
      memoRun fn calls [] = calls.map fn) := by
  have h1 : memoRun fn calls [] = memoExpected fn calls [] :=
    memoRun_eq_expected fn calls [] [] (fun key => by simp [MemoCache.lookup])
  refine ⟨h1, ?_⟩
  intro hinj
  rw [h1]
  exact memoExpected_of_injective fn calls [] (by simpa using hinj)

/-! ## Tutor notifications: stats -/

/-- C28 at the failing input: after a successful load of one unread critical
notification the stats agree with the list; after a successful markAsRead of
it the list has no unread notification while stats.unread is still 1, after
markAllAsRead likewise, and after a successful deleteNotification the list is
empty while stats.total and stats.critical are still 1.  The stats are only
computed in loadNotifications, after which they agree for every answer. -/
theorem stats_stale_after_update :
    (NotificacionesTutor.markAsRead 7 (Except.ok ())
      (NotificacionesTutor.loadNotifications
        (Except.ok [{ id := 7, leida := false, urgencia := "critical", tipo := "alert" }])
        NotificacionesTutor.initial)).stats.unread = 1 ∧
    ((NotificacionesTutor.markAsRead 7 (Except.ok ())
      (NotificacionesTutor.loadNotifications
        (Except.ok [{ id := 7, leida := false, urgencia := "critical", tipo := "alert" }])
        NotificacionesTutor.initial)).notifications.filter
          (fun n => n.leida == false)).length = 0 ∧
    (NotificacionesTutor.markAllAsRead (Except.ok ())
      (NotificacionesTutor.loadNotifications
        (Except.ok [{ id := 7, leida := false, urgencia := "critical", tipo := "alert" }])
        NotificacionesTutor.initial)).stats.unread = 1 ∧
    ((NotificacionesTutor.markAllAsRead (Except.ok ())
      (NotificacionesTutor.loadNotifications
        (Except.ok [{ id := 7, leida := false, urgencia := "critical", tipo := "alert" }])
        NotificacionesTutor.initial)).notifications.filter
          (fun n => n.leida == false)).length = 0 ∧
    (NotificacionesTutor.deleteNotification 7 (Except.ok ())
      (NotificacionesTutor.loadNotifications
        (Except.ok [{ id := 7, leida := false, urgencia := "critical", tipo := "alert" }])
        NotificacionesTutor.initial)).stats.total = 1 ∧
    (NotificacionesTutor.deleteNotification 7 (Except.ok ())
      (NotificacionesTutor.loadNotifications
        (Except.ok [{ id := 7, leida := false, urgencia := "critical", tipo := "alert" }])
        NotificacionesTutor.initial)).notifications.length = 0 ∧
    (∀ (response : List TutorNotification) (view : NotificacionesTutorView),
      StatsAgree (NotificacionesTutor.loadNotifications (Except.ok response) view)) := by
  refine ⟨by decide, by decide, by decide, by decide, by decide, by decide, ?_⟩
  intro response view
  refine ⟨rfl, ?_, rfl, rfl⟩
  simp only [NotificacionesTutor.loadNotifications, calculateStats]
  congr 1
  apply List.filter_congr
  intro n _
  cases n.leida <;> rfl

/-! ## Chat: the body of the request -/

theorem buildHistory_eq_expected (messages : List ChatMessage) :
    ChatPrincipal.buildHistory messages = expectedHistory messages := by
  induction messages with
  | nil => rfl
  | cons msg rest ih =>
    unfold ChatPrincipal.buildHistory at ih ⊢
    unfold expectedHistory
    simp only [beq_iff_eq] at ih
    by_cases hu : msg.sender = "user"
    · have hb : ¬ msg.sender = "bot" := by rw [hu]; decide
      by_cases hc : msg.content = ""
      · simp [List.filter_cons, hu, hc]
        exact ih
      · simp [List.filter_cons, hu, hc]
        exact ih
    · by_cases hb : msg.sender = "bot"
      · by_cases hc : msg.content = ""
        · simp [List.filter_cons, hu, hb, hc]
          exact ih
        · simp [List.filter_cons, hu, hb, hc]
          exact ih
      · simp [List.filter_cons, hu, hb]
        exact ih

theorem trimChars_eq_nil_iff (cs : List Char) :
    trimChars cs = [] ↔ ∀ c, c ∈ cs → isJsWhitespace c = true := by
  rw [trimChars_eq, List.rdropWhile_eq_nil_iff]
  constructor
  · intro h
    have hnil : cs.dropWhile isJsWhitespace = [] := by
      by_contra hne
      have h1 := List.head_dropWhile_not isJsWhitespace cs hne
      have h2 := h _ (List.head_mem hne)
      rw [h1] at h2
      exact Bool.false_ne_true h2
    exact List.dropWhile_eq_nil_iff.mp hnil
  · intro h x hx
    exact h x ((List.dropWhile_sublist _).subset hx)

/-- C30: for every list of prior messages and every new text that is not
blank, when no send is in progress the body passed to chatService.sendMessage
has user_text equal to the new text and as history, in the original order,
one pair per prior message whose sender is user or bot and whose content is
not empty, the content first for a message of the user and second for a
message of the bot; the history is built from the prior messages only, so it
does not contain the message being sent.  When the new text is blank (empty
or white space only) or a send is in progress, no request is made and the
view, its list of messages included, is unchanged. -/
theorem chat_request_body (now later : Nat) (stamp laterStamp : String)
    (outcome : Except ApiError ChatResponse) (view : ChatPrincipalView) :
    ((∃ c, c ∈ view.newMessage.data ∧ isJsWhitespace c = false) → view.isLoading = false →
      (ChatPrincipal.handleSendMessage now later stamp laterStamp outcome view).requests
        = view.requests ++
          [{ user_text := view.newMessage, history := expectedHistory view.messages }]) ∧
    (((∀ c, c ∈ view.newMessage.data → isJsWhitespace c = true) ∨ view.isLoading = true) →
      ChatPrincipal.handleSendMessage now later stamp laterStamp outcome view = view) := by
  have hblank : (jsTrim view.newMessage == "") = true ↔
      ∀ c, c ∈ view.newMessage.data → isJsWhitespace c = true := by
    rw [← trimChars_eq_nil_iff]
    unfold jsTrim
    constructor
    · intro h
      have h1 : String.mk (trimChars view.newMessage.data) = "" := by simpa using h
      have h2 := congrArg String.data h1
      simpa using h2
    · intro h
      rw [h]
      rfl
  constructor
  · intro hne hload
    have hb : (jsTrim view.newMessage == "") = false := by
      rw [← Bool.not_eq_true, hblank]
      intro hall
      obtain ⟨c, hc, hw⟩ := hne
      rw [hall c hc] at hw
      exact Bool.noConfusion hw
    cases outcome with
    | ok response =>
      simp [ChatPrincipal.handleSendMessage, hb, hload, buildHistory_eq_expected]
    | error e =>
      simp [ChatPrincipal.handleSendMessage, hb, hload, buildHistory_eq_expected]
  · intro h
    rcases h with h | h
    · have hb : (jsTrim view.newMessage == "") = true := hblank.mpr h
      simp [ChatPrincipal.handleSendMessage, hb]
    · simp [ChatPrincipal.handleSendMessage, h]

end PsiChat
